import Mathlib

/-!
# Scene-description parser of the path tracer (src/src/parser/parser.cpp)

A shallow embedding of the XML scene parser.  The C++ code keeps its result and
its lookup tables in file-scope globals (namespace local); here they are the
fields of `ParserState`, passed explicitly.  A C++ exception, a call of
`exit(1)` and a successful return are the three outcomes of a parser function,
so every function returns `Except Err _`.

Conventions of the embedding.
* `float` is a linearly ordered field `F` (ideal arithmetic, no rounding); the
  definitions are generic in `F` and run on `ℚ`.  A statement that a stored
  value is an expression of the values read holds for the binary32 arithmetic
  of the C++ code as long as the expression is the one the code evaluates, with
  the same operations in the same order.  The claims that need more than that
  are settled on the binary32 reading of the same expressions (section
  "Binary32 arithmetic").  A quotient by zero, NaN or an infinity in binary32,
  is the `x / 0` of the field; the statements give it as the quotient the code
  computes and do not use its value.
* `uint32_t` values are naturals reduced modulo `2 ^ 32`; `int` is `Int`;
  `size_t` / `uint64_t` indices are naturals (a vector never holds `2 ^ 64`
  elements).
* `switch (Hash(s))` with `case "lit"_hash` labels is a comparison of `s` with
  the literals (the hash is taken to be collision free on them).
* A pugixml node handle is an `XmlNode`; the null handle is `XmlNode.null`.
* Code of the repository that is not among the sources, and library calls
  that touch the file system, are the fields of `Lib`.
-/

namespace Csrt

/-! ## pugixml handles -/

/-- An XML attribute: name and value. -/
structure XmlAttribute where
  name : String
  value : String

/-- A pugixml node handle: the null handle, or an element with its attributes and child elements
in document order. -/
inductive XmlNode where
  | null : XmlNode
  | elem (name : String) (attrs : List XmlAttribute) (children : List XmlNode) : XmlNode

namespace XmlNode

/-- The `operator!` / `operator bool` test of a handle. -/
def isNull : XmlNode → Bool
  | null => true
  | elem _ _ _ => false

/-- Member `name()`: the empty string for the null handle. -/
def name : XmlNode → String
  | null => ""
  | elem n _ _ => n

/-- All attributes of a node. -/
def attrs : XmlNode → List XmlAttribute
  | null => []
  | elem _ a _ => a

/-- Member `children()`: all child elements in document order. -/
def children : XmlNode → List XmlNode
  | null => []
  | elem _ _ c => c

/-- Member `attribute(key)`: the value of the first attribute of that name, `none` for the null
attribute handle. -/
def attr (n : XmlNode) (key : String) : Option String :=
  (n.attrs.find? (fun a => a.name = key)).map (fun a => a.value)

/-- Member `child(key)`: the first child element of that name, the null handle when there is
none. -/
def child (n : XmlNode) (key : String) : XmlNode :=
  (n.children.find? (fun c => c.name = key)).getD null

/-- Member `children(key)`: the child elements of that name, in document order. -/
def childrenNamed (n : XmlNode) (key : String) : List XmlNode :=
  n.children.filter (fun c => c.name = key)

end XmlNode

/-- Attribute member `value()` and `as_string()` without default: the empty string for the null
attribute. -/
def attrValue (a : Option String) : String := a.getD ""

/-- Attribute member `as_string(def)`. -/
def as_string (a : Option String) (dflt : String) : String := a.getD dflt

/-- Attribute member `as_bool(def)`: the default for the null attribute, otherwise whether the
first character is one of `1 t T y Y`. -/
def as_bool (a : Option String) (dflt : Bool) : Bool :=
  match a with
  | none => dflt
  | some v =>
    match v.toList with
    | [] => false
    | c :: _ => c = '1' || c = 't' || c = 'T' || c = 'y' || c = 'Y'

/-! ## Outcomes -/

/-- The ways a parser function can fail to return. -/
inductive Err where
  /-- A thrown `MyException` with its message. -/
  | MyException (msg : String)
  /-- Exception `std::invalid_argument` thrown by `std::stoi` / `std::stof`. -/
  | invalid_argument (fn : String)
  /-- Exception `std::out_of_range` thrown by `std::stoi` / `std::stof`. -/
  | out_of_range (fn : String)
  /-- A call of `exit(code)`: the process ends, no exception reaches the caller. -/
  | processExit (code : Nat)
  /-- The recursion budget of the embedding was used up (never a behaviour of the C++ code). -/
  | outOfFuel
deriving DecidableEq, Repr

/-- An outcome that is an exception the caller of `LoadConfig` can catch. -/
def Err.isException : Err → Bool
  | .MyException _ => true
  | .invalid_argument _ => true
  | .out_of_range _ => true
  | .processExit _ => false
  | .outOfFuel => false

/-! ## Machine integers and `std::stoi` -/

/-- Conversion of an `int` to `uint32_t`. -/
def toUint32 (v : Int) : Nat := (v % 2 ^ 32).toNat

/-- The predicate `isspace` of the C locale. -/
def isspace (c : Char) : Bool :=
  c = ' ' || c = '\t' || c = '\n' || c = '\x0b' || c = '\x0c' || c = '\r'

/-- Value of a run of decimal digits. -/
def digitsValue (ds : List Char) : Nat :=
  ds.foldl (fun acc c => 10 * acc + (c.toNat - 48)) 0

/-- The text `std::stoi` converts: after leading white space and an optional sign, the longest
run of digits; returns whether the sign is `-`, and the digits. -/
def stoiDigits (str : String) : Bool × List Char :=
  let cs := str.toList.dropWhile isspace
  let neg := decide (cs.head? = some '-')
  let cs := if cs.head? = some '-' ∨ cs.head? = some '+' then cs.tail else cs
  (neg, cs.takeWhile Char.isDigit)

/-- Function `std::stoi(str)` (base 10): skips leading white space, reads an optional sign and
the longest run of digits; throws `std::invalid_argument` when there is no digit and
`std::out_of_range` when the value is not an `int`. -/
def stoi (str : String) : Except Err Int :=
  let p := stoiDigits str
  if p.2.isEmpty then .error (.invalid_argument "stoi")
  else
    let v : Int := if p.1 then -(digitsValue p.2 : Int) else (digitsValue p.2 : Int)
    if v < -(2 ^ 31) ∨ 2 ^ 31 - 1 < v then .error (.out_of_range "stoi") else .ok v

/-! ## Tensors -/

/-- Struct `Vec3` of tensor/vec3.hpp. -/
structure Vec3 (F : Type) where
  x : F
  y : F
  z : F
deriving DecidableEq

/-- Struct `Mat4`: a 4×4 matrix, entry `m i j` is `result[i][j]`. -/
structure Mat4 (F : Type) where
  m : Fin 4 → Fin 4 → F

namespace Vec3

variable {F : Type}

/-- Constructor `Vec3(const float x)`: the same value in the three channels. -/
def splat (v : F) : Vec3 F := ⟨v, v, v⟩

/-- Apply a function to every channel. -/
def map (f : F → F) (v : Vec3 F) : Vec3 F := ⟨f v.x, f v.y, f v.z⟩

/-- Combine two vectors channel by channel. -/
def zipWith (f : F → F → F) (a b : Vec3 F) : Vec3 F := ⟨f a.x b.x, f a.y b.y, f a.z b.z⟩

/-- Modelled from the spec: the operators of `Vec3` are declared in tensor/vec3.hpp and defined in
a file that is not among the sources; they act channel by channel (3-vectors over f32). This is
`operator+(Vec3, Vec3)`. -/
def add [Add F] (a b : Vec3 F) : Vec3 F := zipWith (· + ·) a b

/-- Channel-wise `operator-(Vec3, Vec3)` (see `Vec3.add`). -/
def sub [Sub F] (a b : Vec3 F) : Vec3 F := zipWith (· - ·) a b

/-- Channel-wise `operator*(Vec3, Vec3)` (see `Vec3.add`). -/
def mul [Mul F] (a b : Vec3 F) : Vec3 F := zipWith (· * ·) a b

/-- Channel-wise `operator/(Vec3, Vec3)` (see `Vec3.add`). -/
def div [Div F] (a b : Vec3 F) : Vec3 F := zipWith (· / ·) a b

/-- Unary `operator-`, defined in the header as `(-x, -y, -z)`. -/
def neg [Neg F] (a : Vec3 F) : Vec3 F := ⟨-a.x, -a.y, -a.z⟩

/-- Scalar forms `operator*(Vec3, float)` and `operator*(float, Vec3)`. -/
def smul [Mul F] (t : F) (a : Vec3 F) : Vec3 F := map (fun c => t * c) a

/-- Function `Sqr` on vectors: the channel-wise square. -/
def Sqr [Mul F] (a : Vec3 F) : Vec3 F := map (fun c => c * c) a

/-- Entry `v[i]` for `i = 0, 1, 2`. -/
def set (v : Vec3 F) (i : Nat) (c : F) : Vec3 F :=
  if i = 0 then { v with x := c } else if i = 1 then { v with y := c } else { v with z := c }

end Vec3

namespace Mat4

variable {F : Type}

/-- Modelled from the spec: the default constructor `Mat4()` (mat4.hpp is not among the sources),
the identity matrix. -/
def identity [Zero F] [One F] : Mat4 F := ⟨fun i j => if i = j then 1 else 0⟩

/-- Assignment `result[i][j] = c`. -/
def set (a : Mat4 F) (i j : Fin 4) (c : F) : Mat4 F :=
  ⟨fun p q => if p = i ∧ q = j then c else a.m p q⟩

end Mat4

/-! ## The renderer configuration -/

/-- Modelled from the spec: constant `kMaxUint` of defs.hpp (not among the sources), the maximum
unsigned 32-bit value. -/
def kMaxUint : Nat := 2 ^ 32 - 1

/-- Camera block of the configuration. -/
structure CameraInfo (F : Type) where
  width : Int
  height : Int
  fov_x : F
  spp : Int
  eye : Vec3 F
  look_at : Vec3 F
  up : Vec3 F

/-- Enum `IntegratorType`. -/
inductive IntegratorType where
  | kPath
  | kVolPath
deriving DecidableEq, Repr

/-- Struct `IntegratorInfo`. -/
structure IntegratorInfo (F : Type) where
  type : IntegratorType
  depth_max : Nat
  depth_rr : Nat
  hide_emitters : Bool
  pdf_rr : F

/-- Struct `TextureInfo`: the type tag with the union member it selects. -/
inductive TextureInfo (F : Type) where
  | constant (color : Vec3 F)
  | checkerboard (color0 color1 : Vec3 F) (to_uv : Mat4 F)
  | bitmap (data : List F) (width height channel : Int) (to_uv : Mat4 F)

/-- Enum `BsdfType`, the variants the parser assigns. -/
inductive BsdfType where
  | kAreaLight
  | kDiffuse
  | kRoughDiffuse
  | kDielectric
  | kThinDielectric
  | kConductor
  | kPlastic
deriving DecidableEq, Repr

/-- The union inside `BsdfInfo`, one constructor per union member. -/
inductive BsdfData (F : Type) where
  | area_light (id_radiance : Nat) (weight : F)
  | diffuse (id_diffuse_reflectance : Nat)
  | rough_diffuse (use_fast_approx : Bool) (id_diffuse_reflectance id_roughness : Nat)
  | dielectric (eta : F) (id_roughness_u id_roughness_v id_specular_reflectance
      id_specular_transmittance : Nat)
  | conductor (id_roughness_u id_roughness_v id_specular_reflectance : Nat)
      (reflectivity edgetint : Vec3 F)
  | plastic (eta : F) (id_roughness id_diffuse_reflectance id_specular_reflectance : Nat)

/-- Struct `BsdfInfo`: type tag, the common envelope and the union. -/
structure BsdfInfo (F : Type) where
  type : BsdfType
  twosided : Bool
  id_opacity : Nat
  id_bump_map : Nat
  data : BsdfData F

/-- Enum `PhaseFunctionType`. -/
inductive PhaseFunctionType where
  | kIsotropic
  | kHenyeyGreenstein
deriving DecidableEq, Repr

/-- Enum `MediumType`; the parser only assigns `kHomogeneous`, and `kNone` stands for every other
enumerator of the header, which is not among the sources. -/
inductive MediumType where
  | kNone
  | kHomogeneous
deriving DecidableEq, Repr

/-- Struct `MediumInfo`. -/
structure MediumInfo (F : Type) where
  type : MediumType
  sigma_a : Vec3 F
  sigma_s : Vec3 F
  phase_type : PhaseFunctionType
  g : Vec3 F

/-- Struct `MeshesInfo` of the model loader. -/
structure MeshesInfo (F : Type) where
  positions : List (Vec3 F)
  normals : List (Vec3 F)
  texcoords : List (F × F)
  tangents : List (Vec3 F)
  bitangents : List (Vec3 F)
  indices : List (Nat × Nat × Nat)

/-- Enum `InstanceType`; `kNone` stands for the tag of a record whose type was never assigned. -/
inductive InstanceType where
  | kNone
  | kCube
  | kRectangle
  | kSphere
  | kDisk
  | kCylinder
  | kMeshes
deriving DecidableEq, Repr

/-- Struct `InstanceInfo`. -/
structure InstanceInfo (F : Type) where
  type : InstanceType
  id_bsdf : Nat
  flip_normals : Bool
  to_world : Mat4 F
  sphere_radius : F
  sphere_center : Vec3 F
  cylinder_p0 : Vec3 F
  cylinder_p1 : Vec3 F
  cylinder_radius : F
  meshes : MeshesInfo F
  id_medium_int : Nat
  id_medium_ext : Nat

/-- Struct `EmitterInfo` (renderer/emitters/emitter.hpp): the type tag with the union member it
selects. -/
inductive EmitterInfo (F : Type) where
  | point (position intensity : Vec3 F)
  | spot (intensity : Vec3 F) (to_world : Mat4 F) (cutoff_angle beam_width : F) (id_texture : Nat)
  | directional (direction radiance : Vec3 F)
  | sun (direction radiance : Vec3 F) (cos_cutoff_angle : F) (id_texture : Nat)
  | envmap (id_radiance : Nat) (to_world : Mat4 F)
  | constant (radiance : Vec3 F)

/-- Struct `RendererConfig`, the value `LoadConfig` returns. -/
structure RendererConfig (F : Type) where
  camera : CameraInfo F
  integrator : IntegratorInfo F
  textures : List (TextureInfo F)
  bsdfs : List (BsdfInfo F)
  media : List (MediumInfo F)
  instances : List (InstanceInfo F)
  emitters : List (EmitterInfo F)

/-! ## Code outside the sources -/

/-- Struct `LocationDate` of parser/sun_sky.hpp. -/
structure LocationDate (F : Type) where
  year : Int
  month : Int
  day : Int
  hour : F
  minute : F
  second : F
  latitude : F
  longitude : F
  timezone : F

/-- What the parser calls and the sources do not hold: the C library, the headers defs.hpp,
tensor, ior_lut, medium_lut, sun_sky, the image and mesh readers and the file system. The parser
is a function of these. -/
structure Lib (F : Type) where
  /-- Function `strtod` and the `%f` conversion of `sscanf`: skip white space, read the longest
  prefix that is a floating-point literal; `none` when there is none; the rest of the input. -/
  scanFloat : List Char → Option (F × List Char)
  /-- The conversion of the text by `strtof` reports a range error (`errno == ERANGE`): the
  number overflows or underflows `float`. -/
  strtofErange : List Char → Bool
  /-- Attribute member `as_int` of pugixml on a non-null attribute. -/
  as_int : String → Int
  atanf : F → F
  cosf : F → F
  sqrtf : F → F
  /-- Conversion `static_cast<int>` of a float. -/
  f2i : F → Int
  k1DivPi : F
  kInvalidId : Nat
  kSunAppRadius : F
  ToRadians : F → F
  Mul : Mat4 F → Mat4 F → Mat4 F
  Translate : Vec3 F → Mat4 F
  Scale : Vec3 F → Mat4 F
  Rotate : F → Vec3 F → Mat4 F
  LookAtLH : Vec3 F → Vec3 F → Vec3 F → Mat4 F
  Inverse : Mat4 F → Mat4 F
  Transpose : Mat4 F → Mat4 F
  TransformPoint : Mat4 F → Vec3 F → Vec3 F
  TransformVector : Mat4 F → Vec3 F → Vec3 F
  LookupDielectricIor : String → Option F
  LookupConductorIor : String → Option (Vec3 F × Vec3 F)
  LookupHomogeneousMedium : String → Option (Vec3 F × Vec3 F × Vec3 F)
  LookupIsotropicHomogeneousMedium : String → Option (Vec3 F × Vec3 F)
  GetSunDirection : LocationDate F → Vec3 F
  /-- Returns the texture data and the sun radiance. -/
  CreateSunTexture : Vec3 F → F → F → F → Int → Int → List F × Vec3 F
  CreateSkyTexture : Vec3 F → Vec3 F → F → F → F → F → Int → Int → List F
  /-- Function `image_io::Read(filename, gamma, width_max)`: the pixel data, width, height and
  channel count, or the way it fails. -/
  imageRead : String → F → Option Int → Except Err (List F × Int × Int × Int)
  /-- Function `model_loader::Load(filename, flip_texcoords, face_normals)`. -/
  loadMeshes : String → Bool → Bool → Except Err (MeshesInfo F)
  /-- Function `model_loader::Load(filename, index_shape, flip_texcoords, face_normals)`. -/
  loadSerialized : String → Int → Bool → Bool → Except Err (MeshesInfo F)
  /-- A default-constructed `InstanceInfo`. -/
  instanceDefault : InstanceInfo F
  fileExists : String → Bool
  GetDirectory : String → String
  GetSuffix : String → String
  /-- Member `load_file` of the XML document: the document node, `none` when loading fails. -/
  load_file : String → Option XmlNode

/-- A map `std::unordered_map<std::string, V>` as an association list; the newest binding of a key
is first. -/
abbrev StrMap (V : Type) := List (String × V)

namespace StrMap

variable {V : Type}

/-- Member `count(key)` as a truth value. -/
def count (m : StrMap V) (key : String) : Bool := m.any (fun kv => kv.1 = key)

/-- Member `at(key)`; `none` where the C++ call would throw. -/
def at? (m : StrMap V) (key : String) : Option V := (m.find? (fun kv => kv.1 = key)).map (·.2)

/-- Assignment `m[key] = v`. -/
def set (m : StrMap V) (key : String) (v : V) : StrMap V := (key, v) :: m

end StrMap

/-- The file-scope variables of namespace local. -/
structure ParserState (F : Type) where
  config : RendererConfig F
  current_directory : String
  map_default : StrMap String
  map_texture : StrMap Nat
  map_bsdf : StrMap Nat
  map_medium : StrMap Nat

section Basic

variable {F : Type} [LinearOrderedField F]

/-- Function `strtof` through `scanFloat`: zero when no number can be read. -/
def strtof (lib : Lib F) (str : String) : F :=
  match lib.scanFloat str.toList with
  | some (v, _) => v
  | none => 0

/-- Function `std::stof`: throws `std::invalid_argument` when no number can be read and
`std::out_of_range` when the number read is out of the range of `float`. -/
def stof (lib : Lib F) (str : String) : Except Err F :=
  match lib.scanFloat str.toList with
  | some (v, _) => if lib.strtofErange str.toList then .error (.out_of_range "stof") else .ok v
  | none => .error (.invalid_argument "stof")

/-- Attribute member `as_float(def)`. -/
def as_float (lib : Lib F) (a : Option String) (dflt : F) : F :=
  match a with
  | none => dflt
  | some v => strtof lib v

/-- Attribute member `as_int(def)`. -/
def as_int (lib : Lib F) (a : Option String) (dflt : Int) : Int :=
  match a with
  | none => dflt
  | some v => lib.as_int v

/-- Function `basic_parser::GetChildNodeByName`: for each valid name in turn, the first child whose
`name` attribute equals it; `none` is the `false` result. -/
def GetChildNodeByName (parent_node : XmlNode) (valid_names : List String) : Option XmlNode :=
  valid_names.findSome? (fun name =>
    parent_node.children.find? (fun node => attrValue (node.attr "name") = name))

/-- The handle a caller holds after `GetChildNodeByName(parent, names, &node)` on a fresh node
variable: the child found, else the null handle. -/
def childByName (parent_node : XmlNode) (valid_names : List String) : XmlNode :=
  (GetChildNodeByName parent_node valid_names).getD .null

/-- Function `basic_parser::ReadBoolean`. -/
def ReadBoolean (parent_node : XmlNode) (valid_names : List String) (defalut_value : Bool) : Bool :=
  as_bool ((childByName parent_node valid_names).attr "value") defalut_value

/-- Function `basic_parser::ReadInt`. -/
def ReadInt (lib : Lib F) (parent_node : XmlNode) (valid_names : List String)
    (defalut_value : Int) : Int :=
  as_int lib ((childByName parent_node valid_names).attr "value") defalut_value

/-- Function `basic_parser::ReadFloat`. -/
def ReadFloat (lib : Lib F) (parent_node : XmlNode) (valid_names : List String)
    (defalut_value : F) : F :=
  as_float lib ((childByName parent_node valid_names).attr "value") defalut_value

/-- The conversions of `sscanf` with a format of `n` items `%f`, separated by a blank
(`comma = false`) or by a comma and a blank (`comma = true`): the values converted before the
first failure, in order. -/
def sscanfFloats (lib : Lib F) (comma : Bool) : Nat → List Char → List F
  | 0, _ => []
  | n + 1, cs =>
    match lib.scanFloat cs with
    | none => []
    | some (v, rest) =>
      if comma then
        match rest with
        | ',' :: rest2 => v :: sscanfFloats lib comma n rest2
        | _ => [v]
      else v :: sscanfFloats lib comma n rest

/-- Number of blanks in a string, as `std::count(begin, end, ' ')`. -/
def countChar (c : Char) (str : String) : Nat := str.toList.count c

/-- Store converted values into the channels of a vector, in order. -/
def storeVec3 (vals : List F) (r : Vec3 F) : Vec3 F :=
  (vals.enum.foldl (fun acc iv => acc.set iv.1 iv.2) r)

/-- Function `basic_parser::ReadVec3(vec3_node, defalut_value, value_name)`. -/
def ReadVec3Node (lib : Lib F) (vec3_node : XmlNode) (defalut_value : Vec3 F)
    (value_name : String) : Vec3 F :=
  if (vec3_node.attr "value").isNone ∧ value_name.isEmpty then
    ⟨as_float lib (vec3_node.attr "x") defalut_value.x,
     as_float lib (vec3_node.attr "y") defalut_value.y,
     as_float lib (vec3_node.attr "z") defalut_value.z⟩
  else
    let value_name := if value_name.isEmpty then "value" else value_name
    let str_buffer := attrValue (vec3_node.attr value_name)
    let num_space := countChar ' ' str_buffer
    if num_space = 0 then
      Vec3.splat (as_float lib (vec3_node.attr "value") defalut_value.x)
    else if num_space = 2 then
      let num_comma := countChar ',' str_buffer
      storeVec3 (sscanfFloats lib (decide (num_comma ≠ 0)) 3 str_buffer.toList) (Vec3.splat 0)
    else defalut_value

/-- Function `basic_parser::ReadVec3(parent_node, valid_names, defalut_value)`. -/
def ReadVec3 (lib : Lib F) (parent_node : XmlNode) (valid_names : List String)
    (defalut_value : Vec3 F) : Vec3 F :=
  let target_node := childByName parent_node valid_names
  if target_node.isNull then defalut_value else ReadVec3Node lib target_node defalut_value ""

/-- Store converted values into matrix entries: the i-th value goes to the i-th target. -/
def storeMat4 (vals : List F) (targets : List (Fin 4 × Fin 4)) (r : Mat4 F) : Mat4 F :=
  (targets.zip vals).foldl (fun acc tv => acc.set tv.1.1 tv.1.2 tv.2) r

/-- The argument list of the nine-number `sscanf` in `ReadMat4`, as written in the source. -/
def mat3Targets : List (Fin 4 × Fin 4) :=
  [(0, 0), (0, 0), (0, 1), (1, 0), (1, 1), (1, 2), (2, 0), (2, 1), (2, 2)]

/-- The argument list of the sixteen-number `sscanf` in `ReadMat4`. -/
def mat4Targets : List (Fin 4 × Fin 4) :=
  [(0, 0), (0, 1), (0, 2), (0, 3), (1, 0), (1, 1), (1, 2), (1, 3),
   (2, 0), (2, 1), (2, 2), (2, 3), (3, 0), (3, 1), (3, 2), (3, 3)]

/-- Function `basic_parser::ReadMat4`. -/
def ReadMat4 (lib : Lib F) (matrix_node : XmlNode) : Mat4 F :=
  if (matrix_node.attr "value").isNone then Mat4.identity
  else
    let str_buffer := attrValue (matrix_node.attr "value")
    let space_count := countChar ' ' str_buffer
    if space_count = 8 then
      storeMat4 (sscanfFloats lib false 9 str_buffer.toList) mat3Targets Mat4.identity
    else
      storeMat4 (sscanfFloats lib false 16 str_buffer.toList) mat4Targets Mat4.identity

/-- One iteration of the loop of `ReadTransform4`: the switch over the name of a child. -/
def transformStep (lib : Lib F) (result : Mat4 F) (node : XmlNode) : Mat4 F :=
  let name := node.name
  if name = "translate" then
    lib.Mul (lib.Translate (ReadVec3Node lib node (Vec3.splat 0) "")) result
  else if name = "rotate" then
    let axis := ReadVec3Node lib node (Vec3.splat 0) ""
    let angle := as_float lib (node.attr "angle") 0
    lib.Mul (lib.Rotate (lib.ToRadians angle) axis) result
  else if name = "scale" then
    lib.Mul (lib.Scale (ReadVec3Node lib node (Vec3.splat 1) "")) result
  else if name = "matrix" then
    lib.Mul (ReadMat4 lib node) result
  else if name = "lookat" then
    let origin := ReadVec3Node lib node ⟨0, 0, 0⟩ "origin"
    let target := ReadVec3Node lib node ⟨1, 0, 0⟩ "target"
    let up := ReadVec3Node lib node ⟨0, 1, 0⟩ "up"
    lib.Mul (lib.Inverse (lib.LookAtLH origin target up)) result
  else result

/-- Function `basic_parser::ReadTransform4`. -/
def ReadTransform4 (lib : Lib F) (transform_node : XmlNode) : Mat4 F :=
  if transform_node.isNull then Mat4.identity
  else transform_node.children.foldl (transformStep lib) Mat4.identity

end Basic

section Camera

variable {F : Type} [LinearOrderedField F]

/-- The block repeated in `ReadCamera` and `ReadIntegrator` for an integer given as text: an
empty text assigns nothing (`none`); a text starting with `$` is replaced by its binding in
`map_default`, and `missing` is what happens when there is none; the text is then converted with
`std::stoi` and the result is what the block assigns. -/
def readIntText (map_default : StrMap String) (value_str : String) (missing : Err) :
    Except Err (Option Int) :=
  if value_str.isEmpty then .ok none
  else if value_str.toList.head? = some '$' then
    if map_default.count value_str then (stoi (attrValue (map_default.at? value_str))).map some
    else .error missing
  else (stoi value_str).map some

/-- One iteration of the loop over the `integer` children of `film` in `ReadCamera`. -/
def filmStep (map_default : StrMap String) (wh : Int × Int) (node : XmlNode) :
    Except Err (Int × Int) :=
  let name := attrValue (node.attr "name")
  if name = "width" then do
    let w ← readIntText map_default (attrValue (node.attr "value")) (.processExit 1)
    pure (w.getD wh.1, wh.2)
  else if name = "height" then do
    let h ← readIntText map_default (attrValue (node.attr "value")) (.processExit 1)
    pure (wh.1, h.getD wh.2)
  else pure wh

/-- The text `str.substr(0, str.size() - 2)`; `size() - 2` is computed in `size_t`, so for fewer
than two characters the count wraps around and the whole text is taken. -/
def dropLastTwo (str : String) : String :=
  if 2 ≤ str.length then String.mk (str.toList.take (str.length - 2)) else str

/-- One iteration of the loop over the `string` children of the sensor in `ReadCamera`; the state
is (focal_length, fov_axis). -/
def lensStep (lib : Lib F) (st : F × String) (node : XmlNode) : Except Err (F × String) :=
  let name := attrValue (node.attr "name")
  if name = "focalLength" then do
    let f ← stof lib (dropLastTwo (attrValue (node.attr "value")))
    pure (f, st.2)
  else if name = "fovAxis" then pure (st.1, attrValue (node.attr "value"))
  else pure st

/-- The switch over `fov_axis` in `ReadCamera`, from the value read for `fov`. -/
def fovSwitch (lib : Lib F) (fov_axis : String) (fov_x focal_length : F) (width height : Int) :
    Except Err F :=
  if fov_axis = "x" then
    .ok (if fov_x ≤ 0 then 2 * lib.atanf (36 * (1 / 2) / focal_length) * 180 * lib.k1DivPi
      else fov_x)
  else if fov_axis = "y" then
    let fov_x := if fov_x ≤ 0 then
      2 * lib.atanf (24 * (1 / 2) / focal_length) * 180 * lib.k1DivPi else fov_x
    .ok (fov_x * (width : F) / (height : F))
  else if fov_axis = "smaller" then
    if width > height then
      let fov_x := if fov_x ≤ 0 then
        2 * lib.atanf (24 * (1 / 2) / focal_length) * 180 * lib.k1DivPi else fov_x
      .ok (fov_x * (width : F) / (height : F))
    else .ok fov_x
  else .error (.MyException ("[error] unsupport fov axis type '" ++ fov_axis ++ "'\n"))

/-- One iteration of the loop over the `integer` children of `sampler` in `ReadCamera`. -/
def samplerStep (map_default : StrMap String) (sample_count : Int) (node : XmlNode) :
    Except Err Int :=
  let name := attrValue (node.attr "name")
  if name = "sampleCount" ∨ name = "sample_count" then do
    let v ← readIntText map_default (attrValue (node.attr "value")) (.processExit 1)
    pure (v.getD sample_count)
  else pure sample_count

/-- The camera position block of `ReadCamera`: eye, look-at and up, moved by the `transform`
child when there is one. -/
def cameraFrame (lib : Lib F) (sensor_node : XmlNode) : Vec3 F × Vec3 F × Vec3 F :=
  let eye : Vec3 F := ⟨0, 0, 0⟩
  let look_at : Vec3 F := ⟨0, 0, 1⟩
  let up : Vec3 F := ⟨0, 1, 0⟩
  if ¬ (sensor_node.child "transform").isNull then
    let to_world := ReadTransform4 lib (sensor_node.child "transform")
    (lib.TransformPoint to_world eye, lib.TransformPoint to_world look_at,
      lib.TransformVector to_world up)
  else (eye, look_at, up)

/-- Function `element_parser::ReadCamera`. -/
def ReadCamera (lib : Lib F) (sensor_node : XmlNode) (s : ParserState F) :
    Except Err (ParserState F) :=
  let type := attrValue (sensor_node.attr "type")
  if type ≠ "perspective" then .error (.MyException "[error] only support 'perspective' sensor.\n")
  else
    match ((sensor_node.child "film").childrenNamed "integer").foldlM (filmStep s.map_default)
        (768, 576) with
    | .error e => .error e
    | .ok (width, height) =>
      match (sensor_node.childrenNamed "string").foldlM (lensStep lib) ((50 : F), "x") with
      | .error e => .error e
      | .ok (focal_length, fov_axis) =>
        match fovSwitch lib fov_axis (ReadFloat lib sensor_node ["fov"] (-1)) focal_length
            width height with
        | .error e => .error e
        | .ok fov_x =>
          match ((sensor_node.child "sampler").childrenNamed "integer").foldlM
              (samplerStep s.map_default) 4 with
          | .error e => .error e
          | .ok sample_count =>
            let fr := cameraFrame lib sensor_node
            let camera : CameraInfo F :=
              { width := width, height := height, fov_x := fov_x, spp := sample_count,
                eye := fr.1, look_at := fr.2.1, up := fr.2.2 }
            .ok { s with config := { s.config with camera := camera } }

end Camera

section Integrator

variable {F : Type} [LinearOrderedField F]

/-- One iteration of the loop over the `integer` children in `ReadIntegrator`; the state is
(max_depth, rr_depth), both `uint32_t`, so the `int` that `std::stoi` returns is converted. -/
def integratorStep (map_default : StrMap String) (st : Nat × Nat) (node : XmlNode) :
    Except Err (Nat × Nat) :=
  let name := attrValue (node.attr "name")
  if name = "maxDepth" ∨ name = "max_depth" then do
    let v ← readIntText map_default (attrValue (node.attr "value"))
      (.MyException "cannot find default value for max depth.")
    pure ((v.map toUint32).getD st.1, st.2)
  else if name = "rrDepth" ∨ name = "rr_depth" then do
    let v ← readIntText map_default (attrValue (node.attr "value"))
      (.MyException "cannot find default value for rr depth.")
    pure (st.1, (v.map toUint32).getD st.2)
  else pure st

/-- The integrator type text after the replacement of a `$name` that `map_default` binds. -/
def integratorTypeText (map_default : StrMap String) (integrator_node : XmlNode) : String :=
  let integrator_type := as_string (integrator_node.attr "type") "path"
  if ¬ integrator_type.isEmpty ∧ integrator_type.toList.head? = some '$' ∧
      map_default.count integrator_type then
    attrValue (map_default.at? integrator_type)
  else integrator_type

/-- Function `element_parser::ReadIntegrator`. -/
def ReadIntegrator (lib : Lib F) (integrator_node : XmlNode) (s : ParserState F) :
    Except Err (ParserState F) := do
  let (max_depth, rr_depth) ←
    (integrator_node.childrenNamed "integer").foldlM (integratorStep s.map_default) (kMaxUint, 5)
  let integrator_type := integratorTypeText s.map_default integrator_node
  let info : IntegratorInfo F :=
    { depth_max := max_depth, depth_rr := rr_depth,
      hide_emitters := ReadBoolean integrator_node ["hide_emitters", "hideEmitters"] false,
      pdf_rr := ReadFloat lib integrator_node ["rr_pdf", "rrPdf"] (95 / 100),
      type := if integrator_type = "volpath" then .kVolPath else .kPath }
  pure { s with config := { s.config with integrator := info } }

end Integrator

mutual
/-- Height of a node: the number of elements on the longest path down from it. -/
def XmlNode.depth : XmlNode → Nat
  | .null => 0
  | .elem _ _ cs => XmlNode.depthList cs + 1
/-- Largest height in a list of nodes. -/
def XmlNode.depthList : List XmlNode → Nat
  | [] => 0
  | c :: cs => max c.depth (XmlNode.depthList cs)
end

section Texture

variable {F : Type} [LinearOrderedField F]

/-- The id under which a texture is registered: the given id, or `texture_` followed by the index
when the id is empty. -/
def textureId (id : String) (index : Nat) : String :=
  if id.isEmpty then "texture_" ++ toString index else id

/-- The statements `local::map_texture[id] = index; local::config.textures.push_back(info);`. -/
def addTexture (s : ParserState F) (id : String) (index : Nat) (info : TextureInfo F) :
    ParserState F :=
  { s with
    map_texture := s.map_texture.set id index
    config := { s.config with textures := s.config.textures ++ [info] } }

/-- Function `element_parser::ReadBitmap`; `width_max` is `none` for a null pointer. -/
def ReadBitmap (lib : Lib F) (filename id : String) (gamma scale : F) (width_max : Option Int)
    (s : ParserState F) : Except Err (Nat × ParserState F) := do
  let (raw_data, width, height, channel) ← lib.imageRead filename gamma width_max
  let num_element := (toUint32 width * toUint32 height * toUint32 channel) % 2 ^ 32
  let data := (raw_data.take num_element).map (fun c => c * scale)
  let index := s.config.textures.length
  pure (index, addTexture s id index (.bitmap data width height channel Mat4.identity))

/-- The `checkerboard` case of `ReadTexture`: the colour named `key`, `dflt` when absent; a child
of that name that is neither `rgb` nor `float` is refused. -/
def checkerColor (lib : Lib F) (texture_node : XmlNode) (key : String) (dflt : F) (msg : String) :
    Except Err (Vec3 F) :=
  match GetChildNodeByName texture_node [key] with
  | none => .ok (Vec3.splat dflt)
  | some node_tmp =>
    if node_tmp.name ≠ "rgb" ∧ node_tmp.name ≠ "float" then .error (.MyException msg)
    else .ok (ReadVec3 lib texture_node [key] (Vec3.splat dflt))

/-- Function `element_parser::ReadTexture(texture_node, scale, defalut_value)`. The recursion into
the `texture` child of a `scale` node consumes one unit of `fuel`. -/
def ReadTextureAux (lib : Lib F) :
    Nat → XmlNode → F → F → ParserState F → Except Err (Nat × ParserState F)
  | fuel, texture_node, scale, defalut_value, s =>
    let id := attrValue (texture_node.attr "id")
    if texture_node.isNull then
      let index := s.config.textures.length
      .ok (index, addTexture s (textureId id index) index
        (.constant (Vec3.splat (scale * defalut_value))))
    else
      let node_name := texture_node.name
      if node_name = "scale" then
        match fuel with
        | 0 => .error .outOfFuel
        | fuel + 1 =>
          let local_scale := ReadFloat lib texture_node ["scale"] 1
          ReadTextureAux lib fuel (texture_node.child "texture") (scale * local_scale)
            defalut_value s
      else if node_name = "ref" then
        if s.map_texture.count id then .ok ((s.map_texture.at? id).getD 0, s)
        else
          .error (.MyException ("[error] cannot find texture with id '" ++ id ++ "'.\n"))
      else if node_name = "rgb" then
        let index := s.config.textures.length
        let value := ReadVec3Node lib texture_node (Vec3.splat defalut_value) ""
        .ok (index, addTexture s (textureId id index) index (.constant (Vec3.smul scale value)))
      else if node_name = "float" then
        let index := s.config.textures.length
        let value := as_float lib (texture_node.attr "value") defalut_value
        .ok (index, addTexture s (textureId id index) index
          (.constant (Vec3.splat (scale * value))))
      else if node_name = "texture" then
        let texture_type := attrValue (texture_node.attr "type")
        if texture_type = "checkerboard" then do
          let color0 ← checkerColor lib texture_node "color0" (4 / 10)
            "not support texture inside 'checkerboard'"
          let color1 ← checkerColor lib texture_node "color1" (2 / 10)
            "not support texture inside 'checkerboard'\n"
          let to_uv := ReadTransform4 lib (texture_node.child "transform")
          let u_offset := ReadFloat lib texture_node ["uoffset"] 0
          let v_offset := ReadFloat lib texture_node ["voffset"] 0
          let u_scale := ReadFloat lib texture_node ["uscale"] 1
          let v_scale := ReadFloat lib texture_node ["vscale"] 1
          let to_uv := lib.Mul (lib.Translate ⟨u_offset, v_offset, 0⟩) to_uv
          let to_uv := lib.Mul (lib.Scale ⟨u_scale, v_scale, 1⟩) to_uv
          let index := s.config.textures.length
          pure (index, addTexture s (textureId id index) index
            (.checkerboard (Vec3.smul scale color0) (Vec3.smul scale color1) to_uv))
        else if texture_type = "bitmap" then
          match GetChildNodeByName texture_node ["filename"] with
          | none => .error (.MyException "[error] cannot find filename for bitmap texture.\n")
          | some child_node =>
            let gamma := ReadFloat lib texture_node ["gamma"] 0
            let index := s.config.textures.length
            let filename := attrValue (child_node.attr "value")
            ReadBitmap lib (s.current_directory ++ filename) (textureId id index) gamma scale
              none s
        else
          .error (.MyException ("[error] unsupport texture type '" ++ texture_type ++ "'.\n"))
      else .error (.MyException ("[error] unsupport texture type '" ++ node_name ++ "'.\n"))

/-- Function `ReadTexture(texture_node, scale, defalut_value)` with a recursion budget that the
height of the node never exhausts. -/
def ReadTexture (lib : Lib F) (texture_node : XmlNode) (scale defalut_value : F)
    (s : ParserState F) : Except Err (Nat × ParserState F) :=
  ReadTextureAux lib texture_node.depth texture_node scale defalut_value s

/-- Function `element_parser::ReadTexture(parent_node, valid_names, defalut_value)`. -/
def ReadTextureByName (lib : Lib F) (parent_node : XmlNode) (valid_names : List String)
    (defalut_value : F) (s : ParserState F) : Except Err (Nat × ParserState F) :=
  match GetChildNodeByName parent_node valid_names with
  | some texture_node => ReadTexture lib texture_node 1 defalut_value s
  | none =>
    let index := s.config.textures.length
    .ok (index, addTexture s ("texture_" ++ toString index) index
      (.constant (Vec3.splat defalut_value)))

end Texture

section Medium

variable {F : Type} [LinearOrderedField F]

/-- The phase function block of `ReadMedium` for explicitly given coefficients: type and `g`. -/
def readPhase (lib : Lib F) (medium_node : XmlNode) : PhaseFunctionType × Vec3 F :=
  if (medium_node.child "phase").isNull then (.kIsotropic, Vec3.splat 0)
  else
    let phase_fuction_node := medium_node.child "phase"
    let phase_fuction_type := attrValue (phase_fuction_node.attr "type")
    if phase_fuction_type = "isotropic" then (.kIsotropic, Vec3.splat 0)
    else if phase_fuction_type = "hg" then
      (.kHenyeyGreenstein, Vec3.splat (ReadFloat lib phase_fuction_node ["g"] 0))
    else (.kIsotropic, Vec3.splat 0)

/-- The coefficient blocks of `ReadMedium` for `albedo` / `sigma_t` and `sigmaA` / `sigmaS`:
the pair (sigma_s, sigma_a) before scaling; both start as `Vec3()`. -/
def mediumSigma (lib : Lib F) (medium_node : XmlNode) : Except Err (Vec3 F × Vec3 F) := do
  let (sigma_s, sigma_a) ←
    match GetChildNodeByName medium_node ["albedo"] with
    | some albedo_node =>
      match GetChildNodeByName medium_node ["sigma_t", "sigmaT"] with
      | none =>
        .error (.MyException "'sigma_t' and 'albedo' must be provided at the same time.")
      | some sigma_t_node =>
        let albedo := ReadVec3Node lib albedo_node (Vec3.splat (75 / 100)) ""
        let sigma_t := ReadVec3Node lib sigma_t_node (Vec3.splat 1) ""
        let sigma_s := Vec3.mul albedo sigma_t
        .ok (sigma_s, Vec3.sub sigma_t sigma_s)
    | none => .ok ((Vec3.splat 0 : Vec3 F), (Vec3.splat 0 : Vec3 F))
  match GetChildNodeByName medium_node ["sigmaA"] with
  | some sigma_a_node =>
    match GetChildNodeByName medium_node ["sigmaS"] with
    | none =>
      .error (.MyException "'sigma_a' and 'sigma_s' must be provided at the same time.")
    | some sigma_s_node =>
      .ok (ReadVec3Node lib sigma_s_node (Vec3.splat 1) "",
        ReadVec3Node lib sigma_a_node (Vec3.splat 1) "")
  | none => .ok (sigma_s, sigma_a)

/-- The part of `ReadMedium` after the type check: the record that is appended. -/
def mediumInfo (lib : Lib F) (medium_node : XmlNode) : Except Err (MediumInfo F) := do
  let scale := ReadFloat lib medium_node ["scale"] 1
  let (sigma_s, sigma_a) ← mediumSigma lib medium_node
  if (childByName medium_node ["albedo"]).isNull ∧ (childByName medium_node ["sigmaA"]).isNull then
    let material_name := as_string ((medium_node.child "string").attr "value") "skin1"
    match lib.LookupHomogeneousMedium material_name with
    | some (sigma_a, sigma_s, g) =>
      .ok { type := .kHomogeneous, sigma_a := Vec3.smul scale sigma_a,
            sigma_s := Vec3.smul scale sigma_s, phase_type := .kHenyeyGreenstein, g := g }
    | none =>
      match lib.LookupIsotropicHomogeneousMedium material_name with
      | some (sigma_a, sigma_s) =>
        .ok { type := .kHomogeneous, sigma_a := Vec3.smul scale sigma_a,
              sigma_s := Vec3.smul scale sigma_s, phase_type := .kIsotropic,
              g := Vec3.splat 0 }
      | none => .error (.MyException ("unsupport medium type '" ++ material_name ++ "'.\n"))
  else
    let ph := readPhase lib medium_node
    .ok { type := .kHomogeneous, sigma_a := Vec3.smul scale sigma_a,
          sigma_s := Vec3.smul scale sigma_s, phase_type := ph.1, g := ph.2 }

/-- Function `element_parser::ReadMedium`. -/
def ReadMedium (lib : Lib F) (medium_node : XmlNode) (s : ParserState F) :
    Except Err (Nat × ParserState F) :=
  let id := attrValue (medium_node.attr "id")
  if s.map_medium.count id then .ok ((s.map_medium.at? id).getD 0, s)
  else
    let id_medium := s.config.media.length % 2 ^ 32
    let id := if id.isEmpty then "medium_" ++ toString id_medium else id
    let s := { s with map_medium := s.map_medium.set id id_medium }
    let type := attrValue (medium_node.attr "type")
    if type ≠ "homogeneous" then .error (.MyException ("unsupported  media'" ++ type ++ "'."))
    else
      match mediumInfo lib medium_node with
      | .error e => .error e
      | .ok info =>
        .ok (id_medium, { s with config := { s.config with media := s.config.media ++ [info] } })

end Medium

section Bsdf

variable {F : Type} [LinearOrderedField F]

/-- Function `element_parser::ReadDielectricIor`. -/
def ReadDielectricIor (lib : Lib F) (parent_node : XmlNode) (valid_names : List String)
    (defalut_value : F) : Except Err F :=
  let ior_node := childByName parent_node valid_names
  if ior_node.name = "string" then
    let material_name := attrValue (ior_node.attr "value")
    match lib.LookupDielectricIor material_name with
    | none => .error (.MyException ("unsupported  material'" ++ material_name ++ "'."))
    | some ior => .ok ior
  else .ok (as_float lib (ior_node.attr "value") defalut_value)

/-- Function `element_parser::ReadConductorIor`; returns (eta, k), which start as `Vec3()`. -/
def ReadConductorIor (lib : Lib F) (parent_node : XmlNode) : Except Err (Vec3 F × Vec3 F) :=
  match GetChildNodeByName parent_node ["material"] with
  | some child_node =>
    let material_name := attrValue (child_node.attr "value")
    match lib.LookupConductorIor material_name with
    | none => .error (.MyException ("unsupported  material'" ++ material_name ++ "'."))
    | some ek => .ok ek
  | none =>
    match GetChildNodeByName parent_node ["eta"] with
    | some child_node =>
      let eta := ReadVec3Node lib child_node ⟨1, 1, 1⟩ ""
      match GetChildNodeByName parent_node ["k"] with
      | none =>
        .error (.MyException ("cannot find 'k for Conductor bsdf'" ++
          attrValue (parent_node.attr "id") ++ "'."))
      | some child_node => .ok (eta, ReadVec3Node lib child_node ⟨1, 1, 1⟩ "")
    | none => .ok ((lib.LookupConductorIor "Cu").getD (Vec3.splat 0, Vec3.splat 0))

/-- The reflectivity computed in the conductor case of `ReadBsdf`. -/
def conductorReflectivity (eta k : Vec3 F) : Vec3 F :=
  Vec3.div (Vec3.add (Vec3.Sqr (Vec3.sub eta (Vec3.splat 1))) (Vec3.Sqr k))
    (Vec3.add (Vec3.Sqr (Vec3.add eta (Vec3.splat 1))) (Vec3.Sqr k))

/-- The edgetint computed in the conductor case of `ReadBsdf`, with its temporaries. -/
def conductorEdgetint (lib : Lib F) (eta reflectivity : Vec3 F) : Vec3 F :=
  let temp1 := Vec3.add (Vec3.splat 1) (Vec3.map lib.sqrtf reflectivity)
  let temp2 := Vec3.sub (Vec3.splat 1) (Vec3.map lib.sqrtf reflectivity)
  let temp3 := Vec3.div (Vec3.sub (Vec3.splat 1) reflectivity) (Vec3.add (Vec3.splat 1) reflectivity)
  Vec3.div (Vec3.sub temp1 (Vec3.mul eta temp2)) (Vec3.sub temp1 (Vec3.mul temp3 temp2))

/-- The roughness block shared by the dielectric and the conductor case of `ReadBsdf`:
(id_roughness_u, id_roughness_v). -/
def readRoughnessUV (lib : Lib F) (bsdf_node : XmlNode) (rough : Bool) (s : ParserState F) :
    Except Err ((Nat × Nat) × ParserState F) :=
  if rough then
    if (GetChildNodeByName bsdf_node ["alpha"]).isSome then do
      let (id_roughness_u, s) ← ReadTextureByName lib bsdf_node ["alpha"] (1 / 10) s
      pure ((id_roughness_u, id_roughness_u), s)
    else do
      let (id_roughness_u, s) ← ReadTextureByName lib bsdf_node ["alpha_u", "alphaU"] (1 / 10) s
      let (id_roughness_v, s) ← ReadTextureByName lib bsdf_node ["alpha_v", "alphaV"] (1 / 10) s
      pure ((id_roughness_u, id_roughness_v), s)
  else do
    let (id_roughness_u, s) ← ReadTextureByName lib bsdf_node [] (1 / 1000) s
    pure ((id_roughness_u, id_roughness_u), s)

/-- The second switch of `ReadBsdf`: the type tag and the union of the record, and the textures it
creates on the way. -/
def bsdfVariant (lib : Lib F) (bsdf_node : XmlNode) (type : String) (s : ParserState F) :
    Except Err ((BsdfType × Bool × BsdfData F) × ParserState F) :=
  if type = "diffuse" then do
    let (id_reflectance, s) ← ReadTextureByName lib bsdf_node ["reflectance"] (1 / 2) s
    pure ((.kDiffuse, false, .diffuse id_reflectance), s)
  else if type = "roughdiffuse" then do
    let use_fast_aaprox := ReadBoolean bsdf_node ["useFastApprox"] false
    let (id_reflectance, s) ← ReadTextureByName lib bsdf_node ["reflectance"] (1 / 2) s
    let (id_roughness, s) ← ReadTextureByName lib bsdf_node ["alpha"] (2 / 10) s
    pure ((.kRoughDiffuse, false, .rough_diffuse use_fast_aaprox id_reflectance id_roughness), s)
  else if type = "thindielectric" ∨ type = "dielectric" ∨ type = "roughdielectric" then do
    let is_thin_dielectric := decide (type = "thindielectric")
    let int_ior ← ReadDielectricIor lib bsdf_node ["int_ior", "intIOR"] (15046 / 10000)
    let ext_ior ← ReadDielectricIor lib bsdf_node ["ext_ior", "extIOR"] (1000277 / 1000000)
    let ((id_roughness_u, id_roughness_v), s) ←
      readRoughnessUV lib bsdf_node (decide (type = "roughdielectric")) s
    let (id_specular_reflectance, s) ←
      ReadTextureByName lib bsdf_node ["specularReflectance", "specular_reflectance"] 1 s
    let (id_specular_transmittance, s) ←
      ReadTextureByName lib bsdf_node ["specularTransmittance", "specular_transmittance"] 1 s
    pure ((if is_thin_dielectric then .kThinDielectric else .kDielectric, true,
      .dielectric (int_ior / ext_ior) id_roughness_u id_roughness_v id_specular_reflectance
        id_specular_transmittance), s)
  else if type = "conductor" ∨ type = "roughconductor" then do
    let ((id_roughness_u, id_roughness_v), s) ←
      readRoughnessUV lib bsdf_node (decide (type = "roughconductor")) s
    let (id_specular_reflectance, s) ←
      ReadTextureByName lib bsdf_node ["specularReflectance", "specular_reflectance"] 1 s
    let (eta, k) ← ReadConductorIor lib bsdf_node
    let reflectivity := conductorReflectivity eta k
    let edgetint := conductorEdgetint lib eta reflectivity
    pure ((.kConductor, false,
      .conductor id_roughness_u id_roughness_v id_specular_reflectance reflectivity edgetint), s)
  else if type = "plastic" ∨ type = "roughplastic" then do
    let int_ior ← ReadDielectricIor lib bsdf_node ["int_ior", "intIOR"] (15046 / 10000)
    let ext_ior ← ReadDielectricIor lib bsdf_node ["ext_ior", "extIOR"] (1000277 / 1000000)
    let (id_roughness, s) ←
      (if type = "roughplastic" then ReadTextureByName lib bsdf_node ["alpha"] (1 / 10) s
       else ReadTextureByName lib bsdf_node [] (1 / 1000) s)
    let (id_diffuse_reflectance, s) ←
      ReadTextureByName lib bsdf_node ["diffuseReflectance", "diffuse_reflectance"] 1 s
    let (id_specular_reflectance, s) ←
      ReadTextureByName lib bsdf_node ["specularReflectance", "specular_reflectance"] 1 s
    pure ((.kPlastic, false,
      .plastic (int_ior / ext_ior) id_roughness id_diffuse_reflectance id_specular_reflectance), s)
  else do
    let (id_reflectance, s) ← ReadTextureByName lib bsdf_node [] (1 / 2) s
    pure ((.kDiffuse, false, .diffuse id_reflectance), s)

/-- The part of `ReadBsdf` after the first switch: build the record, append it, register its id.
The second component of the variant tells whether the case sets `twosided = true`. -/
def ReadBsdfLeaf (lib : Lib F) (bsdf_node : XmlNode) (id type : String)
    (id_opacity id_bumpmap : Nat) (twosided : Bool) (s : ParserState F) :
    Except Err (Nat × ParserState F) :=
  let id_bsdf := s.config.bsdfs.length
  let id := if id.isEmpty then "bsdf_" ++ toString id_bsdf else id
  match bsdfVariant lib bsdf_node type s with
  | .error e => .error e
  | .ok ((ty, forceTwosided, data), s) =>
    let info : BsdfInfo F :=
      { type := ty, twosided := twosided || forceTwosided, id_opacity := id_opacity,
        id_bump_map := id_bumpmap, data := data }
    .ok (id_bsdf, { s with
      config := { s.config with bsdfs := s.config.bsdfs ++ [info] }
      map_bsdf := s.map_bsdf.set id id_bsdf })

/-- The bsdf types the first switch of `ReadBsdf` refuses. -/
def unsupportedBsdfTypes : List String :=
  ["coating", "roughcoating", "phong", "ward", "mixturebsdf", "blendbsdf", "difftrans", "hk",
   "irawan", "null"]

/-- Function `element_parser::ReadBsdf`. The recursion into the `bsdf` child of a wrapper node
consumes one unit of `fuel`. -/
def ReadBsdfAux (lib : Lib F) :
    Nat → XmlNode → String → Nat → Nat → Bool → ParserState F → Except Err (Nat × ParserState F)
  | fuel, bsdf_node, id, id_opacity, id_bumpmap, twosided, s =>
    let id := if id.isEmpty then attrValue (bsdf_node.attr "id") else id
    let type := attrValue (bsdf_node.attr "type")
    if type = "bumpmap" then
      match fuel with
      | 0 => .error .outOfFuel
      | fuel + 1 =>
        match ReadTexture lib (bsdf_node.child "texture") 1 1 s with
        | .error e => .error e
        | .ok (id_bumpmap, s) =>
          ReadBsdfAux lib fuel (bsdf_node.child "bsdf") id id_opacity id_bumpmap twosided s
    else if type = "mask" then
      match fuel with
      | 0 => .error .outOfFuel
      | fuel + 1 =>
        match ReadTextureByName lib bsdf_node ["opacity"] 1 s with
        | .error e => .error e
        | .ok (id_opacity, s) =>
          ReadBsdfAux lib fuel (bsdf_node.child "bsdf") id id_opacity id_bumpmap twosided s
    else if type = "twosided" then
      match fuel with
      | 0 => .error .outOfFuel
      | fuel + 1 =>
        ReadBsdfAux lib fuel (bsdf_node.child "bsdf") id id_opacity id_bumpmap true s
    else if type ∈ unsupportedBsdfTypes then
      .error (.MyException ("[error] not support bsdf type '" ++ type ++ "'.\n"))
    else ReadBsdfLeaf lib bsdf_node id type id_opacity id_bumpmap twosided s

/-- Function `ReadBsdf(bsdf_node, id, id_opacity, id_bumpmap, twosided)` with a recursion budget
that the height of the node never exhausts. -/
def ReadBsdf (lib : Lib F) (bsdf_node : XmlNode) (id : String) (id_opacity id_bumpmap : Nat)
    (twosided : Bool) (s : ParserState F) : Except Err (Nat × ParserState F) :=
  ReadBsdfAux lib bsdf_node.depth bsdf_node id id_opacity id_bumpmap twosided s

end Bsdf

section Shape

variable {F : Type} [LinearOrderedField F]

/-- The area-light block of `ReadShape` (an `emitter` child with an `rgb` child): one constant
texture and one `kAreaLight` record are appended and registered; returns `id_bsdf`. -/
def shapeAreaLight (lib : Lib F) (emitter_node : XmlNode) (id : String) (s : ParserState F) :
    Nat × ParserState F :=
  let radiance := ReadVec3 lib emitter_node ["radiance"] (Vec3.splat 1)
  let index_texture := s.config.textures.length % 2 ^ 32
  let texture_id := "texture_" ++ toString index_texture
  let s := addTexture s texture_id index_texture (.constant radiance)
  let id_radiance := (s.map_texture.at? texture_id).getD 0
  let id_bsdf := s.config.bsdfs.length % 2 ^ 32
  let info_bsdf : BsdfInfo F :=
    { type := .kAreaLight, data := .area_light id_radiance 1, twosided := false,
      id_opacity := lib.kInvalidId, id_bump_map := lib.kInvalidId }
  (id_bsdf, { s with
    config := { s.config with bsdfs := s.config.bsdfs ++ [info_bsdf] }
    map_bsdf := s.map_bsdf.set id id_bsdf })

/-- The loop over the `ref` children in `ReadShape`. Each iteration reads the id of
`shape_node.child("ref")`, not of the loop variable; a hit assigns `id_bsdf` and leaves the
loop. -/
def shapeRefLoop (shape_node : XmlNode) (map_bsdf : StrMap Nat) : List XmlNode → Nat → Nat
  | [], id_bsdf => id_bsdf
  | _ :: rest, id_bsdf =>
    let bsdf_id := attrValue ((shape_node.child "ref").attr "id")
    if map_bsdf.count bsdf_id then ((map_bsdf.at? bsdf_id).getD 0) % 2 ^ 32
    else shapeRefLoop shape_node map_bsdf rest id_bsdf

/-- The first part of `ReadShape`: the value of `id_bsdf` (a `uint32_t`). -/
def shapeBsdf (lib : Lib F) (shape_node : XmlNode) (id : String) (s : ParserState F) :
    Except Err (Nat × ParserState F) :=
  if ¬ (shape_node.child "emitter").isNull then
    let emitter_node := shape_node.child "emitter"
    if (emitter_node.child "rgb").isNull then
      .error (.MyException ("cannot find radiance for area light '" ++ id ++ "'."))
    else .ok (shapeAreaLight lib emitter_node id s)
  else if ¬ (shape_node.child "bsdf").isNull then
    match ReadBsdf lib (shape_node.child "bsdf") "" lib.kInvalidId lib.kInvalidId false s with
    | .error e => .error e
    | .ok (id_bsdf, s) => .ok (id_bsdf % 2 ^ 32, s)
  else
    .ok (shapeRefLoop shape_node s.map_bsdf (shape_node.childrenNamed "ref")
      (lib.kInvalidId % 2 ^ 32), s)

/-- The switch over the shape type in `ReadShape`: the record with its geometry filled in. An
unknown type leaves the record as it is. -/
def shapeGeometry (lib : Lib F) (shape_node : XmlNode) (current_directory : String)
    (info : InstanceInfo F) : Except Err (InstanceInfo F) :=
  let type := attrValue (shape_node.attr "type")
  if type = "cube" then .ok { info with type := .kCube }
  else if type = "rectangle" then .ok { info with type := .kRectangle }
  else if type = "sphere" then
    .ok { info with
      type := .kSphere
      sphere_radius := as_float lib ((shape_node.child "float").attr "value") 1
      sphere_center := ReadVec3 lib shape_node ["center"] (Vec3.splat 0) }
  else if type = "disk" then .ok { info with type := .kDisk }
  else if type = "cylinder" then
    .ok { info with
      type := .kCylinder
      cylinder_p0 := ReadVec3 lib shape_node ["p0"] (Vec3.splat 0)
      cylinder_p1 := ReadVec3 lib shape_node ["p1"] ⟨0, 0, 1⟩
      cylinder_radius := as_float lib ((shape_node.child "float").attr "value") 1 }
  else if type = "obj" ∨ type = "serialized" ∨ type = "gltf" ∨ type = "ply" then
    let filename := current_directory ++ attrValue ((shape_node.child "string").attr "value")
    let face_normals := ReadBoolean shape_node ["face_normals", "faceNormals"] false
    let loaded :=
      if type = "obj" then
        lib.loadMeshes filename
          (ReadBoolean shape_node ["flip_tex_coords", "flipTexCoords"] true) face_normals
      else if type = "serialized" then
        lib.loadSerialized filename (as_int lib ((shape_node.child "integer").attr "value") 0)
          false face_normals
      else lib.loadMeshes filename false face_normals
    match loaded with
    | .error e => .error e
    | .ok meshes => .ok { info with type := .kMeshes, meshes := meshes }
  else .ok info

/-- The `interior` / `exterior` blocks of `ReadShape`: when a child of that name exists, the medium
it gives is read and `assign` stores its id in the record. -/
def shapeMedium (lib : Lib F) (shape_node : XmlNode) (key : String)
    (assign : InstanceInfo F → Nat → InstanceInfo F) (info : InstanceInfo F) (s : ParserState F) :
    Except Err (InstanceInfo F × ParserState F) :=
  match GetChildNodeByName shape_node [key] with
  | none => .ok (info, s)
  | some medium_node =>
    match ReadMedium lib medium_node s with
    | .error e => .error e
    | .ok (id_medium, s) => .ok (assign info id_medium, s)

/-- The id of a shape in `ReadShape`: its `id` attribute, or `shape_` followed by the index of
the instance when that is empty. -/
def shapeId (shape_node : XmlNode) (s : ParserState F) : String :=
  let id := attrValue (shape_node.attr "id")
  let index := s.config.instances.length % 2 ^ 32
  if id.isEmpty then "shape_" ++ toString index else id

/-- Function `element_parser::ReadShape`. -/
def ReadShape (lib : Lib F) (shape_node : XmlNode) (s : ParserState F) :
    Except Err (Nat × ParserState F) := do
  let id := shapeId shape_node s
  let (id_bsdf, s) ← shapeBsdf lib shape_node id s
  let info : InstanceInfo F :=
    { lib.instanceDefault with
      id_bsdf := id_bsdf
      flip_normals := ReadBoolean shape_node ["flip_normals", "flipNormals"] false
      to_world := ReadTransform4 lib (shape_node.child "transform") }
  let info ← shapeGeometry lib shape_node s.current_directory info
  let (info, s) ←
    shapeMedium lib shape_node "interior" (fun i m => { i with id_medium_int := m }) info s
  let (info, s) ←
    shapeMedium lib shape_node "exterior" (fun i m => { i with id_medium_ext := m }) info s
  pure (0, { s with config := { s.config with instances := s.config.instances ++ [info] } })

end Shape

section Emitter

variable {F : Type} [LinearOrderedField F]

/-- The statement `local::config.emitters.push_back(info)`. -/
def addEmitter (s : ParserState F) (info : EmitterInfo F) : ParserState F :=
  { s with config := { s.config with emitters := s.config.emitters ++ [info] } }

/-- The sun direction block of `ReadEmitter`: the `sunDirection` child when there is one, else the
direction computed from place and time. -/
def readSunDirection (lib : Lib F) (emitter_node : XmlNode) : Vec3 F :=
  match GetChildNodeByName emitter_node ["sunDirection"] with
  | some sun_direction_node =>
    ⟨as_float lib (sun_direction_node.attr "x") 0, as_float lib (sun_direction_node.attr "y") 0,
     as_float lib (sun_direction_node.attr "z") 0⟩
  | none =>
    lib.GetSunDirection
      { year := ReadInt lib emitter_node ["year"] 2010
        month := ReadInt lib emitter_node ["month"] 7
        day := ReadInt lib emitter_node ["day"] 10
        hour := ReadFloat lib emitter_node ["hour"] 15
        minute := ReadFloat lib emitter_node ["minute"] 0
        second := ReadFloat lib emitter_node ["second"] 0
        latitude := ReadFloat lib emitter_node ["latitude"] (356894 / 10000)
        longitude := ReadFloat lib emitter_node ["longitude"] (1396917 / 10000)
        timezone := ReadFloat lib emitter_node ["timezone"] 9 }

/-- The turbidity handed to the texture synthesis in `ReadEmitter`:
`fminf(fmaxf(turbidity, 10.0f), 1.0f)`. -/
def readTurbidity (lib : Lib F) (emitter_node : XmlNode) : F :=
  let turbidity := ReadFloat lib emitter_node ["turbidity"] 3
  min (max turbidity 10) 1

/-- The `sun` / `sunsky` block of `ReadEmitter`. -/
def emitterSun (lib : Lib F) (emitter_node : XmlNode) (sun_direction : Vec3 F) (turbidity : F)
    (width height : Int) (s : ParserState F) : ParserState F :=
  let sun_scale := ReadFloat lib emitter_node ["sunScale"] 1
  let sun_radius_scale := ReadFloat lib emitter_node ["sunRadiusScale"] 1
  let (data, sun_radiance) :=
    lib.CreateSunTexture sun_direction turbidity sun_scale sun_radius_scale width height
  let id_texture := s.config.textures.length
  let s := addTexture s "sun_texture" id_texture (.bitmap data width height 3 Mat4.identity)
  addEmitter s (.sun (Vec3.neg sun_direction) sun_radiance
    (lib.cosf (lib.ToRadians (lib.kSunAppRadius * (1 / 2)) * sun_radius_scale)) id_texture)

/-- The `sky` / `sunsky` block of `ReadEmitter`. -/
def emitterSky (lib : Lib F) (emitter_node : XmlNode) (sun_direction : Vec3 F) (turbidity : F)
    (width height : Int) (s : ParserState F) : ParserState F :=
  let albedo := ReadVec3 lib emitter_node ["albedo"] (Vec3.splat (15 / 100))
  let stretch := min (max turbidity 2) 1
  let sky_scale := ReadFloat lib emitter_node ["skyScale"] 1
  let extend : F := if ReadBoolean emitter_node ["extend"] true then 1 else 0
  let data :=
    lib.CreateSkyTexture sun_direction albedo turbidity stretch sky_scale extend width height
  let id_texture := s.config.textures.length
  let s := addTexture s "sky_texture" id_texture (.bitmap data width height 3 Mat4.identity)
  addEmitter s (.envmap id_texture Mat4.identity)

/-- Function `element_parser::ReadEmitter`. -/
def ReadEmitter (lib : Lib F) (emitter_node : XmlNode) (s : ParserState F) :
    Except Err (ParserState F) :=
  let type := attrValue (emitter_node.attr "type")
  if type = "point" then
    let position := ReadVec3 lib emitter_node ["position"] (Vec3.splat 0)
    let to_world := ReadTransform4 lib (emitter_node.child "transform")
    .ok (addEmitter s (.point (lib.TransformPoint to_world position)
      (ReadVec3 lib emitter_node ["intensity"] (Vec3.splat 1))))
  else if type = "spot" then
    let intensity := ReadVec3 lib emitter_node ["intensity"] (Vec3.splat 1)
    let to_world := ReadTransform4 lib (emitter_node.child "transform")
    let cutoff_angle := ReadFloat lib emitter_node ["cutoff_angle", "cutoffAngle"] 20
    let beam_width :=
      ReadFloat lib emitter_node ["beamWidth", "beam_width"] (cutoff_angle * (75 / 100))
    if ¬ (emitter_node.child "texture").isNull then
      match ReadTexture lib (emitter_node.child "texture") 1 1 s with
      | .error e => .error e
      | .ok (id_texture, s) =>
        .ok (addEmitter s (.spot intensity to_world (lib.ToRadians cutoff_angle)
          (lib.ToRadians beam_width) id_texture))
    else
      .ok (addEmitter s (.spot intensity to_world (lib.ToRadians cutoff_angle)
        (lib.ToRadians beam_width) lib.kInvalidId))
  else if type = "directional" then
    let to_world := ReadTransform4 lib (emitter_node.child "transform")
    let dir_local := ReadVec3 lib emitter_node ["direction"] ⟨0, 0, 1⟩
    .ok (addEmitter s (.directional
      (lib.TransformVector (lib.Inverse (lib.Transpose to_world)) dir_local)
      (ReadVec3 lib emitter_node ["radiance", "irradiance"] (Vec3.splat 1))))
  else if type = "sun" ∨ type = "sky" ∨ type = "sunsky" then
    let resolution := ReadInt lib emitter_node ["resolution"] 512
    let width := resolution
    let height := Int.tdiv resolution 2
    let sun_direction := readSunDirection lib emitter_node
    let turbidity := readTurbidity lib emitter_node
    let s := if type = "sun" ∨ type = "sunsky" then
      emitterSun lib emitter_node sun_direction turbidity width height s else s
    let s := if type = "sky" ∨ type = "sunsky" then
      emitterSky lib emitter_node sun_direction turbidity width height s else s
    .ok s
  else if type = "envmap" then
    let filename := attrValue ((emitter_node.child "string").attr "value")
    let gamma := ReadFloat lib emitter_node ["gamma"] 0
    let scale := ReadFloat lib emitter_node ["scale"] 1
    let width_target := lib.f2i (((s.config.camera.width * 360 : Int) : F) / s.config.camera.fov_x)
    match ReadBitmap lib (s.current_directory ++ filename) filename gamma scale
        (some width_target) s with
    | .error e => .error e
    | .ok (id_radiance, s) =>
      .ok (addEmitter s (.envmap id_radiance
        (ReadTransform4 lib (emitter_node.child "transform"))))
  else if type = "constant" then
    .ok (addEmitter s (.constant (ReadVec3 lib emitter_node ["radiance"] (Vec3.splat 1))))
  else .ok s

end Emitter

section Load

variable {F : Type} [LinearOrderedField F]

/-- The value of `local::config = {}`: empty sequences; the camera and integrator blocks are
overwritten before `LoadConfig` returns. -/
def emptyConfig : RendererConfig F :=
  { camera := { width := 0, height := 0, fov_x := 0, spp := 0, eye := Vec3.splat 0,
                look_at := Vec3.splat 0, up := Vec3.splat 0 }
    integrator := { type := .kPath, depth_max := 0, depth_rr := 0, hide_emitters := false,
                    pdf_rr := 0 }
    textures := [], bsdfs := [], media := [], instances := [], emitters := [] }

/-- The loop over the `default` children of the scene: `map_default["$" + name] = value`. -/
def readDefaults (scene_node : XmlNode) : StrMap String :=
  (scene_node.childrenNamed "default").foldl
    (fun m node => m.set ("$" ++ attrValue (node.attr "name")) (attrValue (node.attr "value"))) []

/-- A loop `for (node : nodes) f(node);` over a state. -/
def forNodes (f : XmlNode → ParserState F → Except Err (ParserState F)) :
    List XmlNode → ParserState F → Except Err (ParserState F)
  | [], s => .ok s
  | n :: ns, s =>
    match f n s with
    | .error e => .error e
    | .ok s => forNodes f ns s

/-- The state in which `LoadConfig` starts to read the scene. -/
def startState (lib : Lib F) (filename : String) (scene_node : XmlNode) (s0 : ParserState F) :
    ParserState F :=
  { s0 with
    config := emptyConfig
    current_directory := lib.GetDirectory filename
    map_default := readDefaults scene_node }

/-- Drop the returned index of a reader. -/
def dropIndex (r : Except Err (Nat × ParserState F)) : Except Err (ParserState F) :=
  match r with
  | .error e => .error e
  | .ok (_, s) => .ok s

/-- The part of `LoadConfig` after the document is loaded, from the `scene` node. -/
def loadScene (lib : Lib F) (scene_node : XmlNode) (s : ParserState F) :
    Except Err (ParserState F) := do
  let s := { s with map_default := readDefaults scene_node }
  let s ← ReadCamera lib (scene_node.child "sensor") s
  let s ← ReadIntegrator lib (scene_node.child "integrator") s
  let s := { s with map_texture := [] }
  let s ← forNodes (fun n s => dropIndex (ReadTexture lib n 1 1 s))
    (scene_node.childrenNamed "texture") s
  let s := { s with map_bsdf := [] }
  let s ← forNodes (fun n s => dropIndex (ReadBsdf lib n "" lib.kInvalidId lib.kInvalidId false s))
    (scene_node.childrenNamed "bsdf") s
  let s := { s with map_medium := [] }
  let s ← forNodes (fun n s => dropIndex (ReadMedium lib n s)) (scene_node.childrenNamed "medium") s
  let s ← forNodes (fun n s => dropIndex (ReadShape lib n s)) (scene_node.childrenNamed "shape") s
  forNodes (ReadEmitter lib) (scene_node.childrenNamed "emitter") s

/-- Function `csrt::LoadConfig`. The globals it finds are `s0`; it returns `local::config`. -/
def LoadConfig (lib : Lib F) (filename : String) (s0 : ParserState F) :
    Except Err (RendererConfig F) :=
  let s := { s0 with config := emptyConfig }
  if ¬ lib.fileExists filename then
    .error (.MyException ("cannot find config file: '" ++ filename ++ "."))
  else
    let s := { s with current_directory := lib.GetDirectory filename }
    if lib.GetSuffix filename ≠ "xml" then
      .error (.MyException "[error] only support mitsuba xml format config file.\n")
    else
      match lib.load_file filename with
      | none => .error (.MyException "[error] read config file failed.\n")
      | some doc =>
        match loadScene lib (doc.child "scene") s with
        | .error e => .error e
        | .ok s => .ok s.config

end Load

/-! ## A sample environment

The parser is a function of `Lib`. For evaluation on concrete scenes the fields are filled in
here: a reader of plain decimal literals for `strtod`, the matrix product, small lookup tables and
an in-memory document. The transcendental functions and `1/π` are arguments. -/

section Sample

variable {F : Type} [LinearOrderedField F]

/-- A plain decimal literal at the head of the input, after white space: sign, digits, and
optionally a point and more digits. The result is (negative, digits of the integer part, digits
of the fraction) and the rest of the input; `none` when there is no digit at all. -/
def scanDecimalRaw (cs : List Char) : Option ((Bool × List Char × List Char) × List Char) :=
  let cs := cs.dropWhile isspace
  let neg := decide (cs.head? = some '-')
  let cs := if cs.head? = some '-' ∨ cs.head? = some '+' then cs.tail else cs
  let ip := cs.takeWhile Char.isDigit
  let rest := cs.dropWhile Char.isDigit
  let fp := if rest.head? = some '.' then rest.tail.takeWhile Char.isDigit else []
  let rest := if rest.head? = some '.' then rest.tail.dropWhile Char.isDigit else rest
  if ip.isEmpty ∧ fp.isEmpty then none else some ((neg, ip, fp), rest)

/-- The number a decimal literal denotes. -/
def decimalValue (r : Bool × List Char × List Char) : F :=
  let v : F := (digitsValue r.2.1 : F) + (digitsValue r.2.2 : F) / (10 : F) ^ r.2.2.length
  if r.1 then -v else v

/-- Function `strtod` restricted to plain decimal literals. -/
def scanDecimal (cs : List Char) : Option (F × List Char) :=
  (scanDecimalRaw cs).map (fun r => (decimalValue r.1, r.2))

/-- The matrix product. -/
def matMul (a b : Mat4 F) : Mat4 F :=
  ⟨fun i j => a.m i 0 * b.m 0 j + a.m i 1 * b.m 1 j + a.m i 2 * b.m 2 j + a.m i 3 * b.m 3 j⟩

/-- A sample environment over any ordered field. `atanf`, `cosf`, `sqrtf`, the conversion to `int`
and the constant `k1DivPi` are arguments, `doc` is the document every file name loads. A number
with forty or more digits before the point is out of the range of `float`. -/
def sampleLib (atanf cosf sqrtf : F → F) (f2i : F → Int) (k1DivPi : F) (doc : XmlNode) : Lib F :=
  { scanFloat := scanDecimal
    strtofErange := fun cs =>
      match scanDecimalRaw cs with
      | some (r, _) => decide (39 < (r.2.1.dropWhile (fun c => c = '0')).length)
      | none => false
    as_int := fun str => match stoi str with
      | .ok v => v
      | .error _ => 0
    atanf := atanf
    cosf := cosf
    sqrtf := sqrtf
    f2i := f2i
    k1DivPi := k1DivPi
    kInvalidId := kMaxUint
    kSunAppRadius := 5358 / 10000
    ToRadians := fun x => x / (180 * k1DivPi)
    Mul := matMul
    Translate := fun v => (((Mat4.identity.set 0 3 v.x).set 1 3 v.y).set 2 3 v.z)
    Scale := fun v => (((Mat4.identity.set 0 0 v.x).set 1 1 v.y).set 2 2 v.z)
    Rotate := fun _ _ => Mat4.identity
    LookAtLH := fun _ _ _ => Mat4.identity
    Inverse := fun a => a
    Transpose := fun a => ⟨fun i j => a.m j i⟩
    TransformPoint := fun a v =>
      ⟨a.m 0 0 * v.x + a.m 0 1 * v.y + a.m 0 2 * v.z + a.m 0 3,
       a.m 1 0 * v.x + a.m 1 1 * v.y + a.m 1 2 * v.z + a.m 1 3,
       a.m 2 0 * v.x + a.m 2 1 * v.y + a.m 2 2 * v.z + a.m 2 3⟩
    TransformVector := fun a v =>
      ⟨a.m 0 0 * v.x + a.m 0 1 * v.y + a.m 0 2 * v.z,
       a.m 1 0 * v.x + a.m 1 1 * v.y + a.m 1 2 * v.z,
       a.m 2 0 * v.x + a.m 2 1 * v.y + a.m 2 2 * v.z⟩
    LookupDielectricIor := fun name =>
      if name = "bk7" then some (15046 / 10000)
      else if name = "water" then some (1333 / 1000)
      else if name = "air" then some (1000277 / 1000000)
      else none
    LookupConductorIor := fun name =>
      if name = "Cu" then some (⟨2 / 10, 9 / 10, 11 / 10⟩, ⟨39 / 10, 26 / 10, 23 / 10⟩) else none
    LookupHomogeneousMedium := fun _ => none
    LookupIsotropicHomogeneousMedium := fun _ => none
    GetSunDirection := fun _ => ⟨0, 1, 0⟩
    CreateSunTexture := fun _ _ _ _ _ _ => ([], Vec3.splat 1)
    CreateSkyTexture := fun _ _ _ _ _ _ _ _ => []
    imageRead := fun filename _ _ => .error (.MyException ("cannot read " ++ filename))
    loadMeshes := fun filename _ _ => .error (.MyException ("cannot read " ++ filename))
    loadSerialized := fun filename _ _ _ => .error (.MyException ("cannot read " ++ filename))
    instanceDefault :=
      { type := .kNone, id_bsdf := kMaxUint, flip_normals := false, to_world := Mat4.identity,
        sphere_radius := 0, sphere_center := Vec3.splat 0, cylinder_p0 := Vec3.splat 0,
        cylinder_p1 := Vec3.splat 0, cylinder_radius := 0,
        meshes := ⟨[], [], [], [], [], []⟩, id_medium_int := kMaxUint, id_medium_ext := kMaxUint }
    fileExists := fun _ => true
    GetDirectory := fun _ => ""
    GetSuffix := fun _ => "xml"
    load_file := fun _ => some doc }

/-- The sample environment over the rationals, with stand-ins for the transcendental functions. -/
def ratLib (doc : XmlNode) : Lib ℚ :=
  sampleLib (fun x => x) (fun _ => 1) (fun x => x) (fun x => ⌊x⌋) (113 / 355) doc

/-- Globals before the first call of `LoadConfig`. -/
def initialState : ParserState F :=
  { config := emptyConfig, current_directory := "", map_default := [], map_texture := [],
    map_bsdf := [], map_medium := [] }

/-- A cube whose only `ref` child names a BSDF that was never defined. -/
def shapeUnknownRef : XmlNode :=
  .elem "shape" [⟨"type", "cube"⟩] [.elem "ref" [⟨"id", "missing"⟩] []]

/-- A scene with a sensor and the cube `shapeUnknownRef`, and no BSDF at all. -/
def sceneUnknownRef : XmlNode :=
  .elem "" [] [.elem "scene" [] [.elem "sensor" [⟨"type", "perspective"⟩] [], shapeUnknownRef]]

/-- A scene with a texture, two BSDFs, an area light and two emitters. -/
def sceneMaterials : XmlNode :=
  .elem "" [] [.elem "scene" [] [
    .elem "sensor" [⟨"type", "perspective"⟩] [],
    .elem "texture" [⟨"type", "checkerboard"⟩, ⟨"id", "checks"⟩] [],
    .elem "bsdf" [⟨"type", "diffuse"⟩, ⟨"id", "white"⟩] [
      .elem "rgb" [⟨"name", "reflectance"⟩, ⟨"value", "0.8"⟩] []],
    .elem "bsdf" [⟨"type", "twosided"⟩, ⟨"id", "metal"⟩] [
      .elem "bsdf" [⟨"type", "roughconductor"⟩] [
        .elem "ref" [⟨"name", "alpha"⟩, ⟨"id", "checks"⟩] []]],
    .elem "shape" [⟨"type", "sphere"⟩] [
      .elem "emitter" [⟨"type", "area"⟩] [
        .elem "rgb" [⟨"name", "radiance"⟩, ⟨"value", "10"⟩] []]],
    .elem "emitter" [⟨"type", "spot"⟩] [.elem "texture" [⟨"type", "checkerboard"⟩] []],
    .elem "emitter" [⟨"type", "sun"⟩] []]]

/-- A perspective sensor with a focal length of 50 mm and nothing else. -/
def sensor50 : XmlNode :=
  .elem "sensor" [⟨"type", "perspective"⟩] [
    .elem "string" [⟨"name", "focalLength"⟩, ⟨"value", "50mm"⟩] []]

/-- A thin dielectric with interior index 1.5; the exterior index is left to its default. -/
def bsdfThinGlass : XmlNode :=
  .elem "bsdf" [⟨"type", "thindielectric"⟩] [
    .elem "float" [⟨"name", "int_ior"⟩, ⟨"value", "1.5"⟩] []]

/-- A sphere that is an area light of radiance 10. -/
def shapeAreaLamp : XmlNode :=
  .elem "shape" [⟨"type", "sphere"⟩] [
    .elem "emitter" [⟨"type", "area"⟩] [
      .elem "rgb" [⟨"name", "radiance"⟩, ⟨"value", "10"⟩] []]]

/-- A sphere with an `emitter` child that has no `rgb` child. -/
def shapeLampNoRgb : XmlNode :=
  .elem "shape" [⟨"type", "sphere"⟩] [.elem "emitter" [⟨"type", "area"⟩] []]

/-- A scene whose film width is a `$name` without a `default` element. -/
def sceneFilmUndefined : XmlNode :=
  .elem "" [] [.elem "scene" [] [
    .elem "sensor" [⟨"type", "perspective"⟩] [
      .elem "film" [] [.elem "integer" [⟨"name", "width"⟩, ⟨"value", "$w"⟩] []]]]]

/-- A scene whose integrator `maxDepth` is a `$name` without a `default` element. -/
def sceneDepthUndefined : XmlNode :=
  .elem "" [] [.elem "scene" [] [
    .elem "sensor" [⟨"type", "perspective"⟩] [],
    .elem "integrator" [⟨"type", "path"⟩] [
      .elem "integer" [⟨"name", "maxDepth"⟩, ⟨"value", "$d"⟩] []]]]

/-- A scene with a 576 × 768 film, `fovAxis` set to `smaller` and no `fov`. -/
def sceneSmallerAxis : XmlNode :=
  .elem "" [] [.elem "scene" [] [
    .elem "sensor" [⟨"type", "perspective"⟩] [
      .elem "string" [⟨"name", "fovAxis"⟩, ⟨"value", "smaller"⟩] [],
      .elem "film" [] [
        .elem "integer" [⟨"name", "width"⟩, ⟨"value", "576"⟩] [],
        .elem "integer" [⟨"name", "height"⟩, ⟨"value", "768"⟩] []]]]]

/-- A scene whose integrator has the given text as `maxDepth`. -/
def sceneMaxDepth (value : String) : XmlNode :=
  .elem "" [] [.elem "scene" [] [
    .elem "sensor" [⟨"type", "perspective"⟩] [],
    .elem "integrator" [⟨"type", "path"⟩] [
      .elem "integer" [⟨"name", "maxDepth"⟩, ⟨"value", value⟩] []]]]

end Sample

/-! ## Predicates of the specification -/

section Predicates

variable {F : Type}

/-- A texture id is well formed for a texture sequence of length `n`: it is the invalid-id
sentinel or an index into the sequence. -/
def texIdOk (sentinel n id : Nat) : Prop := id = sentinel ∨ id < n

/-- The texture ids held by the union of a BSDF record. -/
def BsdfData.texIds : BsdfData F → List Nat
  | .area_light id_radiance _ => [id_radiance]
  | .diffuse id_diffuse_reflectance => [id_diffuse_reflectance]
  | .rough_diffuse _ id_diffuse_reflectance id_roughness => [id_diffuse_reflectance, id_roughness]
  | .dielectric _ ru rv sr st => [ru, rv, sr, st]
  | .conductor ru rv sr _ _ => [ru, rv, sr]
  | .plastic _ r dr sr => [r, dr, sr]

/-- The texture ids held by a BSDF record: opacity, bump map and those of the union. -/
def BsdfInfo.texIds (b : BsdfInfo F) : List Nat :=
  b.id_opacity :: b.id_bump_map :: b.data.texIds

/-- The texture ids held by an emitter record. -/
def EmitterInfo.texIds : EmitterInfo F → List Nat
  | .spot _ _ _ _ id_texture => [id_texture]
  | .sun _ _ _ id_texture => [id_texture]
  | .envmap id_radiance _ => [id_radiance]
  | _ => []

/-- Every texture id of the given BSDF and emitter records is well formed for `n` textures. -/
def recsOk (sentinel n : Nat) (bsdfs : List (BsdfInfo F)) (emitters : List (EmitterInfo F)) :
    Prop :=
  (∀ b ∈ bsdfs, ∀ id ∈ b.texIds, texIdOk sentinel n id) ∧
  (∀ e ∈ emitters, ∀ id ∈ e.texIds, texIdOk sentinel n id)

/-- Every texture id stored in a BSDF or emitter record of the configuration is the sentinel or
an index into `config.textures`. -/
def configTexIdsOk (sentinel : Nat) (config : RendererConfig F) : Prop :=
  recsOk sentinel config.textures.length config.bsdfs config.emitters

/-- Every id registered in `map_texture` is an index into `config.textures`. -/
def TexInv (s : ParserState F) : Prop :=
  ∀ kv ∈ s.map_texture, kv.2 < s.config.textures.length

/-- The state `s2` comes from `s1` by registering and appending textures only, and its texture
table is sound when that of `s1` is. -/
structure TexExt (s1 s2 : ParserState F) : Prop where
  inv : TexInv s1 → TexInv s2
  le : s1.config.textures.length ≤ s2.config.textures.length
  frame : ∃ mt tx, s2 = { s1 with map_texture := mt, config := { s1.config with textures := tx } }

/-- The invariant of the parser for texture ids. -/
def Inv (sentinel : Nat) (s : ParserState F) : Prop :=
  TexInv s ∧ configTexIdsOk sentinel s.config

/-- The state `s2` has the camera and the integrator of `s1`. -/
def SameHead (s1 s2 : ParserState F) : Prop :=
  s2.config.camera = s1.config.camera ∧ s2.config.integrator = s1.config.integrator

/-- What `ReadBsdf` leaves behind: the invariant, the camera and integrator, the emitters and
the instances. -/
structure BsdfStep (sentinel : Nat) (s s' : ParserState F) : Prop where
  inv : Inv sentinel s'
  head : SameHead s s'
  emitters : s'.config.emitters = s.config.emitters
  instances : s'.config.instances = s.config.instances
  le : s.config.textures.length ≤ s'.config.textures.length

/-- The state `s2` comes from `s1` by registering and appending textures and by registering and
appending the BSDF records `recs`. -/
structure BsdfExt (s1 s2 : ParserState F) (recs : List (BsdfInfo F)) : Prop where
  le : s1.config.textures.length ≤ s2.config.textures.length
  frame : ∃ mt mb tx, s2 =
    { s1 with
      map_texture := mt, map_bsdf := mb
      config := { s1.config with textures := tx, bsdfs := s1.config.bsdfs ++ recs } }

/-- What `ReadMedium` may change: the medium table and the media sequence. -/
def MediumOnly (s s' : ParserState F) : Prop :=
  ∃ mm md, s' = { s with map_medium := mm, config := { s.config with media := md } }

/-- A step of the parser from a state that satisfies the invariant keeps the invariant and
leaves camera and integrator alone. -/
def Keeps (sentinel : Nat) (s s' : ParserState F) : Prop :=
  Inv sentinel s → Inv sentinel s' ∧ SameHead s s'

/-- The text of a `maxDepth` / `max_depth` entry of the integrator evaluates to a non-zero
integer, or assigns nothing. -/
def DepthTextNonzero (m : StrMap String) (node : XmlNode) : Prop :=
  (attrValue (node.attr "name") = "maxDepth" ∨ attrValue (node.attr "name") = "max_depth") →
    ∀ v, readIntText m (attrValue (node.attr "value"))
      (.MyException "cannot find default value for max depth.") = .ok (some v) → v ≠ 0

/-- The relative index of refraction held by the union of a BSDF record, for the members that
have one (`dielectric`, used by the Dielectric and ThinDielectric variants, and `plastic`). -/
def BsdfData.eta? : BsdfData F → Option F
  | .dielectric eta _ _ _ _ => some eta
  | .plastic eta _ _ _ => some eta
  | _ => none

/-- The node `ReadBsdf` builds its record from: the node itself, or, below `bumpmap`, `mask` and
`twosided` wrappers, the innermost `bsdf` child; `fuel` bounds the descent as in `ReadBsdfAux`. -/
def bsdfCore : Nat → XmlNode → XmlNode
  | 0, n => n
  | fuel + 1, n =>
    let type := attrValue (n.attr "type")
    if type = "bumpmap" ∨ type = "mask" ∨ type = "twosided" then bsdfCore fuel (n.child "bsdf")
    else n

/-- The outcome is not the exhaustion of the recursion budget. -/
def NoFuelErr {α : Type} (r : Except Err α) : Prop := r ≠ .error .outOfFuel

/-- The file readers of the environment are C++ functions: they return, throw or exit, and never
report an exhausted recursion budget. -/
def LibNoFuel (lib : Lib F) : Prop :=
  (∀ fn g w, NoFuelErr (lib.imageRead fn g w)) ∧
  (∀ fn a b, NoFuelErr (lib.loadMeshes fn a b)) ∧
  (∀ fn i a b, NoFuelErr (lib.loadSerialized fn i a b))

end Predicates

section SpecFormulas

variable {F : Type} [LinearOrderedField F]

/-- The index of refraction `ReadDielectricIor` returns for a numeric child: the `value` of the
child of one of the given names, the default when the child or its `value` is absent. -/
def numericIor (lib : Lib F) (parent_node : XmlNode) (valid_names : List String) (dflt : F) : F :=
  as_float lib ((childByName parent_node valid_names).attr "value") dflt

/-- The reflectivity of a conductor in the words of the specification, for one channel:
`r = ((η − 1)² + k²) / ((η + 1)² + k²)`. -/
def specReflectivity (eta k : F) : F :=
  ((eta - 1) ^ 2 + k ^ 2) / ((eta + 1) ^ 2 + k ^ 2)

/-- The edgetint of Gulbrandsen's parameterization in the words of the specification, for one
channel: `g = (n_max − η) / (n_max − n_min)` with `n_min = (1 − r) / (1 + r)` and
`n_max = (1 + √r) / (1 − √r)`. -/
def specEdgetint (sqrt : F → F) (eta r : F) : F :=
  let n_min := (1 - r) / (1 + r)
  let n_max := (1 + sqrt r) / (1 - sqrt r)
  (n_max - eta) / (n_max - n_min)

end SpecFormulas

section ExitGlobals

variable {F : Type} [LinearOrderedField F]

/-- The file-scope variables as `ReadMedium` leaves them, whether it returns or throws. The id is
registered in `map_medium` before the type is checked; the coefficient and phase blocks write no
global, so a throw in them leaves what the registration left; `push_back` is the last
statement. -/
def ReadMediumGlobals (lib : Lib F) (medium_node : XmlNode) (s : ParserState F) : ParserState F :=
  let id := attrValue (medium_node.attr "id")
  if s.map_medium.count id then s
  else
    let id_medium := s.config.media.length % 2 ^ 32
    let id := if id.isEmpty then "medium_" ++ toString id_medium else id
    let s := { s with map_medium := s.map_medium.set id id_medium }
    let type := attrValue (medium_node.attr "type")
    if type ≠ "homogeneous" then s
    else
      match mediumInfo lib medium_node with
      | .error _ => s
      | .ok info => { s with config := { s.config with media := s.config.media ++ [info] } }

/-- The file-scope variables after the texture readers `ReadTexture(bsdf_node, names, default)`
for the given names and defaults, run in order up to the first that throws. A texture reader
writes (`map_texture[id] = index`, `textures.push_back`) only after everything in it that can
throw, so where one throws the globals are those it found. -/
def afterTextures (lib : Lib F) (bsdf_node : XmlNode) :
    List (List String × F) → ParserState F → ParserState F
  | [], s => s
  | (names, dflt) :: rest, s =>
    match ReadTextureByName lib bsdf_node names dflt s with
    | .error _ => s
    | .ok (_, s) => afterTextures lib bsdf_node rest s

/-- The texture readers of the roughness block shared by the dielectric and the conductor case of
`ReadBsdf`, in order. -/
def roughnessTextures (bsdf_node : XmlNode) (rough : Bool) : List (List String × F) :=
  if rough then
    if (GetChildNodeByName bsdf_node ["alpha"]).isSome then [(["alpha"], 1 / 10)]
    else [(["alpha_u", "alphaU"], 1 / 10), (["alpha_v", "alphaV"], 1 / 10)]
  else [([], 1 / 1000)]

/-- The texture readers the second switch of `ReadBsdf` runs, in order; `none` when
`ReadDielectricIor`, which the dielectric and plastic cases call first, throws. In the conductor
case `ReadConductorIor` is called after the texture readers. -/
def bsdfVariantTextures (lib : Lib F) (bsdf_node : XmlNode) (type : String) :
    Option (List (List String × F)) :=
  if type = "diffuse" then some [(["reflectance"], 1 / 2)]
  else if type = "roughdiffuse" then some [(["reflectance"], 1 / 2), (["alpha"], 2 / 10)]
  else if type = "thindielectric" ∨ type = "dielectric" ∨ type = "roughdielectric" then
    match ReadDielectricIor lib bsdf_node ["int_ior", "intIOR"] (15046 / 10000),
      ReadDielectricIor lib bsdf_node ["ext_ior", "extIOR"] (1000277 / 1000000) with
    | .ok _, .ok _ =>
      some (roughnessTextures bsdf_node (decide (type = "roughdielectric")) ++
        [(["specularReflectance", "specular_reflectance"], 1),
         (["specularTransmittance", "specular_transmittance"], 1)])
    | _, _ => none
  else if type = "conductor" ∨ type = "roughconductor" then
    some (roughnessTextures bsdf_node (decide (type = "roughconductor")) ++
      [(["specularReflectance", "specular_reflectance"], 1)])
  else if type = "plastic" ∨ type = "roughplastic" then
    match ReadDielectricIor lib bsdf_node ["int_ior", "intIOR"] (15046 / 10000),
      ReadDielectricIor lib bsdf_node ["ext_ior", "extIOR"] (1000277 / 1000000) with
    | .ok _, .ok _ =>
      some [(if type = "roughplastic" then (["alpha"], 1 / 10) else ([], 1 / 1000)),
        (["diffuseReflectance", "diffuse_reflectance"], 1),
        (["specularReflectance", "specular_reflectance"], 1)]
    | _, _ => none
  else some [([], 1 / 2)]

/-- The file-scope variables as the second part of `ReadBsdf` leaves them, whether it returns or
throws: after a return, the state of the result; after a throw, which can only come from the
second switch, what the texture readers that ran before it have written. -/
def ReadBsdfLeafGlobals (lib : Lib F) (bsdf_node : XmlNode) (id type : String)
    (id_opacity id_bumpmap : Nat) (twosided : Bool) (s : ParserState F) : ParserState F :=
  match ReadBsdfLeaf lib bsdf_node id type id_opacity id_bumpmap twosided s with
  | .ok (_, s) => s
  | .error _ =>
    match bsdfVariantTextures lib bsdf_node type with
    | none => s
    | some readers => afterTextures lib bsdf_node readers s

/-- The file-scope variables as `ReadBsdf` leaves them, whether it returns or throws. The first
switch throws before anything is written; a wrapper reads its texture and then calls `ReadBsdf`
on its `bsdf` child. -/
def ReadBsdfAuxGlobals (lib : Lib F) :
    Nat → XmlNode → String → Nat → Nat → Bool → ParserState F → ParserState F
  | fuel, bsdf_node, id, id_opacity, id_bumpmap, twosided, s =>
    let id := if id.isEmpty then attrValue (bsdf_node.attr "id") else id
    let type := attrValue (bsdf_node.attr "type")
    if type = "bumpmap" then
      match fuel with
      | 0 => s
      | fuel + 1 =>
        match ReadTexture lib (bsdf_node.child "texture") 1 1 s with
        | .error _ => s
        | .ok (id_bumpmap, s) =>
          ReadBsdfAuxGlobals lib fuel (bsdf_node.child "bsdf") id id_opacity id_bumpmap twosided s
    else if type = "mask" then
      match fuel with
      | 0 => s
      | fuel + 1 =>
        match ReadTextureByName lib bsdf_node ["opacity"] 1 s with
        | .error _ => s
        | .ok (id_opacity, s) =>
          ReadBsdfAuxGlobals lib fuel (bsdf_node.child "bsdf") id id_opacity id_bumpmap twosided s
    else if type = "twosided" then
      match fuel with
      | 0 => s
      | fuel + 1 =>
        ReadBsdfAuxGlobals lib fuel (bsdf_node.child "bsdf") id id_opacity id_bumpmap true s
    else if type ∈ unsupportedBsdfTypes then s
    else ReadBsdfLeafGlobals lib bsdf_node id type id_opacity id_bumpmap twosided s

/-- The file-scope variables as `ReadBsdf(bsdf_node, id, id_opacity, id_bumpmap, twosided)`
leaves them. -/
def ReadBsdfGlobals (lib : Lib F) (bsdf_node : XmlNode) (id : String)
    (id_opacity id_bumpmap : Nat) (twosided : Bool) (s : ParserState F) : ParserState F :=
  ReadBsdfAuxGlobals lib bsdf_node.depth bsdf_node id id_opacity id_bumpmap twosided s

end ExitGlobals

section SpecWords

variable {F : Type} [LinearOrderedField F]

/-- The shape types `ReadShape` knows. -/
def knownShapeTypes : List String :=
  ["cube", "rectangle", "sphere", "disk", "cylinder", "obj", "serialized", "gltf", "ply"]

/-- The names under which an `integer` child of the integrator gives a depth. -/
def depthNames : List String := ["maxDepth", "max_depth", "rrDepth", "rr_depth"]

/-- The type string of the integrator in the words of the specification: the `type` attribute
(`path` when absent), replaced by the value of its `default` element when it is a `$name` that has
one. -/
def typeAfterDefaults (map_default : StrMap String) (integrator_node : XmlNode) : String :=
  let t := (integrator_node.attr "type").getD "path"
  match t.toList with
  | '$' :: _ => if map_default.count t then (map_default.at? t).getD "" else t
  | _ => t

/-- The bsdf types the second switch of `ReadBsdf` has a case for. -/
def variantBsdfTypes : List String :=
  ["diffuse", "roughdiffuse", "thindielectric", "dielectric", "roughdielectric", "conductor",
   "roughconductor", "plastic", "roughplastic"]

/-- The wrapper types of the first switch of `ReadBsdf`. -/
def wrapperBsdfTypes : List String := ["bumpmap", "mask", "twosided"]

/-- The wrappers around a bsdf node, from the outermost inward; `fuel` bounds the descent as in
`bsdfCore`. -/
def bsdfWrappers : Nat → XmlNode → List XmlNode
  | 0, _ => []
  | fuel + 1, n =>
    if attrValue (n.attr "type") ∈ wrapperBsdfTypes then n :: bsdfWrappers fuel (n.child "bsdf")
    else []

/-- The first non-empty text of a list, the empty text when there is none. -/
def firstNonEmpty (l : List String) : String := (l.find? (fun x => ¬ x.isEmpty)).getD ""

/-- The textures of a chain of wrappers in the words of the specification: from the outermost
wrapper inward, a `mask` reads its opacity texture and a `bumpmap` its texture; the pair
(id_opacity, id_bump_map) ends as the ids the innermost `mask` and the innermost `bumpmap` gave,
and keeps the value it starts with where there is no such wrapper. -/
def wrapperTextures (lib : Lib F) :
    List XmlNode → Nat × Nat → ParserState F → Except Err ((Nat × Nat) × ParserState F)
  | [], ob, s => .ok (ob, s)
  | w :: ws, ob, s =>
    if attrValue (w.attr "type") = "mask" then
      match ReadTextureByName lib w ["opacity"] 1 s with
      | .error e => .error e
      | .ok (id_opacity, s) => wrapperTextures lib ws (id_opacity, ob.2) s
    else if attrValue (w.attr "type") = "bumpmap" then
      match ReadTexture lib (w.child "texture") 1 1 s with
      | .error e => .error e
      | .ok (id_bumpmap, s) => wrapperTextures lib ws (ob.1, id_bumpmap) s
    else wrapperTextures lib ws ob s

/-- The direction held by a Sun emitter record. -/
def EmitterInfo.sunDirection? : EmitterInfo F → Option (Vec3 F)
  | .sun direction _ _ _ => some direction
  | _ => none

end SpecWords

section MoreSamples

/-- A shape of a type `ReadShape` does not know, with a diffuse BSDF. -/
def shapeUnknownType : XmlNode :=
  .elem "shape" [⟨"type", "hair"⟩] [.elem "bsdf" [⟨"type", "diffuse"⟩] []]

/-- A scene with a sensor and the shape `shapeUnknownType`. -/
def sceneUnknownType : XmlNode :=
  .elem "" [] [.elem "scene" [] [.elem "sensor" [⟨"type", "perspective"⟩] [], shapeUnknownType]]

/-- A bsdf of the refused type `phong`. -/
def bsdfPhong : XmlNode := .elem "bsdf" [⟨"type", "phong"⟩, ⟨"id", "shiny"⟩] []

/-- A bsdf of a type `ReadBsdf` has no case for. -/
def bsdfVelvet : XmlNode := .elem "bsdf" [⟨"type", "velvet"⟩, ⟨"id", "soft"⟩] []

/-- A rough conductor inside a `mask` (with id `inner`) inside a `bumpmap` inside a `twosided`
wrapper (with id `outer`). -/
def bsdfNested : XmlNode :=
  .elem "bsdf" [⟨"type", "twosided"⟩, ⟨"id", "outer"⟩] [
    .elem "bsdf" [⟨"type", "bumpmap"⟩] [
      .elem "texture" [⟨"type", "checkerboard"⟩] [],
      .elem "bsdf" [⟨"type", "mask"⟩, ⟨"id", "inner"⟩] [
        .elem "rgb" [⟨"name", "opacity"⟩, ⟨"value", "0.5"⟩] [],
        .elem "bsdf" [⟨"type", "roughconductor"⟩] []]]]

/-- A medium of type `heterogeneous`. -/
def mediumHeterogeneous : XmlNode :=
  .elem "medium" [⟨"type", "heterogeneous"⟩, ⟨"id", "fog"⟩] []

/-- An integrator node that gives nothing but its type. -/
def integratorBare : XmlNode := .elem "integrator" [⟨"type", "path"⟩] []

/-- An integrator whose type is the `$name` reference `$integrator`. -/
def integratorByDefault : XmlNode := .elem "integrator" [⟨"type", "$integrator"⟩] []

/-- A sun emitter with the explicit direction (0, 1, 0) toward the sun. -/
def emitterSunUp : XmlNode :=
  .elem "emitter" [⟨"type", "sun"⟩] [
    .elem "vector" [⟨"name", "sunDirection"⟩, ⟨"x", "0"⟩, ⟨"y", "1"⟩, ⟨"z", "0"⟩] []]

/-- A scene with a sensor and the sun `emitterSunUp`. -/
def sceneSunUp : XmlNode :=
  .elem "" [] [.elem "scene" [] [.elem "sensor" [⟨"type", "perspective"⟩] [], emitterSunUp]]

end MoreSamples

/-! ## Image files (src/src/utils/image_io.cpp) -/

/-- What `image_io::Read` calls and the sources do not hold: tinyexr, stb_image, stb_image_resize2
and `std::pow`. -/
structure ImageLib (F : Type) where
  /-- Function `LoadEXR`: the RGBA floats (four for each pixel), the width and the height it
  stores; `none` when it does not return `TINYEXR_SUCCESS`. -/
  LoadEXR : String → Option (List F × Int × Int)
  /-- Function `stbi_loadf`: the floats, width, height and channel count; `none` for a null
  pointer. -/
  stbi_loadf : String → Option (List F × Int × Int × Int)
  /-- Function `stbi_load`: the bytes, width, height and channel count; `none` for a null
  pointer. -/
  stbi_load : String → Option (List Nat × Int × Int × Int)
  pow : F → F → F
  /-- Function `stbir_resize_float_linear` on pixels of the given width, height and channel
  count, to the target width and height: the output pixels. -/
  stbir_resize_float_linear : List F → Int → Int → Int → Int → Int → List F

namespace image_io

variable {F : Type} [LinearOrderedField F]

/-- The set `support_format` of `Read`. -/
def support_format : List String :=
  ["EXR", "exr", "jpg", "jpeg", "JPG", "JPEG", "png", "PNG", "tga", "TGA", "bmp", "BMP", "psd",
   "PSD", "gif", "GIF", "hdr", "HDR", "pic", "PIC", "pgm", "PGM", "ppm", "PPM"]

/-- A loop `for (int i = 0; i < n; ++i) data[i] = f(data[i]);` over an array. -/
def mapFirst (n : Int) (f : F → F) (data : List F) : List F :=
  (data.take n.toNat).map f ++ data.drop n.toNat

/-- The expression `c <= 0.04045f ? c / 12.92f : std::pow((c + 0.055f) / 1.055f, 2.4f)`. -/
def srgbToLinear (io : ImageLib F) (c : F) : F :=
  if c ≤ 4045 / 100000 then c / (1292 / 100)
  else io.pow ((c + 55 / 1000) / (1055 / 1000)) (24 / 10)

/-- Function `image_io::Resize`. -/
def Resize (io : ImageLib F) (input_pixels : List F) (input_w input_h : Int)
    (output_w output_h : Int) (num_channels : Int) : List F :=
  io.stbir_resize_float_linear input_pixels input_w input_h output_w output_h num_channels

/-- The switch over the suffix in `Read`: the pixels with `*width`, `*height` and `*channel` as
it leaves them. `channel` is the value the caller's variable holds on entry: the EXR case uses it
in its gamma loop and assigns 4 afterwards. -/
def readSwitch (io : ImageLib F) (filename suffix : String) (gamma : F) (channel : Int) :
    Except Err (List F × Int × Int × Int) :=
  if suffix = "exr" ∨ suffix = "EXR" then
    match io.LoadEXR filename with
    | none => .error (.processExit 1)
    | some (data, width, height) =>
      let data :=
        if gamma ≠ 0 then
          let num_component := width * height * channel
          mapFirst num_component (fun c => io.pow c gamma) data
        else data
      .ok (data, width, height, 4)
  else if suffix = "HDR" ∨ suffix = "hdr" then
    match io.stbi_loadf filename with
    | none => .error (.processExit 1)
    | some (data, width, height, channel) =>
      let num_component := width * height * channel
      let data :=
        if gamma = -1 then mapFirst num_component (srgbToLinear io) data
        else if gamma ≠ 0 then mapFirst num_component (fun c => io.pow c gamma) data
        else data
      .ok (data, width, height, channel)
  else
    match io.stbi_load filename with
    | none => .error (.processExit 1)
    | some (raw_data_uc, width, height, channel) =>
      let num_component := width * height * channel
      let data := (raw_data_uc.take num_component.toNat).map (fun u => (u : F) / 255)
      let data :=
        if gamma = 0 ∨ gamma = -1 then mapFirst num_component (srgbToLinear io) data
        else mapFirst num_component (fun c => io.pow c gamma) data
      .ok (data, width, height, channel)

/-- Function `image_io::Read(filename, gamma, width_max, width, height, channel)`: the pixels it
returns with the values it leaves in `*width`, `*height` and `*channel`; the last argument is the
value of `*channel` on entry. -/
def Read (lib : Lib F) (io : ImageLib F) (filename : String) (gamma : F)
    (width_max : Option Int) (channel : Int) : Except Err (List F × Int × Int × Int) :=
  let suffix := lib.GetSuffix filename
  if suffix ∉ support_format then .error (.processExit 1)
  else
    match readSwitch io filename suffix gamma channel with
    | .error e => .error e
    | .ok (data, width, height, channel) =>
      match width_max with
      | none => .ok (data, width, height, channel)
      | some width_max =>
        if width > width_max then
          let height_target := Int.tdiv (width_max * height) width
          .ok (Resize io data width height width_max height_target channel, width_max,
            height_target, channel)
        else .ok (data, width, height, channel)

end image_io

section ImageSamples

variable {F : Type} [LinearOrderedField F]

/-- The environment in which the `image_io::Read` that `ReadBitmap` calls is the function of the
sources; `ReadBitmap` declares `int width = 0, height = 0, channel = 1` and passes their
addresses. -/
def withImageIo (lib : Lib F) (io : ImageLib F) : Lib F :=
  { lib with
    imageRead := fun filename gamma width_max => image_io.Read lib io filename gamma width_max 1 }

/-- The text after the last dot of a file name. -/
def suffixOf (filename : String) : String :=
  String.mk (filename.toList.reverse.takeWhile (fun c => c ≠ '.')).reverse

/-- A sample image library over the rationals: the EXR file `tex.exr` is one pixel with the four
components 1/2; `pow` is exact for the exponent 2. -/
def sampleImageLib : ImageLib ℚ :=
  { LoadEXR := fun filename =>
      if filename = "tex.exr" then some ([1 / 2, 1 / 2, 1 / 2, 1 / 2], 1, 1) else none
    stbi_loadf := fun _ => none
    stbi_load := fun _ => none
    pow := fun c g => if g = 2 then c * c else c
    stbir_resize_float_linear := fun data _ _ _ _ _ => data }

/-- The sample environment with file names that have suffixes and the sample image library. -/
def imageLib : Lib ℚ :=
  withImageIo { ratLib .null with GetSuffix := suffixOf } sampleImageLib

/-- The pixels of a bitmap texture. -/
def TextureInfo.bitmapData? : TextureInfo F → Option (List F)
  | .bitmap data _ _ _ _ => some data
  | _ => none

/-- A bitmap texture read from `tex.exr` with gamma 2. -/
def textureExr : XmlNode :=
  .elem "texture" [⟨"type", "bitmap"⟩] [
    .elem "string" [⟨"name", "filename"⟩, ⟨"value", "tex.exr"⟩] [],
    .elem "float" [⟨"name", "gamma"⟩, ⟨"value", "2"⟩] []]

end ImageSamples

/-! ## Mesh files (src/src/parser/model_loader.cpp) -/

/-- What the loader of serialized meshes calls and the sources do not hold: `fopen`, zlib and the
meaning of the bytes of a `float` and of a `double`. -/
structure LoaderLib (F : Type) (Z : Type) where
  /-- Call `fopen(filename, "rb")`: the bytes of the file, `none` for a null pointer. -/
  fopen : String → Option (List Nat)
  /-- The value `deflateInit2` returns. -/
  deflateInit2 : Int
  /-- The value `inflateInit2` returns and the state it gives the stream. -/
  inflateInit2 : Int × Z
  /-- Call `inflate(&strm, Z_NO_FLUSH)` on a stream in the given state, with the given unread
  input (`next_in`; `avail_in` is its length) and room for `avail_out` bytes: the return value,
  the number of input bytes consumed, the bytes written and the new state. -/
  inflate : Z → List Nat → Nat → Int × Nat × List Nat × Z
  /-- The `float` four bytes hold, first byte first in memory. -/
  float32 : List Nat → F
  /-- The `float` that `static_cast<float>` makes of the `double` eight bytes hold. -/
  float64 : List Nat → F

/-- The file-scope variables of the loader: the bytes behind `g_stream` and its position, the
unread part of `g_inflateBuffer` (`next_in`, `avail_in`) and the state of `g_inflateStream`. -/
structure LoaderState (Z : Type) where
  g_stream : List Nat
  pos : Nat
  next_in : List Nat
  z : Z

/-- Struct `aiFace`: the index array. -/
structure AiFace where
  mIndices : Nat → Nat

/-- Struct `aiMesh`: the counts and the arrays `ProcessAssimpNode` reads; an array that may be a
null pointer and is tested is an `Option`. -/
structure AiMesh (F : Type) where
  mNumVertices : Nat
  mNumFaces : Nat
  mVertices : Nat → Vec3 F
  mNormals : Nat → Vec3 F
  mTextureCoords0 : Option (Nat → Vec3 F)
  mTangents : Option (Nat → Vec3 F)
  mBitangents : Option (Nat → Vec3 F)
  mFaces : Nat → AiFace

/-- Struct `aiNode`: the indices of its meshes and its children. -/
inductive AiNode where
  | mk (mMeshes : List Nat) (mChildren : List AiNode) : AiNode

/-- Struct `aiScene`. -/
structure AiScene (F : Type) where
  mFlags : Nat
  mRootNode : Option AiNode
  mMeshes : Nat → AiMesh F

/-- The importer of assimp: `ReadFile(filename, options)` gives the scene or a null pointer, and
`GetErrorString()` the text of the error. -/
structure AssimpLib (F : Type) where
  importerReadFile : String → Nat → Option (AiScene F)
  GetErrorString : String

namespace model_loader

variable {F : Type} [LinearOrderedField F] {Z : Type}

/-- Constant `kZstreamBufferSize`. -/
def kZstreamBufferSize : Nat := 32768

/-- The value of bytes read into an unsigned integer on a little-endian host, and on any other
host after `SwapEndianness`. -/
def leValue (bytes : List Nat) : Nat := bytes.foldr (fun b acc => b + 256 * acc) 0

/-- Function `Seek`: `fseeko` with the position converted to `off_t` fails for a negative
offset. -/
def Seek (g_filename : String) (pos : Nat) (st : LoaderState Z) : Except Err (LoaderState Z) :=
  if 2 ^ 63 ≤ pos then
    .error (.MyException ("error while trying to seek to position '" ++ toString pos ++
      "' in file '" ++ g_filename ++ "'."))
  else .ok { st with pos := pos }

/-- Function `GetPos`. -/
def GetPos (st : LoaderState Z) : Nat := st.pos

/-- Function `GetSize`: the length of the file; the position is put back. -/
def GetSize (st : LoaderState Z) : Nat := st.g_stream.length

/-- Function `ReadFile(ptr, size)`: the bytes read; throws when fewer than `size` are left. -/
def ReadFile (g_filename : String) (size : Nat) (st : LoaderState Z) :
    Except Err (List Nat × LoaderState Z) :=
  let got := (st.g_stream.drop st.pos).take size
  if got.length ≠ size then
    .error (.MyException ("read less data than expected from file '" ++ g_filename ++ "'."))
  else .ok (got, { st with pos := st.pos + size })

/-- Function `ReadCompressedFile(ptr, size)`: the bytes stored at `ptr`. Each turn of the loop
`while (size > 0)` consumes one unit of `fuel`. Bytes of the target that a call of `inflate`
skips keep the value zero. -/
def ReadCompressedFile (env : LoaderLib F Z) (g_filename : String) :
    Nat → Nat → LoaderState Z → Except Err (List Nat × LoaderState Z)
  | _, 0, st => .ok ([], st)
  | 0, _ + 1, _ => .error .outOfFuel
  | fuel + 1, size + 1, st =>
    let filled : Except Err (LoaderState Z) :=
      if st.next_in.length = 0 then
        let remaining := (GetSize st + 2 ^ 64 - GetPos st % 2 ^ 64) % 2 ^ 64
        let avail_in := min remaining kZstreamBufferSize
        if avail_in = 0 then
          .error (.MyException
            ("read less data than expected from file '" ++ g_filename ++ "'."))
        else
          match ReadFile g_filename avail_in st with
          | .error e => .error e
          | .ok (buffer, st) => .ok { st with next_in := buffer }
      else .ok st
    match filled with
    | .error e => .error e
    | .ok st =>
      let avail_out := (size + 1) % 2 ^ 32
      let r := env.inflate st.z st.next_in avail_out
      let retval := r.1
      let written := r.2.2.1.take avail_out
      let st := { st with next_in := st.next_in.drop r.2.1, z := r.2.2.2 }
      if retval = -2 then
        .error (.MyException ("inflate(): stream error for file '" ++ g_filename ++ "'."))
      else if retval = 2 then
        .error (.MyException ("inflate(): need dictionary for file '" ++ g_filename ++ "'."))
      else if retval = -3 then
        .error (.MyException ("inflate(): data error for file '" ++ g_filename ++ "'."))
      else if retval = -4 then
        .error (.MyException ("inflate(): memory error for file '" ++ g_filename ++ "'."))
      else
        let outputSize := size + 1 - (avail_out - written.length)
        let stored := written ++ List.replicate (outputSize - written.length) 0
        let size := size + 1 - outputSize
        if size > 0 ∧ retval = 1 then
          .error (.MyException
            ("inflate(): attempting to read past the end of the stream for file '" ++
              g_filename ++ "'."))
        else
          match ReadCompressedFile env g_filename fuel size st with
          | .error e => .error e
          | .ok (rest, st) => .ok (stored ++ rest, st)

/-- Function `ReadCompressedString`; each turn of its loop consumes one unit of the second
budget. -/
def ReadCompressedString (env : LoaderLib F Z) (g_filename : String) (fuel : Nat) :
    Nat → LoaderState Z → Except Err (String × LoaderState Z)
  | 0, _ => .error .outOfFuel
  | turns + 1, st =>
    match ReadCompressedFile env g_filename fuel 1 st with
    | .error e => .error e
    | .ok (bytes, st) =>
      let data := bytes.headD 0
      if data ≠ 0 then
        match ReadCompressedString env g_filename fuel turns st with
        | .error e => .error e
        | .ok (rest, st) => .ok (String.mk [Char.ofNat data] ++ rest, st)
      else .ok ("", st)

/-- Function `ReadElement<T>(compressed)` for an unsigned integer type of `size` bytes. -/
def ReadElement (env : LoaderLib F Z) (g_filename : String) (fuel : Nat) (size : Nat)
    (compressed : Bool) (st : LoaderState Z) : Except Err (Nat × LoaderState Z) :=
  match (if compressed then ReadCompressedFile env g_filename fuel size st
    else ReadFile g_filename size st) with
  | .error e => .error e
  | .ok (bytes, st) => .ok (leValue bytes, st)

/-- The first `n` groups of `k` consecutive elements of a list. -/
def chunks {α : Type} (k : Nat) : Nat → List α → List (List α)
  | 0, _ => []
  | n + 1, l => l.take k :: chunks k n (l.drop k)

/-- Function `ReadVectorArray<VecType, vec_size, ElementType, RawType>(array_size)` before the
conversion of the elements: for each of the `array_size` vectors, the bytes of its `vec_size`
components, each of `rawSize = sizeof(RawType)` bytes. -/
def ReadVectorArray (env : LoaderLib F Z) (g_filename : String) (fuel : Nat)
    (rawSize vec_size array_size : Nat) (st : LoaderState Z) :
    Except Err (List (List (List Nat)) × LoaderState Z) :=
  let num_emelent := (array_size * vec_size) % 2 ^ 64
  match ReadCompressedFile env g_filename fuel ((rawSize * num_emelent) % 2 ^ 64) st with
  | .error e => .error e
  | .ok (bytes, st) => .ok (chunks vec_size array_size (chunks rawSize num_emelent bytes), st)

/-- The `Vec3` of converted components. -/
def toVec3 (conv : List Nat → F) (v : List (List Nat)) : Vec3 F :=
  ⟨conv (v.getD 0 []), conv (v.getD 1 []), conv (v.getD 2 [])⟩

/-- The arrays `ReadVectorArray<Vec3, 3, float, double>` and `ReadVectorArray<Vec3, 3, float,
float>`, chosen by `double_precision`. -/
def readVec3Array (env : LoaderLib F Z) (g_filename : String) (fuel : Nat)
    (double_precision : Bool) (array_size : Nat) (st : LoaderState Z) :
    Except Err (List (Vec3 F) × LoaderState Z) :=
  match (if double_precision then ReadVectorArray env g_filename fuel 8 3 array_size st
    else ReadVectorArray env g_filename fuel 4 3 array_size st) with
  | .error e => .error e
  | .ok (raw, st) =>
    .ok (raw.map (toVec3 (if double_precision then env.float64 else env.float32)), st)

/-- The arrays `ReadVectorArray<Vec2, 2, float, double>` and `ReadVectorArray<Vec2, 2, float,
float>`, chosen by `double_precision`. -/
def readVec2Array (env : LoaderLib F Z) (g_filename : String) (fuel : Nat)
    (double_precision : Bool) (array_size : Nat) (st : LoaderState Z) :
    Except Err (List (F × F) × LoaderState Z) :=
  match (if double_precision then ReadVectorArray env g_filename fuel 8 2 array_size st
    else ReadVectorArray env g_filename fuel 4 2 array_size st) with
  | .error e => .error e
  | .ok (raw, st) =>
    let conv := if double_precision then env.float64 else env.float32
    .ok (raw.map (fun v => (conv (v.getD 0 []), conv (v.getD 1 []))), st)

/-- Conversion `static_cast<int>` of a `uint32_t`. -/
def toInt32 (n : Nat) : Int :=
  if n % 2 ^ 32 < 2 ^ 31 then (n % 2 ^ 32 : Nat) else (n % 2 ^ 32 : Nat) - 2 ^ 32

/-- Function `ProcessOffset`; positions are `size_t` values, computed modulo `2 ^ 64`, and
`count - index_shape` is computed in `uint32_t`. -/
def ProcessOffset (env : LoaderLib F Z) (g_filename : String) (fuel : Nat) (index_shape : Int)
    (version : Nat) (st : LoaderState Z) : Except Err (LoaderState Z) :=
  if index_shape = 0 then .ok st
  else
    let stream_size := GetSize st
    match Seek g_filename ((stream_size + 2 ^ 64 - 4) % 2 ^ 64) st with
    | .error e => .error e
    | .ok st =>
      match ReadElement env g_filename fuel 4 false st with
      | .error e => .error e
      | .ok (count, st) =>
        if index_shape < 0 ∨ index_shape > toInt32 count then
          .error (.MyException
            ("unable to unserialize mesh, shape index is out of range for file '" ++
              g_filename ++ "'."))
        else
          let located : Except Err (Nat × LoaderState Z) :=
            if version = 0x0004 then
              match Seek g_filename
                  ((GetSize st + 2 * 2 ^ 64 - (8 * toUint32 ((count : Int) - index_shape)) % 2 ^ 64
                    - 4) % 2 ^ 64) st with
              | .error e => .error e
              | .ok st => ReadElement env g_filename fuel 8 false st
            else
              match Seek g_filename
                  ((GetSize st + 2 ^ 64 -
                    (4 * toUint32 ((count : Int) - index_shape + 1)) % 2 ^ 64) % 2 ^ 64) st with
              | .error e => .error e
              | .ok st => ReadElement env g_filename fuel 4 false st
          match located with
          | .error e => .error e
          | .ok (offset, st) =>
            match Seek g_filename offset st with
            | .error e => .error e
            | .ok st => Seek g_filename ((GetPos st + 2 * 2) % 2 ^ 64) st

/-- Function `InitZlib`. -/
def InitZlib (env : LoaderLib F Z) (st : LoaderState Z) : Except Err (LoaderState Z) :=
  if env.deflateInit2 ≠ 0 then
    .error (.MyException
      ("cannot initialize ZLIB: error code '" ++ toString env.deflateInit2 ++ "'."))
  else if env.inflateInit2.1 ≠ 0 then
    .error (.MyException
      ("cannot initialize ZLIB: error code '" ++ toString env.inflateInit2.1 ++ "'."))
  else .ok { st with next_in := [], z := env.inflateInit2.2 }

/-- The part of `Load(filename, index_shape, flip_texcoords, face_normals)` after the header:
the arrays of the mesh. Neither `flip_texcoords` nor `face_normals` is read. -/
def loadArrays (env : LoaderLib F Z) (g_filename : String) (fuel : Nat) (version : Nat)
    (st : LoaderState Z) : Except Err (MeshesInfo F) :=
  match ReadElement env g_filename fuel 4 true st with
  | .error e => .error e
  | .ok (flags, st) =>
    let named : Except Err (LoaderState Z) :=
      if version = 0x0004 then
        match ReadCompressedString env g_filename fuel fuel st with
        | .error e => .error e
        | .ok (_, st) => .ok st
      else .ok st
    match named with
    | .error e => .error e
    | .ok st =>
      match ReadElement env g_filename fuel 8 true st with
      | .error e => .error e
      | .ok (vertex_count, st) =>
        match ReadElement env g_filename fuel 8 true st with
        | .error e => .error e
        | .ok (triangle_count, st) =>
          let double_precision := decide (flags &&& 0x2000 ≠ 0)
          match readVec3Array env g_filename fuel double_precision vertex_count st with
          | .error e => .error e
          | .ok (positions, st) =>
            match (if flags &&& 0x0001 ≠ 0 then
                readVec3Array env g_filename fuel double_precision vertex_count st
              else .ok ([], st)) with
            | .error e => .error e
            | .ok (normals, st) =>
              match (if flags &&& 0x0002 ≠ 0 then
                  readVec2Array env g_filename fuel double_precision vertex_count st
                else .ok ([], st)) with
              | .error e => .error e
              | .ok (texcoords, st) =>
                match (if flags &&& 0x0008 ≠ 0 then
                    readVec3Array env g_filename fuel double_precision vertex_count st
                  else .ok ([], st)) with
                | .error e => .error e
                | .ok (_, st) =>
                  match ReadVectorArray env g_filename fuel 4 3 triangle_count st with
                  | .error e => .error e
                  | .ok (raw, _) =>
                    .ok { positions := positions, normals := normals, texcoords := texcoords,
                          tangents := [], bitangents := [],
                          indices := raw.map (fun v =>
                            (leValue (v.getD 0 []), leValue (v.getD 1 []),
                              leValue (v.getD 2 []))) }

set_option linter.unusedVariables false in
/-- Function `model_loader::Load(filename, index_shape, flip_texcoords, face_normals)`, the loader
of serialized meshes. -/
def Load (env : LoaderLib F Z) (fuel : Nat) (filename : String) (index_shape : Int)
    (flip_texcoords face_normals : Bool) : Except Err (MeshesInfo F) :=
  match env.fopen filename with
  | none => .error (.MyException ("read file '" ++ filename ++ "' failed."))
  | some bytes =>
    let st : LoaderState Z :=
      { g_stream := bytes, pos := 0, next_in := [], z := env.inflateInit2.2 }
    match ReadElement env filename fuel 2 false st with
    | .error e => .error e
    | .ok (format, st) =>
      if format ≠ 0x041C then
        .error (.MyException ("invalid file format for '" ++ filename ++ "'."))
      else
        match ReadElement env filename fuel 2 false st with
        | .error e => .error e
        | .ok (version, st) =>
          if version ≠ 0x0003 ∧ format ≠ 0x0004 then
            .error (.MyException ("invalid file version for '" ++ filename ++ "'."))
          else
            match ProcessOffset env filename fuel index_shape version st with
            | .error e => .error e
            | .ok st =>
              match InitZlib env st with
              | .error e => .error e
              | .ok st => loadArrays env filename fuel version st

/-- The value-initialised `MeshesInfo`. -/
def emptyMeshes : MeshesInfo F := ⟨[], [], [], [], [], []⟩

/-- One turn of the loop over the meshes of a node in `ProcessAssimpNode`; indices are
`unsigned int` sums. -/
def meshStep (scene : AiScene F) (face_normals : Bool) (index_offset : Nat)
    (info_meshes : MeshesInfo F) (meshIndex : Nat) : MeshesInfo F :=
  let mesh := scene.mMeshes meshIndex
  let vertices := List.range mesh.mNumVertices
  { indices := info_meshes.indices ++ (List.range mesh.mNumFaces).map (fun j =>
      let face := mesh.mFaces j
      ((index_offset + face.mIndices 0) % 2 ^ 32, (index_offset + face.mIndices 1) % 2 ^ 32,
        (index_offset + face.mIndices 2) % 2 ^ 32))
    texcoords := info_meshes.texcoords ++
      (match mesh.mTextureCoords0 with
        | some tc => vertices.map (fun j => ((tc j).x, (tc j).y))
        | none => [])
    positions := info_meshes.positions ++ vertices.map mesh.mVertices
    normals := info_meshes.normals ++ (if ¬ face_normals then vertices.map mesh.mNormals else [])
    tangents := info_meshes.tangents ++
      (match mesh.mTangents with
        | some a => vertices.map a
        | none => [])
    bitangents := info_meshes.bitangents ++
      (match mesh.mBitangents with
        | some a => vertices.map a
        | none => []) }

/-- The six `insert` calls after a recursive call of `ProcessAssimpNode`. -/
def appendMeshes (info_meshes info_meshes_local : MeshesInfo F) : MeshesInfo F :=
  { indices := info_meshes.indices ++ info_meshes_local.indices
    texcoords := info_meshes.texcoords ++ info_meshes_local.texcoords
    positions := info_meshes.positions ++ info_meshes_local.positions
    normals := info_meshes.normals ++ info_meshes_local.normals
    tangents := info_meshes.tangents ++ info_meshes_local.tangents
    bitangents := info_meshes.bitangents ++ info_meshes_local.bitangents }

mutual
/-- Function `ProcessAssimpNode(scene, node, face_normals, index_offset)`. -/
def ProcessAssimpNode (scene : AiScene F) : AiNode → Bool → Nat → MeshesInfo F
  | .mk mMeshes mChildren, face_normals, index_offset =>
    processChildren scene mChildren face_normals
      (mMeshes.foldl (meshStep scene face_normals index_offset) emptyMeshes)
/-- The loop over the children of a node in `ProcessAssimpNode`: each child is processed with
`info_meshes.indices.size()`, converted to `uint32_t`, as its index offset. -/
def processChildren (scene : AiScene F) : List AiNode → Bool → MeshesInfo F → MeshesInfo F
  | [], _, info_meshes => info_meshes
  | child :: rest, face_normals, info_meshes =>
    processChildren scene rest face_normals
      (appendMeshes info_meshes
        (ProcessAssimpNode scene child face_normals (info_meshes.indices.length % 2 ^ 32)))
end

/-- The post-processing flags of assimp that `Load` uses. -/
def aiProcess_CalcTangentSpace : Nat := 0x1
/-- Flag `aiProcess_Triangulate`. -/
def aiProcess_Triangulate : Nat := 0x8
/-- Flag `aiProcess_GenSmoothNormals`. -/
def aiProcess_GenSmoothNormals : Nat := 0x40
/-- Flag `aiProcess_GenUVCoords`. -/
def aiProcess_GenUVCoords : Nat := 0x40000
/-- Flag `aiProcess_FlipUVs`. -/
def aiProcess_FlipUVs : Nat := 0x800000
/-- Flag `AI_SCENE_FLAGS_INCOMPLETE`. -/
def AI_SCENE_FLAGS_INCOMPLETE : Nat := 0x1

/-- Function `model_loader::Load(filename, flip_texcoords, face_normals)`, the loader that goes
through assimp. -/
def LoadFile (ai : AssimpLib F) (filename : String) (flip_texcoords face_normals : Bool) :
    Except Err (MeshesInfo F) :=
  let assimp_option := aiProcess_Triangulate ||| aiProcess_GenUVCoords |||
    aiProcess_CalcTangentSpace
  let assimp_option :=
    if ¬ face_normals then assimp_option ||| aiProcess_GenSmoothNormals else assimp_option
  let assimp_option :=
    if flip_texcoords then assimp_option ||| aiProcess_FlipUVs else assimp_option
  match ai.importerReadFile filename assimp_option with
  | none => .error (.MyException ("ASSIMP:: '" ++ ai.GetErrorString ++ "'."))
  | some scene =>
    match scene.mRootNode with
    | none => .error (.MyException ("ASSIMP:: '" ++ ai.GetErrorString ++ "'."))
    | some root =>
      if scene.mFlags &&& AI_SCENE_FLAGS_INCOMPLETE ≠ 0 then
        .error (.MyException ("ASSIMP:: '" ++ ai.GetErrorString ++ "'."))
      else .ok (ProcessAssimpNode scene root face_normals 0)

end model_loader

section LoaderSamples

/-- A sample loader library over the rationals: one file, a zlib whose streams are stored data
(`inflate` copies its input), and the integer a pattern of bytes spells as the value of a
float. -/
def sampleLoaderLib (file : List Nat) : LoaderLib ℚ Unit :=
  { fopen := fun filename => if filename = "mesh.serialized" then some file else none
    deflateInit2 := 0
    inflateInit2 := (0, ())
    inflate := fun _ input avail_out =>
      (0, min input.length avail_out, input.take avail_out, ())
    float32 := fun bytes => (model_loader.leValue bytes : ℚ)
    float64 := fun bytes => (model_loader.leValue bytes : ℚ) }

/-- A serialized file of version 3 with one vertex, a normal for it (flag `0x0001`) and no
triangle. -/
def fileWithNormals : List Nat :=
  [0x1C, 0x04, 0x03, 0x00] ++
  [1, 0, 0, 0] ++
  [1, 0, 0, 0, 0, 0, 0, 0] ++
  [0, 0, 0, 0, 0, 0, 0, 0] ++
  [1, 0, 0, 0, 2, 0, 0, 0, 3, 0, 0, 0] ++
  [0, 0, 0, 0, 0, 0, 0, 0, 1, 0, 0, 0]

/-- A mesh of assimp with one triangle and the normals (0, 0, 1). -/
def sampleAiMesh : AiMesh ℚ :=
  { mNumVertices := 3, mNumFaces := 1
    mVertices := fun j => ⟨j, 0, 0⟩
    mNormals := fun _ => ⟨0, 0, 1⟩
    mTextureCoords0 := none, mTangents := none, mBitangents := none
    mFaces := fun _ => ⟨fun k => k⟩ }

/-- A scene of assimp whose root node holds the sample mesh and has one child that holds it
again. -/
def sampleAiScene : AiScene ℚ :=
  { mFlags := 0
    mRootNode := some (.mk [0] [.mk [0] []])
    mMeshes := fun _ => sampleAiMesh }

/-- An importer that reads the sample scene from every file. -/
def sampleAssimp : AssimpLib ℚ :=
  { importerReadFile := fun _ _ => some sampleAiScene, GetErrorString := "" }

end LoaderSamples

section LaterSamples

variable {F : Type} [LinearOrderedField F]

/-- The denominator of the edgetint in the conductor case of `ReadBsdf`: `temp1 - temp3 * temp2`
with the temporaries of the source. -/
def conductorEdgetintDenominator (lib : Lib F) (reflectivity : Vec3 F) : Vec3 F :=
  let temp1 := Vec3.add (Vec3.splat 1) (Vec3.map lib.sqrtf reflectivity)
  let temp2 := Vec3.sub (Vec3.splat 1) (Vec3.map lib.sqrtf reflectivity)
  let temp3 := Vec3.div (Vec3.sub (Vec3.splat 1) reflectivity) (Vec3.add (Vec3.splat 1) reflectivity)
  Vec3.sub temp1 (Vec3.mul temp3 temp2)

/-- The denominator of the edgetint in the words of the specification, for one channel:
`(1 + √r) − ((1 − r) / (1 + r)) · (1 − √r)`. -/
def specEdgetintDenominator (sqrt : F → F) (r : F) : F :=
  (1 + sqrt r) - ((1 - r) / (1 + r)) * (1 - sqrt r)

/-- The clamp of the specification: `min(max(t, 1), 10)`. -/
def specTurbidity (t : F) : F := min (max t 1) 10

/-- The 4×4 matrix whose upper-left 3×3 block holds nine numbers in row-major order and whose
other entries are those of the identity. -/
def specMat3 (a : Fin 3 → Fin 3 → F) : Mat4 F :=
  ⟨fun i j =>
    if h : i.val < 3 ∧ j.val < 3 then a ⟨i.val, h.1⟩ ⟨j.val, h.2⟩
    else if i = j then 1 else 0⟩

/-- The names of the children `ReadTransform4` has a case for. -/
def transformNames : List String := ["translate", "rotate", "scale", "matrix", "lookat"]

/-- The entries of a matrix, row by row. -/
def Mat4.rows (a : Mat4 F) : List (List F) :=
  (List.finRange 4).map (fun i => (List.finRange 4).map (fun j => a.m i j))

/-- The way an outcome fails, `none` for a return. -/
def errorOf {α : Type} : Except Err α → Option Err
  | .error e => some e
  | .ok _ => none

/-- A serialized file with format `0x041C` and version `0x0004`. -/
def fileVersion4 : List Nat :=
  [0x1C, 0x04, 0x04, 0x00] ++ [0, 0, 0, 0] ++ [0] ++ [0, 0, 0, 0, 0, 0, 0, 0] ++
  [0, 0, 0, 0, 0, 0, 0, 0]

/-- A serialized file of version 3 with one sub-mesh: the header, twelve bytes of data, the
offset table with the single entry 16, and the trailing count 1. -/
def fileOneMesh : List Nat :=
  [0x1C, 0x04, 0x03, 0x00] ++ [0, 0, 0, 0, 0, 0, 0, 0, 0, 0, 0, 0] ++
  [16, 0, 0, 0] ++ [1, 0, 0, 0]

/-- A serialized file of version 3 with three sub-meshes: the header, twelve bytes of data, the
offset table with the entries 0, 6 and 10, and the trailing count 3. -/
def fileThreeMeshes : List Nat :=
  [0x1C, 0x04, 0x03, 0x00] ++ [0, 0, 0, 0, 0, 0, 0, 0, 0, 0, 0, 0] ++
  [0, 0, 0, 0] ++ [6, 0, 0, 0] ++ [10, 0, 0, 0] ++ [3, 0, 0, 0]

/-- The state of the loader after the header of a file has been read. -/
def afterHeader (file : List Nat) : LoaderState Unit :=
  { g_stream := file, pos := 4, next_in := [], z := () }

/-- A mesh of assimp with three vertices and four faces over them. -/
def manyFacesMesh : AiMesh ℚ :=
  { mNumVertices := 3, mNumFaces := 4
    mVertices := fun j => ⟨j, 0, 0⟩
    mNormals := fun _ => ⟨0, 0, 1⟩
    mTextureCoords0 := none, mTangents := none, mBitangents := none
    mFaces := fun _ => ⟨fun k => k⟩ }

/-- A scene of assimp whose root node holds the mesh with four faces and has one child that
holds the mesh with one face. -/
def sceneManyFaces : AiScene ℚ :=
  { mFlags := 0
    mRootNode := some (.mk [0] [.mk [1] []])
    mMeshes := fun i => if i = 0 then manyFacesMesh else sampleAiMesh }

/-- A cube with two `ref` children: the first names no BSDF, the second names `white`. -/
def shapeSecondRef : XmlNode :=
  .elem "shape" [⟨"type", "cube"⟩] [
    .elem "ref" [⟨"id", "missing"⟩] [], .elem "ref" [⟨"id", "white"⟩] []]

/-- A scene that defines the BSDF `white` and holds the cube `shapeSecondRef`. -/
def sceneSecondRef : XmlNode :=
  .elem "" [] [.elem "scene" [] [
    .elem "sensor" [⟨"type", "perspective"⟩] [],
    .elem "bsdf" [⟨"type", "diffuse"⟩, ⟨"id", "white"⟩] [],
    shapeSecondRef]]

/-- A sample environment whose sun and sky textures are the turbidity they were made with. -/
def turbidityLib (doc : XmlNode) : Lib ℚ :=
  { ratLib doc with
    CreateSunTexture := fun _ turbidity _ _ _ _ => ([turbidity], Vec3.splat 1)
    CreateSkyTexture := fun _ _ turbidity _ _ _ _ _ => [turbidity] }

/-- A sun and sky emitter with turbidity 5. -/
def emitterSunsky : XmlNode :=
  .elem "emitter" [⟨"type", "sunsky"⟩] [
    .elem "float" [⟨"name", "turbidity"⟩, ⟨"value", "5"⟩] []]

/-- A scene with a sensor and the emitter `emitterSunsky`. -/
def sceneSunsky : XmlNode :=
  .elem "" [] [.elem "scene" [] [.elem "sensor" [⟨"type", "perspective"⟩] [], emitterSunsky]]

/-- A matrix node with the nine numbers 1 to 9. -/
def matrixNine : XmlNode := .elem "matrix" [⟨"value", "1 2 3 4 5 6 7 8 9"⟩] []

/-- A transform node with a translation, a child of unknown name and a scaling. -/
def transformSample : XmlNode :=
  .elem "transform" [] [
    .elem "translate" [⟨"x", "1"⟩, ⟨"y", "2"⟩, ⟨"z", "3"⟩] [],
    .elem "shear" [] [],
    .elem "scale" [⟨"value", "2"⟩] []]

/-- An integrator with `maxDepth = -1` followed by `rrDepth = 7`. -/
def integratorDepths : XmlNode :=
  .elem "integrator" [⟨"type", "path"⟩] [
    .elem "integer" [⟨"name", "maxDepth"⟩, ⟨"value", "-1"⟩] [],
    .elem "integer" [⟨"name", "rrDepth"⟩, ⟨"value", "7"⟩] []]

end LaterSamples

/-! ## The acceleration structure (rtcore/accel/tlas.hpp, §4.7 of the specification)

Class `TLAS` is declared in rtcore/accel/tlas.hpp; the bodies of its members, the BVH nodes, the
instances and the primitives are not among the sources. They are modelled from §3, §4.6 and §4.7
of the specification. A traversal is a loop, which receives fuel; `none` is the outcome of a loop
that ran out of fuel or left the node array. The capacity of the traversal stack is not modelled:
by §7 a hierarchy deeper than the stack is refused when the scene is built. -/

section Accel

variable {F : Type} [LinearOrderedField F]

/-- Modelled from the spec: the ray record of §3 (rtcore/ray.hpp is not among the sources),
`{ origin, direction, t_min, t_max }`. -/
structure Ray (F : Type) where
  origin : Vec3 F
  direction : Vec3 F
  t_min : F
  t_max : F

/-- Modelled from the spec: an axis-aligned bounding box, by its smallest and largest corner. -/
structure Aabb (F : Type) where
  pmin : Vec3 F
  pmax : Vec3 F
deriving DecidableEq

/-- Modelled from the spec: the node layout of §4.7 (rtcore/accel/bvh_builder.hpp is not among the
sources), `{ aabb, left_or_prim_start, right_or_prim_count, is_leaf_flag, split_axis }`: an
internal node gives the indices of its two children, a leaf the range of its primitive ids. -/
structure BvhNode (F : Type) where
  aabb : Aabb F
  left_or_prim_start : Nat
  right_or_prim_count : Nat
  is_leaf_flag : Bool
  split_axis : Nat

/-- Modelled from the spec: a valid hit record of §3 (rtcore/hit.hpp is not among the sources),
reduced to the distance and to the ids of the instance and of the primitive; the flag `valid` is
the `some` of an `Option`. -/
structure Hit (F : Type) where
  t : F
  instance_id : Nat
  prim_id : Nat
deriving DecidableEq

/-- Modelled from the spec: a primitive of §4.6, which implements `intersect(ray)` and returns
the distance `t` of the hit, if any, in the local space of its instance. -/
structure Primitive (F : Type) where
  intersect : Ray F → Option F

/-- Modelled from the spec: a BVH of §4.7, the contiguous array of its nodes, whose root is the
entry 0, and the primitive ids its leaves hold ranges of. -/
structure Bvh (F : Type) where
  nodes : List (BvhNode F)
  prim_ids : List Nat

/-- Modelled from the spec: what the core derives from an instance of §3 (rtcore/instance.hpp is
not among the sources), the inverse transform, the primitives and the BLAS over them. -/
structure Instance (F : Type) where
  world_to_local : Mat4 F
  primitives : List (Primitive F)
  blas : Bvh F

/-- Class `TLAS` of rtcore/accel/tlas.hpp: the instances and the nodes of the BVH over them. -/
structure TLAS (F : Type) where
  instances_ : List (Instance F)
  nodes_ : Bvh F

/-- The ray with another `t_max`. -/
def Ray.withTmax (ray : Ray F) (t_max : F) : Ray F := { ray with t_max := t_max }

/-- Component `v[axis]` of a vector. -/
def Vec3.get (v : Vec3 F) (axis : Nat) : F :=
  if axis = 0 then v.x else if axis = 1 then v.y else v.z

/-- Modelled from the spec: one axis of the slab test of §4.7, on the state (no miss so far,
entry distance, exit distance): with `1/dir` and the sign of `dir` the distances to the two
planes of the slab narrow the interval; a ray parallel to the slab misses when its origin is
outside. -/
def slabStep (box : Aabb F) (ray : Ray F) (s : Bool × F × F) (axis : Nat) : Bool × F × F :=
  let o := ray.origin.get axis
  let d := ray.direction.get axis
  if d = 0 then (s.1 && decide (box.pmin.get axis ≤ o ∧ o ≤ box.pmax.get axis), s.2.1, s.2.2)
  else
    let inv := 1 / d
    let t0 := ((if d < 0 then box.pmax.get axis else box.pmin.get axis) - o) * inv
    let t1 := ((if d < 0 then box.pmin.get axis else box.pmax.get axis) - o) * inv
    (s.1, max s.2.1 t0, min s.2.2 t1)

/-- Modelled from the spec: the slab test of the ray against an AABB (§4.7), on the interval
`[t_min, t_max]` of the ray. -/
def slabTest (box : Aabb F) (ray : Ray F) : Bool :=
  let s := [0, 1, 2].foldl (slabStep box ray) (true, ray.t_min, ray.t_max)
  s.1 && decide (s.2.1 ≤ s.2.2)

/-- Modelled from the spec: what a traversal does with the answer of a primitive or of an
instance: a hit inside `[t_min, t_max]` becomes the closest hit so far and `t_max` decreases to
its distance (§3: during traversal `t_max` monotonically decreases). -/
def acceptResult (st : Ray F × Option (Hit F)) (r : Option (Hit F)) : Ray F × Option (Hit F) :=
  match r with
  | some h => if st.1.t_min ≤ h.t ∧ h.t ≤ st.1.t_max then (st.1.withTmax h.t, some h) else st
  | none => st

/-- Modelled from the spec: the intersection of one item of a leaf, by `isect`, which is a loop
for an instance and can run out of fuel. -/
def acceptHit (isect : Nat → Ray F → Option (Option (Hit F))) (st : Ray F × Option (Hit F))
    (p : Nat) : Option (Ray F × Option (Hit F)) :=
  (isect p st.1).map (acceptResult st)

/-- Modelled from the spec: the primitive ids a leaf holds, the range that starts at
`left_or_prim_start` and has `right_or_prim_count` entries. -/
def leafItems (prim_ids : List Nat) (node : BvhNode F) : List Nat :=
  (prim_ids.drop node.left_or_prim_start).take node.right_or_prim_count

/-- Modelled from the spec: the traversal of §4.7, iterative with an explicit stack; the head of
the list is the node being visited, its tail the stack. At each node the ray is slab-tested
against the AABB; on a hit a leaf intersects its primitives, and an internal node pushes the
farther child and descends into the nearer, ordered by the sign of `ray.dir[split_axis]`. -/
def traverse (nodes : List (BvhNode F)) (prim_ids : List Nat)
    (isect : Nat → Ray F → Option (Option (Hit F))) :
    Nat → List Nat → Ray F × Option (Hit F) → Option (Ray F × Option (Hit F))
  | _, [], st => some st
  | 0, _ :: _, _ => none
  | fuel + 1, i :: stack, st =>
    match nodes[i]? with
    | none => none
    | some node =>
      if slabTest node.aabb st.1 then
        if node.is_leaf_flag then
          match (leafItems prim_ids node).foldlM (acceptHit isect) st with
          | none => none
          | some st' => traverse nodes prim_ids isect fuel stack st'
        else if st.1.direction.get node.split_axis < 0 then
          traverse nodes prim_ids isect fuel
            (node.right_or_prim_count :: node.left_or_prim_start :: stack) st
        else
          traverse nodes prim_ids isect fuel
            (node.left_or_prim_start :: node.right_or_prim_count :: stack) st
      else traverse nodes prim_ids isect fuel stack st

/-- Modelled from the spec: `intersect` of a BVH (§4.7), the closest hit of the traversal from
the root. -/
def Bvh.Intersect (bvh : Bvh F) (isect : Nat → Ray F → Option (Option (Hit F))) (fuel : Nat)
    (ray : Ray F) : Option (Option (Hit F)) :=
  (traverse bvh.nodes bvh.prim_ids isect fuel [0] (ray, none)).map (fun st => st.2)

/-- Modelled from the spec: the ray in the local space of an instance (§4.7): the origin is
transformed as a point and the direction as a vector by `world_to_local`, and `t` is rescaled by
the length of the local direction, which is returned with the ray. -/
def Instance.toLocal (lib : Lib F) (inst : Instance F) (ray : Ray F) : Ray F × F :=
  let o := lib.TransformPoint inst.world_to_local ray.origin
  let d := lib.TransformVector inst.world_to_local ray.direction
  let len := lib.sqrtf (d.x * d.x + d.y * d.y + d.z * d.z)
  (⟨o, ⟨d.x / len, d.y / len, d.z / len⟩, ray.t_min * len, ray.t_max * len⟩, len)

/-- The answer of the primitive `j` of an instance to a local ray, as a hit record. -/
def Instance.primHit (inst : Instance F) (j : Nat) (ray : Ray F) : Option (Hit F) :=
  (inst.primitives[j]?).bind (fun p => (p.intersect ray).map (fun t => ⟨t, 0, j⟩))

/-- Modelled from the spec: the hit of the local space transformed back (§4.7), for the
instance `k` and a local direction of length `len`. -/
def Hit.toWorld (k : Nat) (len : F) (h : Hit F) : Hit F := ⟨h.t / len, k, h.prim_id⟩

/-- Modelled from the spec: entering the instance `k` (§4.7): the ray is transformed to the
local space, the BLAS is traversed and the hit is transformed back. -/
def Instance.Intersect (lib : Lib F) (inst : Instance F) (k fuel : Nat) (ray : Ray F) :
    Option (Option (Hit F)) :=
  let l := inst.toLocal lib ray
  (inst.blas.Intersect (fun j r => some (inst.primHit j r)) fuel l.1).map
    (fun r => r.map (Hit.toWorld k l.2))

/-- Modelled from the spec: `TLAS::Intersect`, the closest-hit traversal of the BVH over the
instances (§4.7), whose leaves hold instance ids. The BSDF buffer and the seed of the declaration
are not mentioned by §4.7 and are left out. -/
def TLAS.Intersect (lib : Lib F) (tlas : TLAS F) (fuel : Nat) (ray : Ray F) :
    Option (Option (Hit F)) :=
  tlas.nodes_.Intersect
    (fun k r => match tlas.instances_[k]? with
      | some inst => inst.Intersect lib k fuel r
      | none => some none) fuel ray

end Accel

section AccelPredicates

variable {F : Type} [LinearOrderedField F]

/-- A binary tree of boxes, the shape a node array is read as: a leaf with its primitive ids, or
an internal node with its split axis and its two children. -/
inductive BvhTree (F : Type) where
  | leaf (box : Aabb F) (items : List Nat)
  | node (box : Aabb F) (axis : Nat) (l r : BvhTree F)

/-- Number of nodes of a tree. -/
def BvhTree.size : BvhTree F → Nat
  | .leaf _ _ => 1
  | .node _ _ l r => 1 + l.size + r.size

/-- The primitive ids in the leaves of a tree. -/
def BvhTree.items : BvhTree F → List Nat
  | .leaf _ items => items
  | .node _ _ l r => l.items ++ r.items

end AccelPredicates

section AccelSamples

variable {F : Type} [LinearOrderedField F]

end AccelSamples

/-! ## Binary32 arithmetic

The embedding above takes `float` as an ordered field.  The C++ code computes in binary32
(IEEE 754 single precision, rounding to nearest, ties to even).  For the claims whose truth
depends on rounding, the arithmetic blocks of the parser are given a second time, generic in
the five operations (`FloatOps`), and read with the exact operations of a field and with the
binary32 operations on the rationals: a finite binary32 value is a rational, and an operation is
the exact operation followed by `round32`.  Overflow to an infinity and the NaN of `0/0` have no
value in this model; the statements about a quotient by zero are statements about the divisor. -/

section Binary32

/-- Rounding of a rational to the nearest integer, ties to even. -/
def roundHalfEven (x : ℚ) : ℤ :=
  if x - ⌊x⌋ < 1 / 2 then ⌊x⌋
  else if 1 / 2 < x - ⌊x⌋ then ⌊x⌋ + 1
  else if ⌊x⌋ % 2 = 0 then ⌊x⌋ else ⌊x⌋ + 1

/-- The power `2 ^ z` for an integer exponent. -/
def pow2 (z : ℤ) : ℚ :=
  if 0 ≤ z then ((2 ^ z.toNat : ℕ) : ℚ) else 1 / ((2 ^ (-z).toNat : ℕ) : ℚ)

/-- The binary32 exponent of a rational: the largest `e` from `-126` to `127` with
`2 ^ e ≤ |q|`, and `-126` (the exponent of the subnormal numbers) when there is none. -/
def exponent32 (q : ℚ) : ℤ :=
  (List.range 254).foldl
    (fun (acc : ℤ) (i : ℕ) =>
      if q.den * 2 ^ i ≤ q.num.natAbs * 2 ^ 126 then (i : ℤ) - 126 else acc) (-126)

/-- The spacing of the binary32 numbers around a rational: 24 significant bits. -/
def ulp32 (q : ℚ) : ℚ := pow2 (exponent32 q - 23)

/-- Rounding of a rational to binary32: to the nearest multiple of the spacing, ties to even.
This is the binary32 value for every `|q|` below `2 ^ 128`. -/
def round32 (q : ℚ) : ℚ := (roundHalfEven (q / ulp32 q) : ℚ) * ulp32 q

/-- The integer square root by bisection over the bits `fuel − 1, …, 0`. -/
def isqrtAux (n : ℕ) : ℕ → ℕ → ℕ
  | 0, r => r
  | i + 1, r => if (r + 2 ^ i) ^ 2 ≤ n then isqrtAux n i (r + 2 ^ i) else isqrtAux n i r

/-- The integer square root of a natural below `2 ^ 600`. -/
def isqrt (n : ℕ) : ℕ := isqrtAux n 300 0

/-- The binary32 square root `sqrtf`, correctly rounded: the square root is taken with 200
binary digits after the point and rounded; zero for an argument that is not positive. -/
def sqrt32 (q : ℚ) : ℚ :=
  if q ≤ 0 then 0 else round32 ((isqrt ⌊q * 4 ^ 200⌋.toNat : ℚ) / 2 ^ 200)

end Binary32

section FloatBlocks

variable {F : Type}

/-- The arithmetic of `float`: the four operations and `sqrtf`. -/
structure FloatOps (F : Type) where
  add : F → F → F
  sub : F → F → F
  mul : F → F → F
  div : F → F → F
  sqrt : F → F

/-- The exact operations of a field, with a given square root. -/
def FloatOps.exact [LinearOrderedField F] (sqrt : F → F) : FloatOps F :=
  ⟨(· + ·), (· - ·), (· * ·), (· / ·), sqrt⟩

/-- The operations of binary32 on the rationals: the exact result, rounded. -/
def FloatOps.binary32 : FloatOps ℚ :=
  ⟨fun a b => round32 (a + b), fun a b => round32 (a - b), fun a b => round32 (a * b),
    fun a b => round32 (a / b), sqrt32⟩

/-- One channel of `(Sqr(eta - 1.0f) + Sqr(k)) / (Sqr(eta + 1.0f) + Sqr(k))` in `ReadBsdf`. -/
def channelReflectivity [One F] (ops : FloatOps F) (eta k : F) : F :=
  ops.div (ops.add (ops.mul (ops.sub eta 1) (ops.sub eta 1)) (ops.mul k k))
    (ops.add (ops.mul (ops.add eta 1) (ops.add eta 1)) (ops.mul k k))

/-- One channel of `temp1 - eta * temp2` in `ReadBsdf`, the dividend of the edgetint, with
`temp1 = 1.0f + Sqrt(reflectivity)` and `temp2 = 1.0f - Sqrt(reflectivity)`. -/
def channelEdgetintNumerator [One F] (ops : FloatOps F) (eta r : F) : F :=
  ops.sub (ops.add 1 (ops.sqrt r)) (ops.mul eta (ops.sub 1 (ops.sqrt r)))

/-- One channel of `temp1 - temp3 * temp2` in `ReadBsdf`, the divisor of the edgetint, with
`temp3 = (1.0f - reflectivity) / (1.0 + reflectivity)`. -/
def channelEdgetintDenominator [One F] (ops : FloatOps F) (r : F) : F :=
  ops.sub (ops.add 1 (ops.sqrt r))
    (ops.mul (ops.div (ops.sub 1 r) (ops.add 1 r)) (ops.sub 1 (ops.sqrt r)))

/-- One channel of the edgetint of `ReadBsdf`. -/
def channelEdgetint [One F] (ops : FloatOps F) (eta r : F) : F :=
  ops.div (channelEdgetintNumerator ops eta r) (channelEdgetintDenominator ops r)

/-- The product of two matrices with the operations `ops`, the four products of an entry
added from left to right. -/
def matMulWith (ops : FloatOps F) (a b : Mat4 F) : Mat4 F :=
  ⟨fun i j => ops.add (ops.add (ops.add (ops.mul (a.m i 0) (b.m 0 j))
    (ops.mul (a.m i 1) (b.m 1 j))) (ops.mul (a.m i 2) (b.m 2 j))) (ops.mul (a.m i 3) (b.m 3 j))⟩

/-- The sample environment in binary32: the numbers read are rounded and the matrix product
rounds every operation. -/
def float32Lib (doc : XmlNode) : Lib ℚ :=
  { ratLib doc with
    scanFloat := fun cs => (scanDecimal cs).map (fun p => (round32 p.1, p.2))
    Mul := matMulWith FloatOps.binary32 }

/-- A transform node with the scaling 0.1. -/
def transformScalesA : XmlNode :=
  .elem "transform" [] [.elem "scale" [⟨"value", "0.1"⟩] []]

/-- A transform node with the scalings 0.1 and 0.9. -/
def transformScalesB : XmlNode :=
  .elem "transform" [] [.elem "scale" [⟨"value", "0.1"⟩] [], .elem "scale" [⟨"value", "0.9"⟩] []]

/-- A transform node with the children of `transformScalesA`, then those of
`transformScalesB`: the scalings 0.1, 0.1 and 0.9. -/
def transformScales : XmlNode :=
  .elem "transform" [] (transformScalesA.children ++ transformScalesB.children)

end FloatBlocks

/-! ## Theorems -/

set_option linter.unusedSectionVars false
set_option linter.unusedVariables false

section Lemmas

variable {F : Type} [LinearOrderedField F]

/-- A bind in `Except` returns exactly when both parts do. -/
theorem bind_ok_iff {ε α β : Type} (x : Except ε α) (f : α → Except ε β) (b : β) :
    (x >>= f) = .ok b ↔ ∃ a, x = .ok a ∧ f a = .ok b := by
  cases x with
  | error e => simp [bind, Except.bind]
  | ok a => simp [bind, Except.bind]

/-- A bind in `Except` whose first part fails, fails the same way. -/
theorem bind_error {ε α β : Type} (x : Except ε α) (f : α → Except ε β) (e : ε)
    (h : x = .error e) : (x >>= f) = .error e := by
  subst h; rfl

theorem texExt_refl (s : ParserState F) : TexExt s s :=
  ⟨id, le_rfl, s.map_texture, s.config.textures, rfl⟩

theorem texExt_trans {s s1 s2 : ParserState F} (h1 : TexExt s s1) (h2 : TexExt s1 s2) :
    TexExt s s2 := by
  refine ⟨fun h => h2.inv (h1.inv h), le_trans h1.le h2.le, ?_⟩
  obtain ⟨mt1, tx1, e1⟩ := h1.frame
  obtain ⟨mt2, tx2, e2⟩ := h2.frame
  exact ⟨mt2, tx2, by rw [e2, e1]⟩

theorem texExt_bsdfs {s s1 : ParserState F} (h : TexExt s s1) :
    s1.config.bsdfs = s.config.bsdfs := by
  obtain ⟨mt, tx, e⟩ := h.frame
  rw [e]

theorem texExt_emitters {s s1 : ParserState F} (h : TexExt s s1) :
    s1.config.emitters = s.config.emitters := by
  obtain ⟨mt, tx, e⟩ := h.frame
  rw [e]

theorem texExt_instances {s s1 : ParserState F} (h : TexExt s s1) :
    s1.config.instances = s.config.instances := by
  obtain ⟨mt, tx, e⟩ := h.frame
  rw [e]

theorem texExt_map_bsdf {s s1 : ParserState F} (h : TexExt s s1) :
    s1.map_bsdf = s.map_bsdf := by
  obtain ⟨mt, tx, e⟩ := h.frame
  rw [e]

theorem texExt_sameHead {s s1 : ParserState F} (h : TexExt s s1) : SameHead s s1 := by
  obtain ⟨mt, tx, e⟩ := h.frame
  rw [e]; exact ⟨rfl, rfl⟩

theorem addTexture_ext (s : ParserState F) (id : String) (info : TextureInfo F) :
    TexExt s (addTexture s id s.config.textures.length info) := by
  refine ⟨?_, by simp [addTexture], _, _, rfl⟩
  intro h kv hkv
  simp only [addTexture, StrMap.set, List.mem_cons] at hkv
  simp only [addTexture, List.length_append, List.length_singleton]
  rcases hkv with rfl | hkv
  · simp
  · exact Nat.lt_succ_of_lt (h kv hkv)

theorem addTexture_lt (s : ParserState F) (id : String) (info : TextureInfo F) :
    s.config.textures.length <
      (addTexture s id s.config.textures.length info).config.textures.length := by
  simp [addTexture]

/-- A registered texture id is an index into the texture sequence. -/
theorem map_at_lt {s : ParserState F} (h : TexInv s) (id : String)
    (hc : s.map_texture.count id = true) :
    (s.map_texture.at? id).getD 0 < s.config.textures.length := by
  unfold StrMap.count at hc
  unfold StrMap.at?
  rw [List.any_eq_true] at hc
  obtain ⟨kv, hkv, hk⟩ := hc
  cases hf : List.find? (fun kv => decide (kv.1 = id)) s.map_texture with
  | none =>
    rw [List.find?_eq_none] at hf
    exact absurd hk (hf kv hkv)
  | some kv2 =>
    simp only [Option.map_some', Option.getD_some]
    exact h kv2 (List.mem_of_find?_eq_some hf)

theorem ReadBitmap_ext (lib : Lib F) (fn id : String) (g sc : F) (wm : Option Int)
    {s s' : ParserState F} {i : Nat}
    (h : ReadBitmap lib fn id g sc wm s = .ok (i, s')) :
    TexExt s s' ∧ i < s'.config.textures.length := by
  unfold ReadBitmap at h
  rw [bind_ok_iff] at h
  obtain ⟨⟨raw, w, hh, c⟩, _, h⟩ := h
  simp only [pure, Except.pure, Except.ok.injEq, Prod.mk.injEq] at h
  obtain ⟨rfl, rfl⟩ := h
  exact ⟨addTexture_ext s _ _, by simp [addTexture]⟩

/-- The part of `ReadTextureAux` that does not recurse keeps the texture table sound. -/
theorem ReadTextureAux_ext (lib : Lib F) (fuel : Nat) :
    ∀ (node : XmlNode) (scale d : F) (s s' : ParserState F) (i : Nat),
      ReadTextureAux lib fuel node scale d s = .ok (i, s') →
      TexExt s s' ∧ (TexInv s → i < s'.config.textures.length) := by
  induction fuel with
  | zero =>
    intro node scale d s s' i h
    unfold ReadTextureAux at h
    simp only at h
    split at h
    · cases h; exact ⟨addTexture_ext s _ _, fun _ => by simp [addTexture]⟩
    · split at h
      · cases h
      · split at h
        · split at h
          · cases h; exact ⟨texExt_refl s, fun hs => map_at_lt hs _ (by assumption)⟩
          · cases h
        · split at h
          · cases h; exact ⟨addTexture_ext s _ _, fun _ => by simp [addTexture]⟩
          · split at h
            · cases h; exact ⟨addTexture_ext s _ _, fun _ => by simp [addTexture]⟩
            · split at h
              · split at h
                · rw [bind_ok_iff] at h
                  obtain ⟨c0, _, h⟩ := h
                  rw [bind_ok_iff] at h
                  obtain ⟨c1, _, h⟩ := h
                  cases h; exact ⟨addTexture_ext s _ _, fun _ => by simp [addTexture]⟩
                · split at h
                  · split at h
                    · cases h
                    · exact ⟨(ReadBitmap_ext lib _ _ _ _ _ h).1, fun _ => (ReadBitmap_ext lib _ _ _ _ _ h).2⟩
                  · cases h
              · cases h
  | succ n ih =>
    intro node scale d s s' i h
    unfold ReadTextureAux at h
    simp only at h
    split at h
    · cases h; exact ⟨addTexture_ext s _ _, fun _ => by simp [addTexture]⟩
    · split at h
      · exact ih _ _ _ _ _ _ h
      · split at h
        · split at h
          · cases h; exact ⟨texExt_refl s, fun hs => map_at_lt hs _ (by assumption)⟩
          · cases h
        · split at h
          · cases h; exact ⟨addTexture_ext s _ _, fun _ => by simp [addTexture]⟩
          · split at h
            · cases h; exact ⟨addTexture_ext s _ _, fun _ => by simp [addTexture]⟩
            · split at h
              · split at h
                · rw [bind_ok_iff] at h
                  obtain ⟨c0, _, h⟩ := h
                  rw [bind_ok_iff] at h
                  obtain ⟨c1, _, h⟩ := h
                  cases h; exact ⟨addTexture_ext s _ _, fun _ => by simp [addTexture]⟩
                · split at h
                  · split at h
                    · cases h
                    · exact ⟨(ReadBitmap_ext lib _ _ _ _ _ h).1, fun _ => (ReadBitmap_ext lib _ _ _ _ _ h).2⟩
                  · cases h
              · cases h

theorem ReadTexture_ext (lib : Lib F) (node : XmlNode) (scale d : F) {s s' : ParserState F}
    {i : Nat} (h : ReadTexture lib node scale d s = .ok (i, s')) :
    TexExt s s' ∧ (TexInv s → i < s'.config.textures.length) :=
  ReadTextureAux_ext lib _ _ _ _ _ _ _ h

theorem ReadTextureByName_ext (lib : Lib F) (node : XmlNode) (names : List String) (d : F)
    {s s' : ParserState F} {i : Nat}
    (h : ReadTextureByName lib node names d s = .ok (i, s')) :
    TexExt s s' ∧ (TexInv s → i < s'.config.textures.length) := by
  unfold ReadTextureByName at h
  split at h
  · exact ReadTexture_ext lib _ _ _ h
  · cases h; exact ⟨addTexture_ext s _ _, fun _ => by simp [addTexture]⟩

theorem readRoughnessUV_ext (lib : Lib F) (node : XmlNode) (rough : Bool)
    {s s' : ParserState F} {u v : Nat}
    (h : readRoughnessUV lib node rough s = .ok ((u, v), s')) :
    TexExt s s' ∧
      (TexInv s → u < s'.config.textures.length ∧ v < s'.config.textures.length) := by
  unfold readRoughnessUV at h
  split at h
  · split at h
    · rw [bind_ok_iff] at h
      obtain ⟨⟨a, s1⟩, h1, h⟩ := h
      cases h
      obtain ⟨e1, l1⟩ := ReadTextureByName_ext lib _ _ _ h1
      exact ⟨e1, fun hs => ⟨l1 hs, l1 hs⟩⟩
    · rw [bind_ok_iff] at h
      obtain ⟨⟨a, s1⟩, h1, h⟩ := h
      rw [bind_ok_iff] at h
      obtain ⟨⟨b, s2⟩, h2, h⟩ := h
      cases h
      obtain ⟨e1, l1⟩ := ReadTextureByName_ext lib _ _ _ h1
      obtain ⟨e2, l2⟩ := ReadTextureByName_ext lib _ _ _ h2
      exact ⟨texExt_trans e1 e2, fun hs => ⟨lt_of_lt_of_le (l1 hs) e2.le, l2 (e1.inv hs)⟩⟩
  · rw [bind_ok_iff] at h
    obtain ⟨⟨a, s1⟩, h1, h⟩ := h
    cases h
    obtain ⟨e1, l1⟩ := ReadTextureByName_ext lib _ _ _ h1
    exact ⟨e1, fun hs => ⟨l1 hs, l1 hs⟩⟩

end Lemmas

section BsdfLemmas

variable {F : Type} [LinearOrderedField F]

theorem recsOk_mono {sentinel n m : Nat} (h : n ≤ m) {bsdfs : List (BsdfInfo F)}
    {emitters : List (EmitterInfo F)} (hr : recsOk sentinel n bsdfs emitters) :
    recsOk sentinel m bsdfs emitters := by
  constructor
  · intro b hb id hid
    rcases hr.1 b hb id hid with h1 | h1
    · exact Or.inl h1
    · exact Or.inr (lt_of_lt_of_le h1 h)
  · intro e he id hid
    rcases hr.2 e he id hid with h1 | h1
    · exact Or.inl h1
    · exact Or.inr (lt_of_lt_of_le h1 h)

theorem texIdOk_mono {sentinel n m id : Nat} (h : n ≤ m) (hi : texIdOk sentinel n id) :
    texIdOk sentinel m id := by
  rcases hi with h1 | h1
  · exact Or.inl h1
  · exact Or.inr (lt_of_lt_of_le h1 h)

/-- Appending textures keeps the invariant. -/
theorem inv_ext {sentinel : Nat} {s s' : ParserState F} (h : Inv sentinel s)
    (e : TexExt s s') : Inv sentinel s' := by
  refine ⟨e.inv h.1, ?_⟩
  have := recsOk_mono e.le h.2
  unfold configTexIdsOk
  rw [texExt_bsdfs e, texExt_emitters e]
  exact this

/-- The second switch of `ReadBsdf` only appends textures, and every id it puts into the union
is an index into the texture sequence it leaves. -/
theorem bsdfVariant_ext (lib : Lib F) (node : XmlNode) (type : String)
    {s s' : ParserState F} {ty : BsdfType} {f : Bool} {data : BsdfData F}
    (h : bsdfVariant lib node type s = .ok ((ty, f, data), s')) :
    TexExt s s' ∧ (TexInv s → ∀ id ∈ data.texIds, id < s'.config.textures.length) := by
  unfold bsdfVariant at h
  split at h
  · -- diffuse
    rw [bind_ok_iff] at h
    obtain ⟨⟨a, s1⟩, h1, h⟩ := h
    cases h
    obtain ⟨e1, l1⟩ := ReadTextureByName_ext lib _ _ _ h1
    exact ⟨e1, fun hs => by simp [BsdfData.texIds, l1 hs]⟩
  · split at h
    · -- roughdiffuse
      rw [bind_ok_iff] at h
      obtain ⟨⟨a, s1⟩, h1, h⟩ := h
      rw [bind_ok_iff] at h
      obtain ⟨⟨b, s2⟩, h2, h⟩ := h
      cases h
      obtain ⟨e1, l1⟩ := ReadTextureByName_ext lib _ _ _ h1
      obtain ⟨e2, l2⟩ := ReadTextureByName_ext lib _ _ _ h2
      refine ⟨texExt_trans e1 e2, fun hs => ?_⟩
      have := e2.le
      have := l1 hs
      have := l2 (e1.inv hs)
      simp only [BsdfData.texIds, List.mem_cons, List.mem_singleton, List.not_mem_nil, or_false]
      rintro id (rfl | rfl) <;> omega
    · split at h
      · -- dielectric
        rw [bind_ok_iff] at h
        obtain ⟨a, _, h⟩ := h
        rw [bind_ok_iff] at h
        obtain ⟨b, _, h⟩ := h
        rw [bind_ok_iff] at h
        obtain ⟨⟨⟨u, v⟩, s1⟩, h1, h⟩ := h
        rw [bind_ok_iff] at h
        obtain ⟨⟨r, s2⟩, h2, h⟩ := h
        rw [bind_ok_iff] at h
        obtain ⟨⟨t, s3⟩, h3, h⟩ := h
        cases h
        obtain ⟨e1, luv⟩ := readRoughnessUV_ext lib _ _ h1
        obtain ⟨e2, l2⟩ := ReadTextureByName_ext lib _ _ _ h2
        obtain ⟨e3, l3⟩ := ReadTextureByName_ext lib _ _ _ h3
        refine ⟨texExt_trans (texExt_trans e1 e2) e3, fun hs => ?_⟩
        have := e2.le
        have := e3.le
        obtain ⟨lu, lv⟩ := luv hs
        have := l2 (e1.inv hs)
        have := l3 (e2.inv (e1.inv hs))
        simp only [BsdfData.texIds, List.mem_cons, List.mem_singleton, List.not_mem_nil, or_false]
        rintro id (rfl | rfl | rfl | rfl) <;> omega
      · split at h
        · -- conductor
          rw [bind_ok_iff] at h
          obtain ⟨⟨⟨u, v⟩, s1⟩, h1, h⟩ := h
          rw [bind_ok_iff] at h
          obtain ⟨⟨r, s2⟩, h2, h⟩ := h
          rw [bind_ok_iff] at h
          obtain ⟨⟨eta, k⟩, _, h⟩ := h
          cases h
          obtain ⟨e1, luv⟩ := readRoughnessUV_ext lib _ _ h1
          obtain ⟨e2, l2⟩ := ReadTextureByName_ext lib _ _ _ h2
          refine ⟨texExt_trans e1 e2, fun hs => ?_⟩
          have := e2.le
          obtain ⟨lu, lv⟩ := luv hs
          have := l2 (e1.inv hs)
          simp only [BsdfData.texIds, List.mem_cons, List.mem_singleton, List.not_mem_nil,
            or_false]
          rintro id (rfl | rfl | rfl) <;> omega
        · split at h
          · -- plastic
            rw [bind_ok_iff] at h
            obtain ⟨a, _, h⟩ := h
            rw [bind_ok_iff] at h
            obtain ⟨b, _, h⟩ := h
            rw [bind_ok_iff] at h
            obtain ⟨⟨r, s1⟩, h1, h⟩ := h
            rw [bind_ok_iff] at h
            obtain ⟨⟨dr, s2⟩, h2, h⟩ := h
            rw [bind_ok_iff] at h
            obtain ⟨⟨sr, s3⟩, h3, h⟩ := h
            cases h
            have h1' : TexExt s s1 ∧ (TexInv s → r < s1.config.textures.length) := by
              split at h1
              · exact ReadTextureByName_ext lib _ _ _ h1
              · exact ReadTextureByName_ext lib _ _ _ h1
            obtain ⟨e1, l1⟩ := h1'
            obtain ⟨e2, l2⟩ := ReadTextureByName_ext lib _ _ _ h2
            obtain ⟨e3, l3⟩ := ReadTextureByName_ext lib _ _ _ h3
            refine ⟨texExt_trans (texExt_trans e1 e2) e3, fun hs => ?_⟩
            have := e2.le
            have := e3.le
            have := l1 hs
            have := l2 (e1.inv hs)
            have := l3 (e2.inv (e1.inv hs))
            simp only [BsdfData.texIds, List.mem_cons, List.mem_singleton, List.not_mem_nil,
              or_false]
            rintro id (rfl | rfl | rfl) <;> omega
          · -- default
            rw [bind_ok_iff] at h
            obtain ⟨⟨a, s1⟩, h1, h⟩ := h
            cases h
            obtain ⟨e1, l1⟩ := ReadTextureByName_ext lib _ _ _ h1
            exact ⟨e1, fun hs => by simp [BsdfData.texIds, l1 hs]⟩

/-- The record `ReadBsdfLeaf` appends: the variant of the second switch inside the envelope it
was called with; nothing else changes but the textures and the two tables. -/
theorem ReadBsdfLeaf_record (lib : Lib F) (node : XmlNode) (id type : String)
    (o b : Nat) (t : Bool) {s s' : ParserState F} {i : Nat}
    (h : ReadBsdfLeaf lib node id type o b t s = .ok (i, s')) :
    ∃ ty f data s1, bsdfVariant lib node type s = .ok ((ty, f, data), s1) ∧
      i = s.config.bsdfs.length ∧
      BsdfExt s s' [⟨ty, t || f, o, b, data⟩] := by
  unfold ReadBsdfLeaf at h
  simp only at h
  split at h
  · cases h
  · rename_i ty f data s1 hv
    cases h
    obtain ⟨e1, _⟩ := bsdfVariant_ext lib _ _ hv
    refine ⟨ty, f, data, s1, hv, rfl, ?_⟩
    obtain ⟨mt, tx, rfl⟩ := e1.frame
    exact ⟨by simpa using e1.le, _, _, _, rfl⟩

theorem ReadBsdfLeaf_step (lib : Lib F) (sentinel : Nat) (node : XmlNode) (id type : String)
    (o b : Nat) (t : Bool) {s s' : ParserState F} {i : Nat} (hs : Inv sentinel s)
    (ho : texIdOk sentinel s.config.textures.length o)
    (hb : texIdOk sentinel s.config.textures.length b)
    (h : ReadBsdfLeaf lib node id type o b t s = .ok (i, s')) : BsdfStep sentinel s s' := by
  unfold ReadBsdfLeaf at h
  simp only at h
  split at h
  · cases h
  · rename_i ty f data s1 hv
    cases h
    obtain ⟨e1, hd⟩ := bsdfVariant_ext lib _ _ hv
    have hi1 := inv_ext hs e1
    refine ⟨⟨?_, ?_⟩, ?_, ?_, ?_, ?_⟩
    · exact e1.inv hs.1
    · constructor
      · intro bs hbs id hid
        simp only [List.mem_append, List.mem_singleton] at hbs
        rcases hbs with hbs | rfl
        · exact hi1.2.1 bs hbs id hid
        · simp only [BsdfInfo.texIds, List.mem_cons] at hid
          rcases hid with rfl | rfl | hid
          · exact texIdOk_mono e1.le ho
          · exact texIdOk_mono e1.le hb
          · exact Or.inr (hd hs.1 id hid)
      · exact hi1.2.2
    · have h1 := texExt_sameHead e1
      exact h1
    · have h1 := texExt_emitters e1
      exact h1
    · have h1 := texExt_instances e1
      exact h1
    · exact e1.le

theorem bsdfStep_trans_ext {sentinel : Nat} {s s1 s2 : ParserState F} (e : TexExt s s1)
    (h : BsdfStep sentinel s1 s2) : BsdfStep sentinel s s2 := by
  obtain ⟨hc, hi⟩ := texExt_sameHead e
  refine ⟨h.inv, ⟨?_, ?_⟩, ?_, ?_, le_trans e.le h.le⟩
  · rw [h.head.1, hc]
  · rw [h.head.2, hi]
  · rw [h.emitters, texExt_emitters e]
  · rw [h.instances, texExt_instances e]

theorem bsdfExt_trans_ext {s s1 s2 : ParserState F} {recs : List (BsdfInfo F)}
    (e : TexExt s s1) (h : BsdfExt s1 s2 recs) : BsdfExt s s2 recs := by
  obtain ⟨mt, tx, rfl⟩ := e.frame
  obtain ⟨mt2, mb2, tx2, e2⟩ := h.frame
  exact ⟨le_trans e.le h.le, mt2, mb2, tx2, by rw [e2]⟩

/-- Function `ReadBsdf` keeps the invariant, for every recursion budget. -/
theorem ReadBsdfAux_step (lib : Lib F) (sentinel : Nat) (fuel : Nat) :
    ∀ (node : XmlNode) (id : String) (o b : Nat) (t : Bool) (s s' : ParserState F) (i : Nat),
      Inv sentinel s → texIdOk sentinel s.config.textures.length o →
      texIdOk sentinel s.config.textures.length b →
      ReadBsdfAux lib fuel node id o b t s = .ok (i, s') → BsdfStep sentinel s s' := by
  induction fuel with
  | zero =>
    intro node id o b t s s' i hs ho hb h
    unfold ReadBsdfAux at h
    simp only at h
    split at h
    · cases h
    · split at h
      · cases h
      · split at h
        · cases h
        · split at h
          · cases h
          · exact ReadBsdfLeaf_step lib sentinel _ _ _ _ _ _ hs ho hb h
  | succ n ih =>
    intro node id o b t s s' i hs ho hb h
    unfold ReadBsdfAux at h
    simp only at h
    split at h
    · split at h
      · cases h
      · rename_i idb s1 ht
        obtain ⟨e1, l1⟩ := ReadTexture_ext lib _ _ _ ht
        exact bsdfStep_trans_ext e1
          (ih _ _ _ _ _ _ _ _ (inv_ext hs e1) (texIdOk_mono e1.le ho) (Or.inr (l1 hs.1)) h)
    · split at h
      · split at h
        · cases h
        · rename_i ido s1 ht
          obtain ⟨e1, l1⟩ := ReadTextureByName_ext lib _ _ _ ht
          exact bsdfStep_trans_ext e1
            (ih _ _ _ _ _ _ _ _ (inv_ext hs e1) (Or.inr (l1 hs.1)) (texIdOk_mono e1.le hb) h)
      · split at h
        · exact ih _ _ _ _ _ _ _ _ hs ho hb h
        · split at h
          · cases h
          · exact ReadBsdfLeaf_step lib sentinel _ _ _ _ _ _ hs ho hb h

/-- Function `ReadBsdf` appends exactly one record and returns its index, for every recursion
budget. -/
theorem ReadBsdfAux_append (lib : Lib F) (fuel : Nat) :
    ∀ (node : XmlNode) (id : String) (o b : Nat) (t : Bool) (s s' : ParserState F) (i : Nat),
      ReadBsdfAux lib fuel node id o b t s = .ok (i, s') →
      i = s.config.bsdfs.length ∧ ∃ r, BsdfExt s s' [r] := by
  induction fuel with
  | zero =>
    intro node id o b t s s' i h
    unfold ReadBsdfAux at h
    simp only at h
    split at h
    · cases h
    · split at h
      · cases h
      · split at h
        · cases h
        · split at h
          · cases h
          · obtain ⟨ty, f, data, s1, _, hi, he⟩ := ReadBsdfLeaf_record lib _ _ _ _ _ _ h
            exact ⟨hi, _, he⟩
  | succ n ih =>
    intro node id o b t s s' i h
    unfold ReadBsdfAux at h
    simp only at h
    split at h
    · split at h
      · cases h
      · rename_i idb s1 ht
        obtain ⟨e1, _⟩ := ReadTexture_ext lib _ _ _ ht
        obtain ⟨hi, r, hr⟩ := ih _ _ _ _ _ _ _ _ h
        exact ⟨by rw [hi, texExt_bsdfs e1], r, bsdfExt_trans_ext e1 hr⟩
    · split at h
      · split at h
        · cases h
        · rename_i ido s1 ht
          obtain ⟨e1, _⟩ := ReadTextureByName_ext lib _ _ _ ht
          obtain ⟨hi, r, hr⟩ := ih _ _ _ _ _ _ _ _ h
          exact ⟨by rw [hi, texExt_bsdfs e1], r, bsdfExt_trans_ext e1 hr⟩
      · split at h
        · exact ih _ _ _ _ _ _ _ _ h
        · split at h
          · cases h
          · obtain ⟨ty, f, data, s1, _, hi, he⟩ := ReadBsdfLeaf_record lib _ _ _ _ _ _ h
            exact ⟨hi, _, he⟩

end BsdfLemmas

section TopLemmas

variable {F : Type} [LinearOrderedField F]

theorem ReadMedium_frame (lib : Lib F) (n : XmlNode) {s s' : ParserState F} {i : Nat}
    (h : ReadMedium lib n s = .ok (i, s')) : MediumOnly s s' := by
  unfold ReadMedium at h
  simp only at h
  split at h
  · cases h; exact ⟨s.map_medium, s.config.media, rfl⟩
  · split at h
    · cases h
    · split at h
      · cases h
      · cases h; exact ⟨_, _, rfl⟩

theorem keeps_refl (sentinel : Nat) (s : ParserState F) : Keeps sentinel s s :=
  fun h => ⟨h, rfl, rfl⟩

theorem keeps_trans {sentinel : Nat} {s s1 s2 : ParserState F} (h1 : Keeps sentinel s s1)
    (h2 : Keeps sentinel s1 s2) : Keeps sentinel s s2 := by
  intro h
  obtain ⟨i1, c1, g1⟩ := h1 h
  obtain ⟨i2, c2, g2⟩ := h2 i1
  exact ⟨i2, by rw [c2, c1], by rw [g2, g1]⟩

theorem mediumOnly_keeps {sentinel : Nat} {s s' : ParserState F} (h : MediumOnly s s') :
    Keeps sentinel s s' := by
  obtain ⟨mm, md, rfl⟩ := h
  exact fun hi => ⟨hi, rfl, rfl⟩

theorem bsdfStep_keeps {sentinel : Nat} {s s' : ParserState F}
    (h : Inv sentinel s → BsdfStep sentinel s s') : Keeps sentinel s s' :=
  fun hs => ⟨(h hs).inv, (h hs).head⟩

theorem ReadBsdf_step (lib : Lib F) (node : XmlNode) (id : String) (t : Bool)
    {s s' : ParserState F} {i : Nat} (hs : Inv lib.kInvalidId s)
    (h : ReadBsdf lib node id lib.kInvalidId lib.kInvalidId t s = .ok (i, s')) :
    BsdfStep lib.kInvalidId s s' :=
  ReadBsdfAux_step lib lib.kInvalidId _ _ _ _ _ _ _ _ _ hs (Or.inl rfl) (Or.inl rfl) h

/-- The area-light block of `ReadShape` keeps the invariant. -/
theorem shapeAreaLight_step (lib : Lib F) (en : XmlNode) (id : String) {s : ParserState F}
    (hs : Inv lib.kInvalidId s) :
    BsdfStep lib.kInvalidId s (shapeAreaLight lib en id s).2 := by
  have hmod : s.config.textures.length % 2 ^ 32 ≤ s.config.textures.length := Nat.mod_le _ _
  refine ⟨⟨?_, ?_, ?_⟩, ⟨rfl, rfl⟩, rfl, rfl, ?_⟩
  · intro kv hkv
    simp only [shapeAreaLight, addTexture, StrMap.set, List.mem_cons] at hkv
    simp only [shapeAreaLight, addTexture, List.length_append, List.length_singleton]
    rcases hkv with rfl | hkv
    · exact Nat.lt_succ_of_le hmod
    · exact Nat.lt_succ_of_lt (hs.1 kv hkv)
  · intro b hb tid htid
    simp only [shapeAreaLight, addTexture, List.mem_append, List.mem_singleton] at hb
    simp only [shapeAreaLight, addTexture, List.length_append, List.length_singleton]
    rcases hb with hb | rfl
    · exact texIdOk_mono (Nat.le_succ _) (hs.2.1 b hb tid htid)
    · simp only [BsdfInfo.texIds, BsdfData.texIds, List.mem_cons, List.mem_singleton,
        List.not_mem_nil, or_false] at htid
      rcases htid with rfl | rfl | rfl
      · exact Or.inl rfl
      · exact Or.inl rfl
      · right
        simp only [StrMap.at?, StrMap.set, List.find?_cons, decide_True, Option.map_some',
          Option.getD_some]
        exact Nat.lt_succ_of_le hmod
  · intro e he tid htid
    simp only [shapeAreaLight, addTexture] at he
    simp only [shapeAreaLight, addTexture, List.length_append, List.length_singleton]
    exact texIdOk_mono (Nat.le_succ _) (hs.2.2 e he tid htid)
  · simp [shapeAreaLight, addTexture]

theorem shapeBsdf_step (lib : Lib F) (n : XmlNode) (id : String) {s s' : ParserState F}
    {i : Nat} (hs : Inv lib.kInvalidId s) (h : shapeBsdf lib n id s = .ok (i, s')) :
    BsdfStep lib.kInvalidId s s' := by
  unfold shapeBsdf at h
  split at h
  · simp only at h
    split at h
    · cases h
    · cases h; exact shapeAreaLight_step lib _ _ hs
  · split at h
    · split at h
      · cases h
      · rename_i i1 s1 hb
        cases h
        exact ReadBsdf_step lib _ _ _ hs hb
    · cases h
      exact ⟨hs, ⟨rfl, rfl⟩, rfl, rfl, le_rfl⟩

theorem shapeMedium_frame (lib : Lib F) (n : XmlNode) (key : String)
    (assign : InstanceInfo F → Nat → InstanceInfo F) {info info' : InstanceInfo F}
    {s s' : ParserState F} (h : shapeMedium lib n key assign info s = .ok (info', s')) :
    MediumOnly s s' := by
  unfold shapeMedium at h
  split at h
  · cases h; exact ⟨s.map_medium, s.config.media, rfl⟩
  · split at h
    · cases h
    · rename_i im s1 hm
      cases h
      exact ReadMedium_frame lib _ hm

theorem shapeBsdf_instances (lib : Lib F) (n : XmlNode) (id : String) {s s' : ParserState F}
    {i : Nat} (h : shapeBsdf lib n id s = .ok (i, s')) :
    s'.config.instances = s.config.instances := by
  unfold shapeBsdf at h
  split at h
  · simp only at h
    split at h
    · cases h
    · cases h; rfl
  · split at h
    · split at h
      · cases h
      · rename_i i1 s1 hb
        cases h
        obtain ⟨_, r, hr⟩ := ReadBsdfAux_append lib _ _ _ _ _ _ _ _ _ hb
        obtain ⟨mt, mb, tx, e⟩ := hr.frame
        rw [e]
    · cases h; rfl

theorem shapeGeometry_id (lib : Lib F) (n : XmlNode) (d : String) {info info' : InstanceInfo F}
    (h : shapeGeometry lib n d info = .ok info') : info'.id_bsdf = info.id_bsdf := by
  unfold shapeGeometry at h
  simp only at h
  repeat' split at h
  all_goals first | (cases h; rfl) | cases h

theorem shapeMedium_id (lib : Lib F) (n : XmlNode) (key : String)
    (assign : InstanceInfo F → Nat → InstanceInfo F) {info info' : InstanceInfo F}
    {s s' : ParserState F} (h : shapeMedium lib n key assign info s = .ok (info', s'))
    (ha : ∀ i m, (assign i m).id_bsdf = i.id_bsdf) :
    info'.id_bsdf = info.id_bsdf := by
  unfold shapeMedium at h
  split at h
  · cases h; rfl
  · split at h
    · cases h
    · cases h; exact ha _ _

/-- Function `ReadShape` appends exactly one instance; its `id_bsdf` is the value the first part
computed, and textures and BSDF records are those the first part left. -/
theorem ReadShape_spec (lib : Lib F) (n : XmlNode) {s s' : ParserState F} {r : Nat}
    (h : ReadShape lib n s = .ok (r, s')) :
    ∃ ib s1 info, shapeBsdf lib n (shapeId n s) s = .ok (ib, s1) ∧ r = 0 ∧
      info.id_bsdf = ib ∧ s'.config.instances = s.config.instances ++ [info] ∧
      s'.config.textures = s1.config.textures ∧ s'.config.bsdfs = s1.config.bsdfs := by
  unfold ReadShape at h
  simp only at h
  rw [bind_ok_iff] at h
  obtain ⟨⟨ib, s1⟩, h1, h⟩ := h
  simp only at h
  rw [bind_ok_iff] at h
  obtain ⟨info1, hg, h⟩ := h
  rw [bind_ok_iff] at h
  obtain ⟨⟨info2, s2⟩, h2, h⟩ := h
  simp only at h
  rw [bind_ok_iff] at h
  obtain ⟨⟨info3, s3⟩, h3, h⟩ := h
  cases h
  have hi := shapeBsdf_instances lib _ _ h1
  have g1 := shapeGeometry_id lib _ _ hg
  have g2 := shapeMedium_id lib _ _ _ h2 (fun _ _ => rfl)
  have g3 := shapeMedium_id lib _ _ _ h3 (fun _ _ => rfl)
  obtain ⟨mm2, md2, rfl⟩ := shapeMedium_frame lib _ _ _ h2
  obtain ⟨mm3, md3, rfl⟩ := shapeMedium_frame lib _ _ _ h3
  refine ⟨ib, s1, info3, h1, rfl, ?_, ?_, rfl, rfl⟩
  · rw [g3, g2, g1]
  · simp only [hi]

theorem ReadShape_keeps (lib : Lib F) (n : XmlNode) {s s' : ParserState F} {i : Nat}
    (h : ReadShape lib n s = .ok (i, s')) : Keeps lib.kInvalidId s s' := by
  intro hs
  unfold ReadShape at h
  simp only at h
  rw [bind_ok_iff] at h
  obtain ⟨⟨ib, s1⟩, h1, h⟩ := h
  simp only at h
  rw [bind_ok_iff] at h
  obtain ⟨info1, _, h⟩ := h
  rw [bind_ok_iff] at h
  obtain ⟨⟨info2, s2⟩, h2, h⟩ := h
  simp only at h
  rw [bind_ok_iff] at h
  obtain ⟨⟨info3, s3⟩, h3, h⟩ := h
  cases h
  have st1 := shapeBsdf_step lib _ _ hs h1
  obtain ⟨mm2, md2, rfl⟩ := shapeMedium_frame lib _ _ _ h2
  obtain ⟨mm3, md3, rfl⟩ := shapeMedium_frame lib _ _ _ h3
  exact ⟨st1.inv, st1.head⟩

theorem emitterSun_keeps (lib : Lib F) (n : XmlNode) (d : Vec3 F) (t : F) (w h : Int)
    (s : ParserState F) : Keeps lib.kInvalidId s (emitterSun lib n d t w h s) := by
  intro hs
  refine ⟨⟨?_, ?_, ?_⟩, rfl, rfl⟩
  · intro kv hkv
    simp only [emitterSun, addEmitter, addTexture, StrMap.set, List.mem_cons] at hkv
    simp only [emitterSun, addEmitter, addTexture, List.length_append, List.length_singleton]
    rcases hkv with rfl | hkv
    · exact Nat.lt_succ_self _
    · exact Nat.lt_succ_of_lt (hs.1 kv hkv)
  · intro b hb tid htid
    simp only [emitterSun, addEmitter, addTexture] at hb
    simp only [emitterSun, addEmitter, addTexture, List.length_append, List.length_singleton]
    exact texIdOk_mono (Nat.le_succ _) (hs.2.1 b hb tid htid)
  · intro e he tid htid
    simp only [emitterSun, addEmitter, addTexture, List.mem_append, List.mem_singleton] at he
    simp only [emitterSun, addEmitter, addTexture, List.length_append, List.length_singleton]
    rcases he with he | rfl
    · exact texIdOk_mono (Nat.le_succ _) (hs.2.2 e he tid htid)
    · simp only [EmitterInfo.texIds, List.mem_singleton] at htid
      subst htid
      exact Or.inr (Nat.lt_succ_self _)

theorem emitterSky_keeps (lib : Lib F) (n : XmlNode) (d : Vec3 F) (t : F) (w h : Int)
    (s : ParserState F) : Keeps lib.kInvalidId s (emitterSky lib n d t w h s) := by
  intro hs
  refine ⟨⟨?_, ?_, ?_⟩, rfl, rfl⟩
  · intro kv hkv
    simp only [emitterSky, addEmitter, addTexture, StrMap.set, List.mem_cons] at hkv
    simp only [emitterSky, addEmitter, addTexture, List.length_append, List.length_singleton]
    rcases hkv with rfl | hkv
    · exact Nat.lt_succ_self _
    · exact Nat.lt_succ_of_lt (hs.1 kv hkv)
  · intro b hb tid htid
    simp only [emitterSky, addEmitter, addTexture] at hb
    simp only [emitterSky, addEmitter, addTexture, List.length_append, List.length_singleton]
    exact texIdOk_mono (Nat.le_succ _) (hs.2.1 b hb tid htid)
  · intro e he tid htid
    simp only [emitterSky, addEmitter, addTexture, List.mem_append, List.mem_singleton] at he
    simp only [emitterSky, addEmitter, addTexture, List.length_append, List.length_singleton]
    rcases he with he | rfl
    · exact texIdOk_mono (Nat.le_succ _) (hs.2.2 e he tid htid)
    · simp only [EmitterInfo.texIds, List.mem_singleton] at htid
      subst htid
      exact Or.inr (Nat.lt_succ_self _)

/-- Appending an emitter whose texture ids are well formed keeps the invariant. -/
theorem addEmitter_keeps (sentinel : Nat) (s : ParserState F) (e : EmitterInfo F)
    (he : ∀ id ∈ e.texIds, texIdOk sentinel s.config.textures.length id) :
    Keeps sentinel s (addEmitter s e) := by
  intro hs
  refine ⟨⟨hs.1, hs.2.1, ?_⟩, rfl, rfl⟩
  intro e' he' tid htid
  simp only [addEmitter, List.mem_append, List.mem_singleton] at he'
  rcases he' with he' | rfl
  · exact hs.2.2 e' he' tid htid
  · exact he tid htid

theorem texExt_keeps {sentinel : Nat} {s s' : ParserState F} (e : TexExt s s') :
    Keeps sentinel s s' :=
  fun hs => ⟨inv_ext hs e, texExt_sameHead e⟩

theorem ReadEmitter_keeps (lib : Lib F) (n : XmlNode) {s s' : ParserState F}
    (h : ReadEmitter lib n s = .ok s') : Keeps lib.kInvalidId s s' := by
  intro hs
  unfold ReadEmitter at h
  simp only at h
  split at h
  · cases h; exact addEmitter_keeps _ _ _ (by simp [EmitterInfo.texIds]) hs
  · split at h
    · split at h
      · split at h
        · cases h
        · rename_i it s1 ht
          cases h
          obtain ⟨e1, l1⟩ := ReadTexture_ext lib _ _ _ ht
          exact (keeps_trans (texExt_keeps e1) (addEmitter_keeps _ _ _ (by
            simp only [EmitterInfo.texIds, List.mem_singleton]
            rintro id rfl; exact Or.inr (l1 hs.1)))) hs
      · cases h; exact addEmitter_keeps _ _ _ (by
          simp only [EmitterInfo.texIds, List.mem_singleton]
          rintro id rfl; exact Or.inl rfl) hs
    · split at h
      · cases h; exact addEmitter_keeps _ _ _ (by simp [EmitterInfo.texIds]) hs
      · split at h
        · cases h
          split
          · split
            · exact (keeps_trans (emitterSun_keeps lib _ _ _ _ _ _)
                (emitterSky_keeps lib _ _ _ _ _ _)) hs
            · exact emitterSky_keeps lib _ _ _ _ _ _ hs
          · split
            · exact emitterSun_keeps lib _ _ _ _ _ _ hs
            · exact keeps_refl _ _ hs
        · split at h
          · split at h
            · cases h
            · rename_i ir s1 hb
              cases h
              obtain ⟨e1, l1⟩ := ReadBitmap_ext lib _ _ _ _ _ hb
              exact (keeps_trans (texExt_keeps e1) (addEmitter_keeps _ _ _ (by
                simp only [EmitterInfo.texIds, List.mem_singleton]
                rintro id rfl; exact Or.inr l1))) hs
          · split at h
            · cases h; exact addEmitter_keeps _ _ _ (by simp [EmitterInfo.texIds]) hs
            · cases h; exact keeps_refl _ _ hs

theorem forNodes_keeps (sentinel : Nat)
    (f : XmlNode → ParserState F → Except Err (ParserState F))
    (hf : ∀ n s s', f n s = .ok s' → Keeps sentinel s s') :
    ∀ (ns : List XmlNode) (s s' : ParserState F), forNodes f ns s = .ok s' →
      Keeps sentinel s s' := by
  intro ns
  induction ns with
  | nil =>
    intro s s' h
    cases h
    exact keeps_refl _ _
  | cons n ns ih =>
    intro s s' h
    unfold forNodes at h
    split at h
    · cases h
    · rename_i s1 h1
      exact keeps_trans (hf _ _ _ h1) (ih _ _ h)

theorem dropIndex_ok {r : Except Err (Nat × ParserState F)} {s' : ParserState F}
    (h : dropIndex r = .ok s') : ∃ i, r = .ok (i, s') := by
  unfold dropIndex at h
  split at h
  · cases h
  · cases h; exact ⟨_, rfl⟩

end TopLemmas

section LoadLemmas

variable {F : Type} [LinearOrderedField F]

theorem ReadCamera_frame (lib : Lib F) (n : XmlNode) {s s' : ParserState F}
    (h : ReadCamera lib n s = .ok s') :
    ∃ c, s' = { s with config := { s.config with camera := c } } := by
  unfold ReadCamera at h
  simp only at h
  split at h
  · cases h
  · split at h
    · cases h
    · split at h
      · cases h
      · split at h
        · cases h
        · split at h
          · cases h
          · cases h; exact ⟨_, rfl⟩

theorem ReadIntegrator_frame (lib : Lib F) (n : XmlNode) {s s' : ParserState F}
    (h : ReadIntegrator lib n s = .ok s') :
    ∃ g, s' = { s with config := { s.config with integrator := g } } := by
  unfold ReadIntegrator at h
  rw [bind_ok_iff] at h
  obtain ⟨⟨md, rr⟩, _, h⟩ := h
  cases h
  exact ⟨_, rfl⟩

/-- Function `loadScene` started without BSDF and emitter records: the camera and integrator
it leaves are the ones `ReadCamera` and `ReadIntegrator` computed, and the invariant holds. -/
theorem loadScene_spec (lib : Lib F) (scene : XmlNode) {s s' : ParserState F}
    (hb : s.config.bsdfs = []) (he : s.config.emitters = [])
    (h : loadScene lib scene s = .ok s') :
    ∃ s1 s2, ReadCamera lib (scene.child "sensor")
        { s with map_default := readDefaults scene } = .ok s1 ∧
      ReadIntegrator lib (scene.child "integrator") s1 = .ok s2 ∧
      Inv lib.kInvalidId s' ∧ SameHead s2 s' := by
  unfold loadScene at h
  simp only at h
  rw [bind_ok_iff] at h
  obtain ⟨s1, h1, h⟩ := h
  rw [bind_ok_iff] at h
  obtain ⟨s2, h2, h⟩ := h
  rw [bind_ok_iff] at h
  obtain ⟨s3, h3, h⟩ := h
  rw [bind_ok_iff] at h
  obtain ⟨s4, h4, h⟩ := h
  rw [bind_ok_iff] at h
  obtain ⟨s5, h5, h⟩ := h
  rw [bind_ok_iff] at h
  obtain ⟨s6, h6, h⟩ := h
  refine ⟨s1, s2, h1, h2, ?_⟩
  obtain ⟨c, e1⟩ := ReadCamera_frame lib _ h1
  obtain ⟨g, e2⟩ := ReadIntegrator_frame lib _ h2
  have hinv : Inv lib.kInvalidId { s2 with map_texture := [] } := by
    refine ⟨?_, ?_, ?_⟩
    · intro kv hkv; cases hkv
    · intro b hb'
      rw [e2, e1] at hb'
      simp only [hb] at hb'
      cases hb'
    · intro e he'
      rw [e2, e1] at he'
      simp only [he] at he'
      cases he'
  have k3 := forNodes_keeps lib.kInvalidId _ (fun n s s' hh => by
    obtain ⟨i, hi⟩ := dropIndex_ok hh
    exact texExt_keeps (ReadTexture_ext lib _ _ _ hi).1) _ _ _ h3
  have k4 := forNodes_keeps lib.kInvalidId _ (fun n s s' hh => by
    obtain ⟨i, hi⟩ := dropIndex_ok hh
    exact bsdfStep_keeps (fun hs => ReadBsdf_step lib _ _ _ hs hi)) _ _ _ h4
  have k5 := forNodes_keeps lib.kInvalidId _ (fun n s s' hh => by
    obtain ⟨i, hi⟩ := dropIndex_ok hh
    exact mediumOnly_keeps (ReadMedium_frame lib _ hi)) _ _ _ h5
  have k6 := forNodes_keeps lib.kInvalidId _ (fun n s s' hh => by
    obtain ⟨i, hi⟩ := dropIndex_ok hh
    exact ReadShape_keeps lib _ hi) _ _ _ h6
  have k7 := forNodes_keeps lib.kInvalidId _ (fun n s s' hh => ReadEmitter_keeps lib _ hh) _ _ _ h
  obtain ⟨i3, c3⟩ := k3 hinv
  have hinv4 : Inv lib.kInvalidId { s3 with map_bsdf := [] } := i3
  obtain ⟨i4, c4⟩ := k4 hinv4
  have hinv5 : Inv lib.kInvalidId { s4 with map_medium := [] } := i4
  obtain ⟨i5, c5⟩ := (keeps_trans (keeps_trans k5 k6) k7) hinv5
  refine ⟨i5, ?_, ?_⟩
  · rw [c5.1]; simp only; rw [c4.1]; simp only; rw [c3.1]
  · rw [c5.2]; simp only; rw [c4.2]; simp only; rw [c3.2]

/-- Function `LoadConfig` returns the camera of `ReadCamera`, the integrator of `ReadIntegrator`
and a configuration whose texture ids are well formed. -/
theorem LoadConfig_spec (lib : Lib F) (filename : String) (s0 : ParserState F)
    {cfg : RendererConfig F} (h : LoadConfig lib filename s0 = .ok cfg) :
    ∃ doc s1 s2, lib.load_file filename = some doc ∧
      ReadCamera lib ((doc.child "scene").child "sensor")
        (startState lib filename (doc.child "scene") s0) = .ok s1 ∧
      ReadIntegrator lib ((doc.child "scene").child "integrator") s1 = .ok s2 ∧
      configTexIdsOk lib.kInvalidId cfg ∧ cfg.camera = s2.config.camera ∧
      cfg.integrator = s2.config.integrator := by
  unfold LoadConfig at h
  simp only at h
  split at h
  · cases h
  · split at h
    · cases h
    · split at h
      · cases h
      · rename_i doc hdoc
        split at h
        · cases h
        · rename_i s' hl
          cases h
          obtain ⟨s1, s2, h1, h2, hi, hc⟩ := loadScene_spec lib _ rfl rfl hl
          exact ⟨doc, s1, s2, hdoc, h1, h2, hi.2, hc.1, hc.2⟩

end LoadLemmas

section Claims

variable {F : Type} [LinearOrderedField F]

/-- C1. For every scene file on which `LoadConfig` returns a configuration, every texture id
stored in a BSDF record (opacity, bump map, reflectance, roughness, specular reflectance and
transmittance, area-light radiance) or in an emitter record (spot texture, sun texture, envmap
radiance) is the invalid-id sentinel or smaller than the length of `config.textures`. -/
theorem C1_texture_ids_in_range (lib : Lib F) (filename : String) (s0 : ParserState F)
    (cfg : RendererConfig F) (h : LoadConfig lib filename s0 = .ok cfg) :
    (∀ b ∈ cfg.bsdfs, ∀ id ∈ b.texIds, id = lib.kInvalidId ∨ id < cfg.textures.length) ∧
    (∀ e ∈ cfg.emitters, ∀ id ∈ e.texIds, id = lib.kInvalidId ∨ id < cfg.textures.length) := by
  obtain ⟨doc, s1, s2, _, _, _, hok, _, _⟩ := LoadConfig_spec lib filename s0 h
  exact hok

end Claims

section ClaimLemmas

variable {F : Type} [LinearOrderedField F]

/-- Reading off a returned value through `toOption`. -/
theorem ok_of_toOption_map {ε α β : Type} {x : Except ε α} {f : α → β} {b : β}
    (h : x.toOption.map f = some b) : ∃ a, x = .ok a ∧ f a = b := by
  cases x with
  | error e => cases h
  | ok a =>
    simp only [Except.toOption, Option.map_some', Option.some.injEq] at h
    exact ⟨a, rfl, h⟩

theorem find_eq_head_filter {α : Type} (p : α → Bool) (l : List α) :
    l.find? p = (l.filter p).head? := by
  induction l with
  | nil => rfl
  | cons a l ih =>
    cases hp : p a with
    | true => rw [List.find?_cons_of_pos _ hp, List.filter_cons_of_pos hp]; rfl
    | false =>
      rw [List.find?_cons_of_neg _ (by simp [hp]), List.filter_cons_of_neg (by simp [hp])]
      exact ih

/-- The handle `child(key)` is the first of `children(key)`. -/
theorem child_mem_childrenNamed (n : XmlNode) (key : String) (h : n.childrenNamed key ≠ []) :
    n.child key ∈ n.childrenNamed key := by
  unfold XmlNode.child XmlNode.childrenNamed at *
  rw [find_eq_head_filter]
  cases hl : List.filter (fun c => decide (c.name = key)) n.children with
  | nil => exact absurd hl h
  | cons a l => simp

theorem shapeRefLoop_unknown (shape : XmlNode) (m : StrMap Nat) (d : Nat)
    (h : m.count (attrValue ((shape.child "ref").attr "id")) = false) :
    ∀ refs, shapeRefLoop shape m refs d = d
  | [] => rfl
  | _ :: rest => by
    unfold shapeRefLoop
    simp only [h, Bool.false_eq_true, if_false]
    exact shapeRefLoop_unknown shape m d h rest

/-- The first part of `ReadShape` when no `ref` child names a registered BSDF: no error, the
sentinel, the state untouched. -/
theorem shapeBsdf_unknown (lib : Lib F) (shape : XmlNode) (id : String) (s : ParserState F)
    (hem : (shape.child "emitter").isNull = true) (hb : (shape.child "bsdf").isNull = true)
    (href : ∀ r ∈ shape.childrenNamed "ref", s.map_bsdf.count (attrValue (r.attr "id")) = false) :
    shapeBsdf lib shape id s = .ok (lib.kInvalidId % 2 ^ 32, s) := by
  unfold shapeBsdf
  simp only [hem, hb, not_true_eq_false, if_false]
  cases hl : shape.childrenNamed "ref" with
  | nil => rfl
  | cons a l =>
    have hm := child_mem_childrenNamed shape "ref" (by rw [hl]; simp)
    rw [shapeRefLoop_unknown shape s.map_bsdf _ (href _ hm)]

/-- Function `std::stoi` returns an `int`. -/
theorem stoi_range {str : String} {v : Int} (h : stoi str = .ok v) :
    -(2 ^ 31) ≤ v ∧ v ≤ 2 ^ 31 - 1 := by
  unfold stoi at h
  simp only at h
  by_cases he : (stoiDigits str).2.isEmpty = true
  · rw [if_pos he] at h; cases h
  · rw [if_neg he] at h
    generalize (if (stoiDigits str).1 = true then -(digitsValue (stoiDigits str).2 : Int)
      else (digitsValue (stoiDigits str).2 : Int)) = w at h
    by_cases hr : w < -(2 ^ 31) ∨ 2 ^ 31 - 1 < w
    · rw [if_pos hr] at h; cases h
    · rw [if_neg hr] at h
      cases h
      push_neg at hr
      exact hr

theorem toUint32_pos {v : Int} (h0 : v ≠ 0) (h : -(2 ^ 31) ≤ v ∧ v ≤ 2 ^ 31 - 1) :
    1 ≤ toUint32 v := by
  unfold toUint32
  omega

theorem readIntText_range {m : StrMap String} {str : String} {e : Err} {v : Int}
    (h : readIntText m str e = .ok (some v)) : -(2 ^ 31) ≤ v ∧ v ≤ 2 ^ 31 - 1 := by
  unfold readIntText at h
  split at h
  · cases h
  · split at h
    · split at h
      · cases hs : stoi (attrValue (StrMap.at? m str)) with
        | error e => rw [hs] at h; cases h
        | ok w =>
          rw [hs] at h
          simp only [Except.map, Except.ok.injEq, Option.some.injEq] at h
          subst h
          exact stoi_range hs
      · cases h
    · cases hs : stoi str with
      | error e => rw [hs] at h; cases h
      | ok w =>
        rw [hs] at h
        simp only [Except.map, Except.ok.injEq, Option.some.injEq] at h
        subst h
        exact stoi_range hs

theorem integratorStep_pos {m : StrMap String} {st st' : Nat × Nat} {node : XmlNode}
    (hn : DepthTextNonzero m node) (hpos : 1 ≤ st.1)
    (h : integratorStep m st node = .ok st') : 1 ≤ st'.1 := by
  unfold integratorStep at h
  simp only at h
  split at h
  · rename_i hname
    rw [bind_ok_iff] at h
    obtain ⟨v, hv, h⟩ := h
    cases h
    cases v with
    | none => exact hpos
    | some v => exact toUint32_pos (hn hname v hv) (readIntText_range hv)
  · split at h
    · rw [bind_ok_iff] at h
      obtain ⟨v, hv, h⟩ := h
      cases h
      exact hpos
    · cases h; exact hpos

theorem integratorLoop_pos {m : StrMap String} :
    ∀ (nodes : List XmlNode) (st st' : Nat × Nat),
      (∀ node ∈ nodes, DepthTextNonzero m node) → 1 ≤ st.1 →
      nodes.foldlM (integratorStep m) st = .ok st' → 1 ≤ st'.1
  | [], st, st', _, hpos, h => by cases h; exact hpos
  | n :: ns, st, st', hn, hpos, h => by
    rw [List.foldlM_cons, bind_ok_iff] at h
    obtain ⟨st1, h1, h⟩ := h
    exact integratorLoop_pos ns st1 st' (fun x hx => hn x (List.mem_cons_of_mem _ hx))
      (integratorStep_pos (hn n (List.mem_cons_self _ _)) hpos h1) h

theorem ReadIntegrator_depth (lib : Lib F) (n : XmlNode) {s s' : ParserState F}
    (h : ReadIntegrator lib n s = .ok s') :
    ∃ st, (n.childrenNamed "integer").foldlM (integratorStep s.map_default) (kMaxUint, 5) = .ok st ∧
      s'.config.integrator.depth_max = st.1 := by
  unfold ReadIntegrator at h
  rw [bind_ok_iff] at h
  obtain ⟨⟨md, rr⟩, hf, h⟩ := h
  cases h
  exact ⟨_, hf, rfl⟩

end ClaimLemmas

section ClaimsA

variable {F : Type} [LinearOrderedField F]

/-- C1 (witness). The sample scene with a texture, two BSDFs, an area light, a spot light and a
sun loads, and all its texture ids are in range. -/
theorem C1_texture_ids_in_range_witness :
    ∃ cfg, LoadConfig (ratLib sceneMaterials) "scene.xml" initialState = .ok cfg ∧
      cfg.bsdfs.length = 3 ∧ cfg.emitters.length = 2 ∧
      (∀ b ∈ cfg.bsdfs, ∀ id ∈ b.texIds, id = (ratLib sceneMaterials).kInvalidId ∨
        id < cfg.textures.length) ∧
      (∀ e ∈ cfg.emitters, ∀ id ∈ e.texIds, id = (ratLib sceneMaterials).kInvalidId ∨
        id < cfg.textures.length) := by
  obtain ⟨cfg, h, hl⟩ := ok_of_toOption_map
    (x := LoadConfig (ratLib sceneMaterials) "scene.xml" initialState)
    (f := fun c => (c.bsdfs.length, c.emitters.length)) (b := (3, 2)) (by decide!)
  simp only [Prod.mk.injEq] at hl
  exact ⟨cfg, h, hl.1, hl.2,
    C1_texture_ids_in_range (ratLib sceneMaterials) "scene.xml" initialState cfg h⟩

/-- C2 (counterexample). A scene whose only shape has no `emitter` child, no `bsdf` child and a
`ref` child naming the id `missing`, with no BSDF defined at all: `LoadConfig` returns a
configuration, with one instance whose `id_bsdf` is the sentinel. -/
theorem C2_unknown_ref_counterexample :
    (shapeUnknownRef.child "emitter").isNull = true ∧
    (shapeUnknownRef.child "bsdf").isNull = true ∧
    attrValue ((shapeUnknownRef.child "ref").attr "id") = "missing" ∧
    ∃ cfg, LoadConfig (ratLib sceneUnknownRef) "scene.xml" initialState = .ok cfg ∧
      cfg.bsdfs.length = 0 ∧ cfg.instances.map (fun i => i.id_bsdf) = [kMaxUint] := by
  refine ⟨rfl, rfl, rfl, ?_⟩
  obtain ⟨cfg, h, hl⟩ := ok_of_toOption_map
    (x := LoadConfig (ratLib sceneUnknownRef) "scene.xml" initialState)
    (f := fun c => (c.bsdfs.length, c.instances.map (fun i => i.id_bsdf)))
    (b := (0, [kMaxUint])) (by decide!)
  simp only [Prod.mk.injEq] at hl
  exact ⟨cfg, h, hl.1, hl.2⟩

/-- C2 (amended). For a shape node with neither an `emitter` child nor a `bsdf` child, none of
whose `ref` children names a registered BSDF, the BSDF lookup of `ReadShape` raises no error:
it yields the invalid-id sentinel (as a 32-bit value) and leaves the state alone, and whenever
`ReadShape` returns, the one instance it appended has that sentinel as `id_bsdf`. -/
theorem C2_unknown_ref_gives_sentinel (lib : Lib F) (shape : XmlNode) (s : ParserState F)
    (hem : (shape.child "emitter").isNull = true) (hb : (shape.child "bsdf").isNull = true)
    (href : ∀ r ∈ shape.childrenNamed "ref",
      s.map_bsdf.count (attrValue (r.attr "id")) = false) :
    shapeBsdf lib shape (shapeId shape s) s = .ok (lib.kInvalidId % 2 ^ 32, s) ∧
    ∀ r s', ReadShape lib shape s = .ok (r, s') →
      ∃ info, s'.config.instances = s.config.instances ++ [info] ∧
        info.id_bsdf = lib.kInvalidId % 2 ^ 32 := by
  have h1 := shapeBsdf_unknown lib shape (shapeId shape s) s hem hb href
  refine ⟨h1, fun r s' h => ?_⟩
  obtain ⟨ib, s1, info, hs, _, hid, hinst, _, _⟩ := ReadShape_spec lib shape h
  rw [h1] at hs
  cases hs
  exact ⟨info, hinst, hid⟩

/-- C2 (witness). The amended statement at the cube `shapeUnknownRef` in the initial state, where
`ReadShape` does return. -/
theorem C2_unknown_ref_gives_sentinel_witness :
    ((shapeUnknownRef.child "emitter").isNull = true ∧
     (shapeUnknownRef.child "bsdf").isNull = true ∧
     (ReadShape (ratLib sceneUnknownRef) shapeUnknownRef initialState).toOption.map
       (fun p => p.2.config.instances.length) = some 1) ∧
    (shapeBsdf (ratLib sceneUnknownRef) shapeUnknownRef
        (shapeId shapeUnknownRef (initialState : ParserState ℚ)) initialState =
      .ok ((ratLib sceneUnknownRef).kInvalidId % 2 ^ 32, initialState) ∧
    ∀ r s', ReadShape (ratLib sceneUnknownRef) shapeUnknownRef initialState = .ok (r, s') →
      ∃ info, s'.config.instances = (initialState : ParserState ℚ).config.instances ++ [info] ∧
        info.id_bsdf = (ratLib sceneUnknownRef).kInvalidId % 2 ^ 32) :=
  ⟨⟨rfl, rfl, by decide!⟩,
    C2_unknown_ref_gives_sentinel (ratLib sceneUnknownRef) shapeUnknownRef initialState rfl rfl
      (fun _ _ => rfl)⟩

/-- C3 (the code at the failing input). With the film width given as `$w` and no `default`
element, `LoadConfig` ends the process with `exit(1)`: no exception reaches the caller. The same
defect in the integrator's `maxDepth` is thrown as a `MyException`. -/
theorem C3_undefined_film_width_exits :
    LoadConfig (ratLib sceneFilmUndefined) "scene.xml" initialState = .error (.processExit 1) ∧
    (Err.processExit 1).isException = false ∧
    LoadConfig (ratLib sceneDepthUndefined) "scene.xml" initialState =
      .error (.MyException "cannot find default value for max depth.") :=
  ⟨rfl, rfl, rfl⟩

/-- C5 (the code at the failing input). A perspective sensor with a 576 × 768 film, the default
focal length of 50 mm, `fovAxis` set to `smaller` and no `fov` loads, and the stored `fov_x` is
`-1`. -/
theorem C5_smaller_axis_leaves_fov_negative :
    ∃ cfg, LoadConfig (ratLib sceneSmallerAxis) "scene.xml" initialState = .ok cfg ∧
      cfg.camera.width = 576 ∧ cfg.camera.height = 768 ∧ cfg.camera.fov_x = -1 := by
  obtain ⟨cfg, h, hl⟩ := ok_of_toOption_map
    (x := LoadConfig (ratLib sceneSmallerAxis) "scene.xml" initialState)
    (f := fun c => (c.camera.width, c.camera.height, c.camera.fov_x))
    (b := (576, 768, -1)) (by decide!)
  simp only [Prod.mk.injEq] at hl
  exact ⟨cfg, h, hl.1, hl.2.1, hl.2.2⟩

/-- C6 (counterexample). With `maxDepth` given as `0` the configuration `LoadConfig` returns has
`depth_max = 0`. -/
theorem C6_max_depth_zero_counterexample :
    ∃ cfg, LoadConfig (ratLib (sceneMaxDepth "0")) "scene.xml" initialState = .ok cfg ∧
      cfg.integrator.depth_max = 0 :=
  ok_of_toOption_map (x := LoadConfig (ratLib (sceneMaxDepth "0")) "scene.xml" initialState)
    (f := fun c => c.integrator.depth_max) (b := 0) (by decide!)

/-- C6 (amended). Every configuration returned by `LoadConfig` has `depth_max ≥ 1` provided no
`maxDepth` / `max_depth` integer of the integrator evaluates, after the replacement of a `$name`,
to zero. -/
theorem C6_depth_max_pos_of_nonzero (lib : Lib F) (filename : String) (s0 : ParserState F)
    (cfg : RendererConfig F) (doc : XmlNode) (hdoc : lib.load_file filename = some doc)
    (h : LoadConfig lib filename s0 = .ok cfg)
    (hnz : ∀ node ∈ ((doc.child "scene").child "integrator").childrenNamed "integer",
      DepthTextNonzero (readDefaults (doc.child "scene")) node) :
    1 ≤ cfg.integrator.depth_max := by
  obtain ⟨doc', s1, s2, hdoc', h1, h2, _, _, hi⟩ := LoadConfig_spec lib filename s0 h
  rw [hdoc] at hdoc'
  cases hdoc'
  obtain ⟨c, e1⟩ := ReadCamera_frame lib _ h1
  obtain ⟨st, hf, hd⟩ := ReadIntegrator_depth lib _ h2
  rw [hi, hd]
  have hm : s1.map_default = readDefaults (doc.child "scene") := by rw [e1]; rfl
  rw [hm] at hf
  exact integratorLoop_pos _ _ _ hnz (by decide) hf

/-- C6 (witness). The amended statement at a scene whose `maxDepth` is `8`. -/
theorem C6_depth_max_pos_of_nonzero_witness :
    ∃ cfg, LoadConfig (ratLib (sceneMaxDepth "8")) "scene.xml" initialState = .ok cfg ∧
      (∀ node ∈ (((sceneMaxDepth "8").child "scene").child "integrator").childrenNamed "integer",
        DepthTextNonzero (readDefaults ((sceneMaxDepth "8").child "scene")) node) ∧
      1 ≤ cfg.integrator.depth_max := by
  obtain ⟨cfg, h, _⟩ := ok_of_toOption_map
    (x := LoadConfig (ratLib (sceneMaxDepth "8")) "scene.xml" initialState)
    (f := fun c => c.integrator.depth_max) (b := 8) (by decide!)
  have hnz : ∀ node ∈
      (((sceneMaxDepth "8").child "scene").child "integrator").childrenNamed "integer",
      DepthTextNonzero (readDefaults ((sceneMaxDepth "8").child "scene")) node := by
    intro node hn
    have hl : (((sceneMaxDepth "8").child "scene").child "integrator").childrenNamed "integer" =
        [.elem "integer" [⟨"name", "maxDepth"⟩, ⟨"value", "8"⟩] []] := rfl
    rw [hl, List.mem_singleton] at hn
    subst hn
    intro _ v hv
    have he : readIntText (readDefaults ((sceneMaxDepth "8").child "scene"))
        (attrValue ((XmlNode.elem "integer" [⟨"name", "maxDepth"⟩, ⟨"value", "8"⟩] []).attr
          "value")) (.MyException "cannot find default value for max depth.") =
        .ok (some 8) := rfl
    rw [he] at hv
    cases hv
    decide
  exact ⟨cfg, h, hnz,
    C6_depth_max_pos_of_nonzero (ratLib (sceneMaxDepth "8")) "scene.xml" initialState cfg
      (sceneMaxDepth "8") rfl h hnz⟩

end ClaimsA

section CameraLemmas

variable {F : Type} [LinearOrderedField F]

/-- When `ReadCamera` returns, its loops returned and the stored `fov_x` is the result of the
switch over the axis. -/
theorem ReadCamera_fov (lib : Lib F) (sensor : XmlNode) {s s' : ParserState F}
    (h : ReadCamera lib sensor s = .ok s') :
    ∃ w hh f ax,
      ((sensor.child "film").childrenNamed "integer").foldlM (filmStep s.map_default)
        (768, 576) = .ok (w, hh) ∧
      (sensor.childrenNamed "string").foldlM (lensStep lib) ((50 : F), "x") = .ok (f, ax) ∧
      fovSwitch lib ax (ReadFloat lib sensor ["fov"] (-1)) f w hh =
        .ok s'.config.camera.fov_x := by
  unfold ReadCamera at h
  simp only at h
  split at h
  · cases h
  · split at h
    · cases h
    · rename_i w hh hfilm
      split at h
      · cases h
      · rename_i f ax hlens
        split at h
        · cases h
        · rename_i fov hsw
          split at h
          · cases h
          · cases h
            exact ⟨w, hh, f, ax, hfilm, hlens, hsw⟩

/-- Function `ReadCamera` returns when its loops and the switch over the axis do. -/
theorem ReadCamera_returns (lib : Lib F) (sensor : XmlNode) (s : ParserState F) {w g n : Int}
    {f v : F} {a : String} (htype : attrValue (sensor.attr "type") = "perspective")
    (hfilm : ((sensor.child "film").childrenNamed "integer").foldlM (filmStep s.map_default)
        (768, 576) = .ok (w, g))
    (hlens : (sensor.childrenNamed "string").foldlM (lensStep lib) ((50 : F), "x") = .ok (f, a))
    (hsw : fovSwitch lib a (ReadFloat lib sensor ["fov"] (-1)) f w g = .ok v)
    (hsamp : ((sensor.child "sampler").childrenNamed "integer").foldlM
        (samplerStep s.map_default) 4 = .ok n) :
    ∃ s', ReadCamera lib sensor s = .ok s' ∧ s'.config.camera.fov_x = v := by
  unfold ReadCamera
  simp only [htype, ne_eq, not_true_eq_false, if_false, hfilm, hlens, hsw, hsamp]
  exact ⟨_, rfl, rfl⟩

/-- The switch over the axis for `x` without a positive `fov`: degrees from the focal length. -/
theorem fovSwitch_x (lib : Lib F) (fov f : F) (w hh : Int) (hfov : fov ≤ 0) :
    fovSwitch lib "x" fov f w hh = .ok (2 * lib.atanf (18 / f) * 180 * lib.k1DivPi) := by
  unfold fovSwitch
  simp only [if_true, hfov]
  norm_num

/-- A returned value read off through `toOption`. -/
theorem eq_ok_of_toOption {ε α : Type} {x : Except ε α} {a : α} (h : x.toOption = some a) :
    x = .ok a := by
  cases x with
  | error e => cases h
  | ok b =>
    simp only [Except.toOption, Option.some.injEq] at h
    rw [h]

end CameraLemmas

section ClaimsCamera

variable {F : Type} [LinearOrderedField F]

/-- C4 (counterexample). Over the reals, with the true arctangent and `k1DivPi = 1/π`, a
perspective sensor with focal length 50 mm, axis `x` and no `fov` gets a `fov_x` that is not
`2·atan(18/50)`, the angle in radians. -/
theorem C4_fov_not_radians_counterexample :
    ∃ s', ReadCamera
        (sampleLib Real.arctan Real.cos Real.sqrt (fun x => ⌊x⌋) (1 / Real.pi) .null : Lib ℝ)
        sensor50 initialState = .ok s' ∧
      s'.config.camera.fov_x ≠ 2 * Real.arctan (18 / 50) := by
  have hf : (decimalValue (false, ['5', '0'], []) : ℝ) = 50 := by
    simp [decimalValue, digitsValue]
  obtain ⟨s', h, hfov⟩ := ReadCamera_returns
    (sampleLib Real.arctan Real.cos Real.sqrt (fun x => ⌊x⌋) (1 / Real.pi) .null : Lib ℝ)
    sensor50 initialState (w := 768) (g := 576) (n := 4)
    (f := decimalValue (false, ['5', '0'], [])) (a := "x") rfl rfl rfl
    (fovSwitch_x _ _ _ _ _ (by
      have : ReadFloat (sampleLib Real.arctan Real.cos Real.sqrt (fun x => ⌊x⌋) (1 / Real.pi)
        .null : Lib ℝ) sensor50 ["fov"] (-1) = -1 := rfl
      rw [this]; norm_num)) rfl
  refine ⟨s', h, ?_⟩
  rw [hfov, hf]
  have hk : (sampleLib Real.arctan Real.cos Real.sqrt (fun x => ⌊x⌋) (1 / Real.pi)
      .null : Lib ℝ).k1DivPi = 1 / Real.pi := rfl
  have ha : (sampleLib Real.arctan Real.cos Real.sqrt (fun x => ⌊x⌋) (1 / Real.pi)
      .null : Lib ℝ).atanf = Real.arctan := rfl
  rw [hk, ha]
  have hpos : 0 < Real.arctan (18 / 50) := by
    have h0 : Real.arctan 0 < Real.arctan (18 / 50) := Real.arctan_strictMono (by norm_num)
    rwa [Real.arctan_zero] at h0
  have hpi : 0 < Real.pi := Real.pi_pos
  have hpi4 : Real.pi < 4 := Real.pi_lt_four
  intro heq
  have h1 : 2 * Real.arctan (18 / 50) * (180 * (1 / Real.pi) - 1) = 0 := by linarith
  have h2 : 180 * (1 / Real.pi) - 1 = 0 := by
    rcases mul_eq_zero.mp h1 with h3 | h3
    · linarith
    · exact h3
  have h3 : 180 * (1 / Real.pi) = 1 := by linarith
  field_simp at h3
  linarith

/-- C4 (amended). For a perspective sensor with `fovAxis` equal to `x` (the default), no positive
`fov` and focal length `f`, `ReadCamera` stores `fov_x = 2·atan(18 / f)·180·k1DivPi`: the
horizontal field of view of a 36 mm film in degrees, `k1DivPi` being the constant `1/π`. -/
theorem C4_fov_x_in_degrees (lib : Lib F) (sensor : XmlNode) (s s' : ParserState F) (f : F)
    (hlens : (sensor.childrenNamed "string").foldlM (lensStep lib) ((50 : F), "x") = .ok (f, "x"))
    (hfov : ReadFloat lib sensor ["fov"] (-1) ≤ 0)
    (h : ReadCamera lib sensor s = .ok s') :
    s'.config.camera.fov_x = 2 * lib.atanf (18 / f) * 180 * lib.k1DivPi := by
  obtain ⟨w, hh, f', ax, _, hl, hsw⟩ := ReadCamera_fov lib sensor h
  rw [hlens] at hl
  cases hl
  rw [fovSwitch_x lib _ _ _ _ hfov] at hsw
  exact (Except.ok.inj hsw).symm

/-- C4 (witness). The amended statement over the rationals at the sensor with a 50 mm lens. -/
theorem C4_fov_x_in_degrees_witness :
    ∃ s', ReadCamera (ratLib .null) sensor50 initialState = .ok s' ∧
      (sensor50.childrenNamed "string").foldlM (lensStep (ratLib .null)) ((50 : ℚ), "x") =
        .ok (50, "x") ∧
      ReadFloat (ratLib .null) sensor50 ["fov"] (-1) ≤ 0 ∧
      s'.config.camera.fov_x =
        2 * (ratLib .null).atanf (18 / 50) * 180 * (ratLib .null).k1DivPi := by
  obtain ⟨s', h, _⟩ := ok_of_toOption_map
    (x := ReadCamera (ratLib .null) sensor50 initialState)
    (f := fun s => s.config.camera.width) (b := 768) (by decide!)
  have hlens : (sensor50.childrenNamed "string").foldlM (lensStep (ratLib .null))
      ((50 : ℚ), "x") = .ok (50, "x") := eq_ok_of_toOption (by decide!)
  have hfov : ReadFloat (ratLib .null) sensor50 ["fov"] (-1) ≤ 0 := by decide!
  exact ⟨s', h, hlens, hfov,
    C4_fov_x_in_degrees (ratLib .null) sensor50 initialState s' 50 hlens hfov h⟩

end ClaimsCamera

section BsdfClaimLemmas

variable {F : Type} [LinearOrderedField F]

/-- Below a node that is no wrapper and not refused, `ReadBsdf` is its second part, whatever the
recursion budget. -/
theorem ReadBsdfAux_leaf (lib : Lib F) (fuel : Nat) (node : XmlNode) (id : String) (o b : Nat)
    (t : Bool) (s : ParserState F)
    (h1 : attrValue (node.attr "type") ≠ "bumpmap") (h2 : attrValue (node.attr "type") ≠ "mask")
    (h3 : attrValue (node.attr "type") ≠ "twosided")
    (h4 : attrValue (node.attr "type") ∉ unsupportedBsdfTypes) :
    ReadBsdfAux lib fuel node id o b t s =
      ReadBsdfLeaf lib node (if id.isEmpty then attrValue (node.attr "id") else id)
        (attrValue (node.attr "type")) o b t s := by
  cases fuel <;> (unfold ReadBsdfAux; simp only [h1, h2, h3, h4, if_false])

/-- The dielectric case of the second switch of `ReadBsdf`. -/
theorem bsdfVariant_dielectric (lib : Lib F) (node : XmlNode) (type : String)
    {s s' : ParserState F} {ty : BsdfType} {f : Bool} {data : BsdfData F}
    (htype : type = "dielectric" ∨ type = "roughdielectric" ∨ type = "thindielectric")
    (h : bsdfVariant lib node type s = .ok ((ty, f, data), s')) :
    ∃ a e ru rv sr st,
      ReadDielectricIor lib node ["int_ior", "intIOR"] (15046 / 10000) = .ok a ∧
      ReadDielectricIor lib node ["ext_ior", "extIOR"] (1000277 / 1000000) = .ok e ∧
      ty = (if type = "thindielectric" then .kThinDielectric else .kDielectric) ∧ f = true ∧
      data = .dielectric (a / e) ru rv sr st := by
  have hd : (type = "thindielectric" ∨ type = "dielectric" ∨ type = "roughdielectric") := by
    rcases htype with h | h | h
    · exact Or.inr (Or.inl h)
    · exact Or.inr (Or.inr h)
    · exact Or.inl h
  have n1 : type ≠ "diffuse" := by rcases htype with h | h | h <;> (rw [h]; decide)
  have n2 : type ≠ "roughdiffuse" := by rcases htype with h | h | h <;> (rw [h]; decide)
  unfold bsdfVariant at h
  simp only [n1, n2, if_false, hd, if_true] at h
  rw [bind_ok_iff] at h
  obtain ⟨a, ha, h⟩ := h
  rw [bind_ok_iff] at h
  obtain ⟨e, he, h⟩ := h
  rw [bind_ok_iff] at h
  obtain ⟨⟨⟨u, v⟩, s1⟩, h1, h⟩ := h
  rw [bind_ok_iff] at h
  obtain ⟨⟨r, s2⟩, h2, h⟩ := h
  rw [bind_ok_iff] at h
  obtain ⟨⟨tt, s3⟩, h3, h⟩ := h
  simp only [pure, Except.pure, Except.ok.injEq, Prod.mk.injEq] at h
  obtain ⟨⟨hty, hf, hdata⟩, _⟩ := h
  refine ⟨a, e, u, v, r, tt, ha, he, ?_, hf.symm, hdata.symm⟩
  rw [← hty]
  by_cases ht : type = "thindielectric" <;> simp [ht]

theorem div_sub_eq (a c n : F) (hc : c ≠ 0) : a / c - n = (a - n * c) / c := by
  field_simp
  ring

/-- The quotient the parser computes for the edgetint is Gulbrandsen's
`(n_max − η) / (n_max − n_min)`, for a square root `sq` of `r < 1`. -/
theorem edgetint_eq (sq eta r : F) (hsq : sq * sq = r) (hr : r < 1) :
    ((1 + sq) - eta * (1 - sq)) / ((1 + sq) - (1 - r) / (1 + r) * (1 - sq)) =
      ((1 + sq) / (1 - sq) - eta) / ((1 + sq) / (1 - sq) - (1 - r) / (1 + r)) := by
  have h2 : (1 - sq) ≠ 0 := by
    intro h0
    have : sq = 1 := by linarith
    rw [this] at hsq
    linarith
  rw [div_sub_eq _ _ eta h2, div_sub_eq _ _ ((1 - r) / (1 + r)) h2,
    div_div_div_cancel_right₀ h2]

/-- The types of the dielectric and conductor families are neither wrappers nor refused. -/
theorem leafTypes_ok {type : String}
    (h : type = "dielectric" ∨ type = "roughdielectric" ∨ type = "thindielectric" ∨
      type = "conductor" ∨ type = "roughconductor") :
    type ≠ "bumpmap" ∧ type ≠ "mask" ∧ type ≠ "twosided" ∧ type ∉ unsupportedBsdfTypes := by
  rcases h with h | h | h | h | h <;> (rw [h]; decide)

/-- For a node of the dielectric or conductor family `ReadBsdf` appends the record its second
switch gives, inside the envelope it was called with. -/
theorem ReadBsdf_leaf_record (lib : Lib F) (node : XmlNode) (id : String) (o b : Nat) (t : Bool)
    {s s' : ParserState F} {i : Nat}
    (htype : attrValue (node.attr "type") = "dielectric" ∨
      attrValue (node.attr "type") = "roughdielectric" ∨
      attrValue (node.attr "type") = "thindielectric" ∨
      attrValue (node.attr "type") = "conductor" ∨
      attrValue (node.attr "type") = "roughconductor")
    (h : ReadBsdf lib node id o b t s = .ok (i, s')) :
    ∃ ty f data s1, bsdfVariant lib node (attrValue (node.attr "type")) s =
        .ok ((ty, f, data), s1) ∧
      i = s.config.bsdfs.length ∧
      s'.config.bsdfs = s.config.bsdfs ++ [⟨ty, t || f, o, b, data⟩] := by
  obtain ⟨h1, h2, h3, h4⟩ := leafTypes_ok htype
  unfold ReadBsdf at h
  rw [ReadBsdfAux_leaf lib _ node id o b t s h1 h2 h3 h4] at h
  obtain ⟨ty, f, data, s1, hv, hi, he⟩ := ReadBsdfLeaf_record lib _ _ _ _ _ _ h
  obtain ⟨mt, mb, tx, e⟩ := he.frame
  exact ⟨ty, f, data, s1, hv, hi, by rw [e]⟩

end BsdfClaimLemmas

section FloatLemmas

variable {F : Type} [LinearOrderedField F]

/-- The reflectivity the parser computes, channel by channel, with the exact operations. -/
theorem conductorReflectivity_channels (sq : F → F) (eta k : Vec3 F) :
    conductorReflectivity eta k =
      Vec3.zipWith (channelReflectivity (FloatOps.exact sq)) eta k := rfl

/-- The edgetint the parser computes, channel by channel, with the exact operations. -/
theorem conductorEdgetint_channels (lib : Lib F) (eta r : Vec3 F) :
    conductorEdgetint lib eta r =
      Vec3.zipWith (channelEdgetint (FloatOps.exact lib.sqrtf)) eta r := rfl

end FloatLemmas

section ClaimsBsdf

variable {F : Type} [LinearOrderedField F]

/-- C8. For a bsdf node of type dielectric, roughdielectric or thindielectric whose interior and
exterior index of refraction are numeric (not material names), the record `ReadBsdf` appends has
`eta = a / b`, where `a` and `b` are the `value` of the `int_ior` / `ext_ior` child and
`1.5046` / `1.000277` when that value is absent; its variant is ThinDielectric exactly for the
type thindielectric, otherwise Dielectric. -/
theorem C8_dielectric_eta (lib : Lib F) (node : XmlNode) (id : String) (o b : Nat) (t : Bool)
    (s s' : ParserState F) (i : Nat)
    (htype : attrValue (node.attr "type") = "dielectric" ∨
      attrValue (node.attr "type") = "roughdielectric" ∨
      attrValue (node.attr "type") = "thindielectric")
    (hint : (childByName node ["int_ior", "intIOR"]).name ≠ "string")
    (hext : (childByName node ["ext_ior", "extIOR"]).name ≠ "string")
    (h : ReadBsdf lib node id o b t s = .ok (i, s')) :
    (∃ r, s'.config.bsdfs = s.config.bsdfs ++ [r] ∧
      r.data.eta? = some (numericIor lib node ["int_ior", "intIOR"] (15046 / 10000) /
        numericIor lib node ["ext_ior", "extIOR"] (1000277 / 1000000)) ∧
      (r.type = .kThinDielectric ↔ attrValue (node.attr "type") = "thindielectric") ∧
      (r.type = .kDielectric ↔ attrValue (node.attr "type") ≠ "thindielectric")) ∧
    ((childByName node ["int_ior", "intIOR"]).attr "value" = none →
      numericIor lib node ["int_ior", "intIOR"] (15046 / 10000) = 15046 / 10000) ∧
    ((childByName node ["ext_ior", "extIOR"]).attr "value" = none →
      numericIor lib node ["ext_ior", "extIOR"] (1000277 / 1000000) = 1000277 / 1000000) := by
  refine ⟨?_, fun hn => by simp [numericIor, hn, as_float],
    fun hn => by simp [numericIor, hn, as_float]⟩
  obtain ⟨ty, f, data, s1, hv, _, hr⟩ := ReadBsdf_leaf_record lib node id o b t
    (by rcases htype with h | h | h
        · exact Or.inl h
        · exact Or.inr (Or.inl h)
        · exact Or.inr (Or.inr (Or.inl h))) h
  obtain ⟨a, e, ru, rv, sr, st, ha, he, hty, _, hd⟩ := bsdfVariant_dielectric lib node _ htype hv
  have ha' : a = numericIor lib node ["int_ior", "intIOR"] (15046 / 10000) := by
    unfold ReadDielectricIor at ha
    simp only [hint, if_false] at ha
    exact (Except.ok.inj ha).symm
  have he' : e = numericIor lib node ["ext_ior", "extIOR"] (1000277 / 1000000) := by
    unfold ReadDielectricIor at he
    simp only [hext, if_false] at he
    exact (Except.ok.inj he).symm
  refine ⟨_, hr, ?_, ?_, ?_⟩
  · simp only [hd, BsdfData.eta?, ha', he']
  · simp only [hty]
    by_cases ht : attrValue (node.attr "type") = "thindielectric" <;> simp [ht]
  · simp only [hty]
    by_cases ht : attrValue (node.attr "type") = "thindielectric" <;> simp [ht]

/-- C8 (witness). A thin dielectric with interior index 1.5 and no exterior index: the record has
`eta = 1.5 / 1.000277` and variant ThinDielectric. -/
theorem C8_dielectric_eta_witness :
    ∃ i s', ReadBsdf (ratLib .null) bsdfThinGlass "" kMaxUint kMaxUint false initialState =
        .ok (i, s') ∧
      (∃ r, s'.config.bsdfs = (initialState : ParserState ℚ).config.bsdfs ++ [r] ∧
        r.data.eta? = some (numericIor (ratLib .null) bsdfThinGlass ["int_ior", "intIOR"]
            (15046 / 10000) /
          numericIor (ratLib .null) bsdfThinGlass ["ext_ior", "extIOR"] (1000277 / 1000000)) ∧
        (r.type = .kThinDielectric ↔ attrValue (bsdfThinGlass.attr "type") = "thindielectric") ∧
        (r.type = .kDielectric ↔ attrValue (bsdfThinGlass.attr "type") ≠ "thindielectric")) ∧
      numericIor (ratLib .null) bsdfThinGlass ["int_ior", "intIOR"] (15046 / 10000) = 15 / 10 ∧
      numericIor (ratLib .null) bsdfThinGlass ["ext_ior", "extIOR"] (1000277 / 1000000) =
        1000277 / 1000000 := by
  obtain ⟨⟨i, s'⟩, h, _⟩ := ok_of_toOption_map
    (x := ReadBsdf (ratLib .null) bsdfThinGlass "" kMaxUint kMaxUint false initialState)
    (f := fun p => p.1) (b := 0) (by decide!)
  exact ⟨i, s', h,
    (C8_dielectric_eta (ratLib .null) bsdfThinGlass "" kMaxUint kMaxUint false initialState s' i
      (Or.inr (Or.inr rfl)) (by decide) (by decide) h).1, by decide!, by decide!⟩

end ClaimsBsdf

section ClaimsConductor

variable {F : Type} [LinearOrderedField F]

/-- The reflectivity the parser computes is the formula of the specification in every channel. -/
theorem conductorReflectivity_eq (eta k : Vec3 F) :
    conductorReflectivity eta k = Vec3.zipWith specReflectivity eta k := by
  simp only [conductorReflectivity, Vec3.div, Vec3.add, Vec3.sub, Vec3.Sqr, Vec3.map,
    Vec3.zipWith, Vec3.splat, specReflectivity, pow_two]

/-- The edgetint the parser computes is the formula of the specification in every channel in
which the square root is exact and the reflectivity is below one. -/
theorem conductorEdgetint_eq (lib : Lib F) (eta r : Vec3 F)
    (hsq : Vec3.map (fun c => lib.sqrtf c * lib.sqrtf c) r = r)
    (hlt : r.x < 1 ∧ r.y < 1 ∧ r.z < 1) :
    conductorEdgetint lib eta r = Vec3.zipWith (specEdgetint lib.sqrtf) eta r := by
  have hx : lib.sqrtf r.x * lib.sqrtf r.x = r.x := congrArg Vec3.x hsq
  have hy : lib.sqrtf r.y * lib.sqrtf r.y = r.y := congrArg Vec3.y hsq
  have hz : lib.sqrtf r.z * lib.sqrtf r.z = r.z := congrArg Vec3.z hsq
  simp only [conductorEdgetint, Vec3.div, Vec3.add, Vec3.sub, Vec3.mul, Vec3.map,
    Vec3.zipWith, Vec3.splat, specEdgetint, Vec3.mk.injEq]
  exact ⟨edgetint_eq _ _ _ hx hlt.1, edgetint_eq _ _ _ hy hlt.2.1, edgetint_eq _ _ _ hz hlt.2.2⟩

end ClaimsConductor

section ClaimsAreaLight

variable {F : Type} [LinearOrderedField F]

/-- C10. For a shape node with an `emitter` child: without an `rgb` child of the emitter
`ReadShape` raises an error; with one, and fewer than `2 ^ 32` textures and BSDF records so far,
`ReadShape` appends exactly one constant texture holding the radiance, exactly one AreaLight
record (weight 1, not twosided, opacity and bump-map ids the sentinel) whose radiance id is that
texture, and exactly one instance whose `id_bsdf` is the index of that record. -/
theorem C10_area_light (lib : Lib F) (shape : XmlNode) (s : ParserState F)
    (hem : (shape.child "emitter").isNull = false)
    (ht : s.config.textures.length < 2 ^ 32) (hb : s.config.bsdfs.length < 2 ^ 32) :
    (((shape.child "emitter").child "rgb").isNull = true →
      ReadShape lib shape s = .error (.MyException
        ("cannot find radiance for area light '" ++ shapeId shape s ++ "'."))) ∧
    (((shape.child "emitter").child "rgb").isNull = false →
      ∀ r s', ReadShape lib shape s = .ok (r, s') →
        s'.config.textures = s.config.textures ++
          [.constant (ReadVec3 lib (shape.child "emitter") ["radiance"] (Vec3.splat 1))] ∧
        s'.config.bsdfs = s.config.bsdfs ++
          [⟨.kAreaLight, false, lib.kInvalidId, lib.kInvalidId,
            .area_light s.config.textures.length 1⟩] ∧
        ∃ info, s'.config.instances = s.config.instances ++ [info] ∧
          info.id_bsdf = s.config.bsdfs.length) := by
  constructor
  · intro hrgb
    unfold ReadShape
    simp only
    apply bind_error
    unfold shapeBsdf
    simp only [hem, Bool.false_eq_true, not_false_eq_true, if_true, hrgb]
  · intro hrgb r s' h
    obtain ⟨ib, s1, info, hs, _, hid, hinst, htex, hbs⟩ := ReadShape_spec lib shape h
    unfold shapeBsdf at hs
    simp only [hem, Bool.false_eq_true, not_false_eq_true, if_true, hrgb, if_false] at hs
    have hs' := Except.ok.inj hs
    have h1 : ib = (shapeAreaLight lib (shape.child "emitter") (shapeId shape s) s).1 :=
      (congrArg Prod.fst hs').symm
    have h2 : s1 = (shapeAreaLight lib (shape.child "emitter") (shapeId shape s) s).2 :=
      (congrArg Prod.snd hs').symm
    refine ⟨?_, ?_, info, hinst, ?_⟩
    · rw [htex, h2]
      simp only [shapeAreaLight, addTexture]
    · rw [hbs, h2]
      simp only [shapeAreaLight, addTexture, StrMap.at?, StrMap.set, List.find?_cons,
        decide_True, Option.map_some', Option.getD_some, Nat.mod_eq_of_lt ht]
    · rw [hid, h1]
      simp only [shapeAreaLight, addTexture, Nat.mod_eq_of_lt hb]

/-- C10 (witness). A sphere with an area emitter of radiance 10 in the initial state: texture 0,
BSDF record 0 and an instance with `id_bsdf = 0`; and a sphere whose emitter has no `rgb` child
raises the error. -/
theorem C10_area_light_witness :
    (∃ r s', ReadShape (ratLib .null) shapeAreaLamp initialState = .ok (r, s') ∧
      s'.config.textures = (initialState : ParserState ℚ).config.textures ++
        [.constant (ReadVec3 (ratLib .null) (shapeAreaLamp.child "emitter") ["radiance"]
          (Vec3.splat 1))] ∧
      s'.config.bsdfs = (initialState : ParserState ℚ).config.bsdfs ++
        [⟨.kAreaLight, false, (ratLib .null).kInvalidId, (ratLib .null).kInvalidId,
          .area_light (initialState : ParserState ℚ).config.textures.length 1⟩] ∧
      ∃ info, s'.config.instances = (initialState : ParserState ℚ).config.instances ++ [info] ∧
        info.id_bsdf = (initialState : ParserState ℚ).config.bsdfs.length) ∧
    ReadVec3 (ratLib .null) (shapeAreaLamp.child "emitter") ["radiance"] (Vec3.splat 1) =
      Vec3.splat 10 ∧
    ReadShape (ratLib .null) shapeLampNoRgb initialState = .error (.MyException
      ("cannot find radiance for area light '" ++
        shapeId shapeLampNoRgb (initialState : ParserState ℚ) ++ "'.")) := by
  obtain ⟨⟨r, s'⟩, h, _⟩ := ok_of_toOption_map
    (x := ReadShape (ratLib .null) shapeAreaLamp initialState)
    (f := fun p => p.1) (b := 0) (by decide!)
  exact ⟨⟨r, s', h,
    (C10_area_light (ratLib .null) shapeAreaLamp initialState rfl (by decide) (by decide)).2
      rfl r s' h⟩, by decide!,
    (C10_area_light (ratLib .null) shapeLampNoRgb initialState rfl (by decide) (by decide)).1
      rfl⟩

end ClaimsAreaLight

section Fuel

variable {F : Type} [LinearOrderedField F]

theorem depth_le_depthList {c : XmlNode} :
    ∀ {cs : List XmlNode}, c ∈ cs → c.depth ≤ XmlNode.depthList cs
  | [], h => by cases h
  | a :: cs, h => by
    rw [XmlNode.depthList]
    rcases List.mem_cons.mp h with rfl | h'
    · exact le_max_left _ _
    · exact le_trans (depth_le_depthList h') (le_max_right _ _)

/-- A child handle is lower than its parent element. -/
theorem child_depth_lt (n : XmlNode) (key : String) (hn : n.isNull = false) :
    (n.child key).depth < n.depth := by
  cases n with
  | null => cases hn
  | elem nm attrs cs =>
    rw [XmlNode.depth]
    unfold XmlNode.child
    cases hf : (XmlNode.elem nm attrs cs).children.find? (fun c => c.name = key) with
    | none => simp [XmlNode.depth]
    | some c =>
      simp only [Option.getD_some]
      exact Nat.lt_succ_of_le (depth_le_depthList (List.mem_of_find?_eq_some hf))

/-- A node with a non-empty name is no null handle. -/
theorem isNull_of_name {n : XmlNode} (h : n.name ≠ "") : n.isNull = false := by
  cases n with
  | null => exact absurd rfl h
  | elem _ _ _ => rfl

/-- A node with a non-empty `type` attribute is no null handle. -/
theorem isNull_of_type {n : XmlNode} (h : attrValue (n.attr "type") ≠ "") : n.isNull = false := by
  cases n with
  | null => exact absurd rfl h
  | elem _ _ _ => rfl

/-- The result of `ReadTexture` does not depend on the recursion budget once it is at least the
height of the node. -/
theorem ReadTextureAux_fuel (lib : Lib F) (fuel1 : Nat) :
    ∀ (fuel2 : Nat) (node : XmlNode) (scale d : F) (s : ParserState F),
      node.depth ≤ fuel1 → node.depth ≤ fuel2 →
      ReadTextureAux lib fuel1 node scale d s = ReadTextureAux lib fuel2 node scale d s := by
  induction fuel1 with
  | zero =>
    intro fuel2 node scale d s h1 h2
    cases node with
    | null => cases fuel2 <;> rfl
    | elem nm attrs cs => simp [XmlNode.depth] at h1
  | succ n ih =>
    intro fuel2 node scale d s h1 h2
    cases fuel2 with
    | zero =>
      cases node with
      | null => rfl
      | elem nm attrs cs => simp [XmlNode.depth] at h2
    | succ m =>
      unfold ReadTextureAux
      simp only
      split
      · rfl
      · rename_i hnull
        have hn : node.isNull = false := by simpa using hnull
        have hc := child_depth_lt node "texture" hn
        split
        · exact ih m _ _ _ _ (by omega) (by omega)
        · rfl

/-- The result of `ReadBsdf` does not depend on the recursion budget once it is at least the
height of the node. -/
theorem ReadBsdfAux_fuel (lib : Lib F) (fuel1 : Nat) :
    ∀ (fuel2 : Nat) (node : XmlNode) (id : String) (o b : Nat) (t : Bool) (s : ParserState F),
      node.depth ≤ fuel1 → node.depth ≤ fuel2 →
      ReadBsdfAux lib fuel1 node id o b t s = ReadBsdfAux lib fuel2 node id o b t s := by
  induction fuel1 with
  | zero =>
    intro fuel2 node id o b t s h1 h2
    cases node with
    | null => cases fuel2 <;> rfl
    | elem nm attrs cs => simp [XmlNode.depth] at h1
  | succ n ih =>
    intro fuel2 node id o b t s h1 h2
    cases fuel2 with
    | zero =>
      cases node with
      | null => rfl
      | elem nm attrs cs => simp [XmlNode.depth] at h2
    | succ m =>
      unfold ReadBsdfAux
      simp only
      split
      · rename_i hty
        have hc := child_depth_lt node "bsdf" (isNull_of_type (by rw [hty]; decide))
        split
        · rfl
        · exact ih m _ _ _ _ _ _ (by omega) (by omega)
      · split
        · rename_i hty
          have hc := child_depth_lt node "bsdf" (isNull_of_type (by rw [hty]; decide))
          split
          · rfl
          · exact ih m _ _ _ _ _ _ (by omega) (by omega)
        · split
          · rename_i hty
            have hc := child_depth_lt node "bsdf" (isNull_of_type (by rw [hty]; decide))
            exact ih m _ _ _ _ _ _ (by omega) (by omega)
          · rfl

/-- With a budget of at least the height of the node, `ReadBsdfAux` is `ReadBsdf`. -/
theorem ReadBsdfAux_eq_ReadBsdf (lib : Lib F) (fuel : Nat) (node : XmlNode) (id : String)
    (o b : Nat) (t : Bool) (s : ParserState F) (h : node.depth ≤ fuel) :
    ReadBsdfAux lib fuel node id o b t s = ReadBsdf lib node id o b t s :=
  ReadBsdfAux_fuel lib fuel _ node id o b t s h le_rfl

/-- With a budget of at least the height of the node, `ReadTextureAux` is `ReadTexture`. -/
theorem ReadTextureAux_eq_ReadTexture (lib : Lib F) (fuel : Nat) (node : XmlNode) (scale d : F)
    (s : ParserState F) (h : node.depth ≤ fuel) :
    ReadTextureAux lib fuel node scale d s = ReadTexture lib node scale d s :=
  ReadTextureAux_fuel lib fuel _ node scale d s h le_rfl

end Fuel

section NoFuel

variable {F : Type} [LinearOrderedField F]

theorem noFuel_ok {α : Type} (a : α) : NoFuelErr (Except.ok a : Except Err α) := by
  intro h; cases h

theorem noFuel_pure {α : Type} (a : α) : NoFuelErr (pure a : Except Err α) := by
  intro h; cases h

theorem noFuel_exception {α : Type} (msg : String) :
    NoFuelErr (Except.error (.MyException msg) : Except Err α) := by
  intro h; cases h

theorem noFuel_bind {α β : Type} {x : Except Err α} {f : α → Except Err β}
    (hx : NoFuelErr x) (hf : ∀ a, NoFuelErr (f a)) : NoFuelErr (x >>= f) := by
  cases x with
  | error e =>
    intro h
    exact hx (by simpa [bind, Except.bind] using h)
  | ok a => exact hf a

theorem ReadBitmap_noFuel (lib : Lib F) (hlib : ∀ fn g w, NoFuelErr (lib.imageRead fn g w))
    (fn id : String) (g sc : F) (wm : Option Int) (s : ParserState F) :
    NoFuelErr (ReadBitmap lib fn id g sc wm s) := by
  unfold ReadBitmap
  exact noFuel_bind (hlib _ _ _) (fun _ => noFuel_pure _)

theorem checkerColor_noFuel (lib : Lib F) (node : XmlNode) (key : String) (d : F)
    (msg : String) : NoFuelErr (checkerColor lib node key d msg) := by
  unfold checkerColor
  split
  · exact noFuel_ok _
  · split
    · exact noFuel_exception _
    · exact noFuel_ok _

/-- With a budget of at least the height of the node, `ReadTextureAux` never reports an
exhausted budget (the image reader being a C++ function, it never does). -/
theorem ReadTextureAux_noFuel (lib : Lib F) (hlib : ∀ fn g w, NoFuelErr (lib.imageRead fn g w))
    (fuel : Nat) :
    ∀ (node : XmlNode) (scale d : F) (s : ParserState F), node.depth ≤ fuel →
      NoFuelErr (ReadTextureAux lib fuel node scale d s) := by
  induction fuel with
  | zero =>
    intro node scale d s h
    cases node with
    | null => exact noFuel_ok _
    | elem nm attrs cs => simp [XmlNode.depth] at h
  | succ n ih =>
    intro node scale d s h
    unfold ReadTextureAux
    simp only
    split
    · exact noFuel_ok _
    · rename_i hnull
      have hn : node.isNull = false := by simpa using hnull
      have hc := child_depth_lt node "texture" hn
      split
      · exact ih _ _ _ _ (by omega)
      · split
        · split
          · exact noFuel_ok _
          · exact noFuel_exception _
        · split
          · exact noFuel_ok _
          · split
            · exact noFuel_ok _
            · split
              · split
                · exact noFuel_bind (checkerColor_noFuel lib _ _ _ _)
                    (fun _ => noFuel_bind (checkerColor_noFuel lib _ _ _ _)
                      (fun _ => noFuel_pure _))
                · split
                  · split
                    · exact noFuel_exception _
                    · exact ReadBitmap_noFuel lib hlib _ _ _ _ _ _
                  · exact noFuel_exception _
              · exact noFuel_exception _

theorem ReadTexture_noFuel (lib : Lib F) (hlib : ∀ fn g w, NoFuelErr (lib.imageRead fn g w))
    (node : XmlNode) (scale d : F) (s : ParserState F) :
    NoFuelErr (ReadTexture lib node scale d s) :=
  ReadTextureAux_noFuel lib hlib _ _ _ _ _ le_rfl

theorem ReadTextureByName_noFuel (lib : Lib F)
    (hlib : ∀ fn g w, NoFuelErr (lib.imageRead fn g w)) (node : XmlNode) (names : List String)
    (d : F) (s : ParserState F) : NoFuelErr (ReadTextureByName lib node names d s) := by
  unfold ReadTextureByName
  split
  · exact ReadTexture_noFuel lib hlib _ _ _ _
  · exact noFuel_ok _

theorem ReadDielectricIor_noFuel (lib : Lib F) (node : XmlNode) (names : List String) (d : F) :
    NoFuelErr (ReadDielectricIor lib node names d) := by
  unfold ReadDielectricIor
  simp only
  split
  · split
    · exact noFuel_exception _
    · exact noFuel_ok _
  · exact noFuel_ok _

theorem ReadConductorIor_noFuel (lib : Lib F) (node : XmlNode) :
    NoFuelErr (ReadConductorIor lib node) := by
  unfold ReadConductorIor
  split
  · simp only
    split
    · exact noFuel_exception _
    · exact noFuel_ok _
  · split
    · simp only
      split
      · exact noFuel_exception _
      · exact noFuel_ok _
    · exact noFuel_ok _

theorem readRoughnessUV_noFuel (lib : Lib F)
    (hlib : ∀ fn g w, NoFuelErr (lib.imageRead fn g w)) (node : XmlNode) (rough : Bool)
    (s : ParserState F) : NoFuelErr (readRoughnessUV lib node rough s) := by
  unfold readRoughnessUV
  split
  · split
    · exact noFuel_bind (ReadTextureByName_noFuel lib hlib _ _ _ _) (fun _ => noFuel_pure _)
    · exact noFuel_bind (ReadTextureByName_noFuel lib hlib _ _ _ _)
        (fun _ => noFuel_bind (ReadTextureByName_noFuel lib hlib _ _ _ _)
          (fun _ => noFuel_pure _))
  · exact noFuel_bind (ReadTextureByName_noFuel lib hlib _ _ _ _) (fun _ => noFuel_pure _)

theorem bsdfVariant_noFuel (lib : Lib F) (hlib : ∀ fn g w, NoFuelErr (lib.imageRead fn g w))
    (node : XmlNode) (type : String) (s : ParserState F) :
    NoFuelErr (bsdfVariant lib node type s) := by
  have ht := ReadTextureByName_noFuel lib hlib
  unfold bsdfVariant
  split
  · exact noFuel_bind (ht _ _ _ _) (fun _ => noFuel_pure _)
  · split
    · exact noFuel_bind (ht _ _ _ _) (fun _ => noFuel_bind (ht _ _ _ _) (fun _ => noFuel_pure _))
    · split
      · exact noFuel_bind (ReadDielectricIor_noFuel lib _ _ _)
          (fun _ => noFuel_bind (ReadDielectricIor_noFuel lib _ _ _)
            (fun _ => noFuel_bind (readRoughnessUV_noFuel lib hlib _ _ _)
              (fun _ => noFuel_bind (ht _ _ _ _)
                (fun _ => noFuel_bind (ht _ _ _ _) (fun _ => noFuel_pure _)))))
      · split
        · exact noFuel_bind (readRoughnessUV_noFuel lib hlib _ _ _)
            (fun _ => noFuel_bind (ht _ _ _ _)
              (fun _ => noFuel_bind (ReadConductorIor_noFuel lib _) (fun _ => noFuel_pure _)))
        · split
          · refine noFuel_bind (ReadDielectricIor_noFuel lib _ _ _)
              (fun _ => noFuel_bind (ReadDielectricIor_noFuel lib _ _ _)
                (fun _ => noFuel_bind ?_
                  (fun _ => noFuel_bind (ht _ _ _ _)
                    (fun _ => noFuel_bind (ht _ _ _ _) (fun _ => noFuel_pure _)))))
            split
            · exact ht _ _ _ _
            · exact ht _ _ _ _
          · exact noFuel_bind (ht _ _ _ _) (fun _ => noFuel_pure _)

theorem ReadBsdfLeaf_noFuel (lib : Lib F) (hlib : ∀ fn g w, NoFuelErr (lib.imageRead fn g w))
    (node : XmlNode) (id type : String) (o b : Nat) (t : Bool) (s : ParserState F) :
    NoFuelErr (ReadBsdfLeaf lib node id type o b t s) := by
  unfold ReadBsdfLeaf
  simp only
  split
  · rename_i e he
    intro h
    have := bsdfVariant_noFuel lib hlib node type s
    rw [he] at this
    injection h with h
    subst h
    exact this rfl
  · exact noFuel_ok _

/-- With a budget of at least the height of the node, `ReadBsdfAux` never reports an exhausted
budget: the budget `ReadBsdf` uses is enough. -/
theorem ReadBsdfAux_noFuel (lib : Lib F) (hlib : ∀ fn g w, NoFuelErr (lib.imageRead fn g w))
    (fuel : Nat) :
    ∀ (node : XmlNode) (id : String) (o b : Nat) (t : Bool) (s : ParserState F),
      node.depth ≤ fuel → NoFuelErr (ReadBsdfAux lib fuel node id o b t s) := by
  induction fuel with
  | zero =>
    intro node id o b t s h
    cases node with
    | null =>
      rw [ReadBsdfAux_leaf lib 0 .null id o b t s (by decide) (by decide) (by decide)
        (by decide)]
      exact ReadBsdfLeaf_noFuel lib hlib _ _ _ _ _ _ _
    | elem nm attrs cs => simp [XmlNode.depth] at h
  | succ n ih =>
    intro node id o b t s h
    unfold ReadBsdfAux
    simp only
    split
    · rename_i hty
      have hc := child_depth_lt node "bsdf" (isNull_of_type (by rw [hty]; decide))
      split
      · rename_i e he
        intro h'
        have := ReadTexture_noFuel lib hlib (node.child "texture") 1 1 s
        rw [he] at this
        injection h' with h'
        subst h'
        exact this rfl
      · exact ih _ _ _ _ _ _ (by omega)
    · split
      · rename_i hty
        have hc := child_depth_lt node "bsdf" (isNull_of_type (by rw [hty]; decide))
        split
        · rename_i e he
          intro h'
          have := ReadTextureByName_noFuel lib hlib node ["opacity"] 1 s
          rw [he] at this
          injection h' with h'
          subst h'
          exact this rfl
        · exact ih _ _ _ _ _ _ (by omega)
      · split
        · rename_i hty
          have hc := child_depth_lt node "bsdf" (isNull_of_type (by rw [hty]; decide))
          exact ih _ _ _ _ _ _ (by omega)
        · split
          · exact noFuel_exception _
          · exact ReadBsdfLeaf_noFuel lib hlib _ _ _ _ _ _ _

theorem ReadBsdf_noFuel (lib : Lib F) (hlib : ∀ fn g w, NoFuelErr (lib.imageRead fn g w))
    (node : XmlNode) (id : String) (o b : Nat) (t : Bool) (s : ParserState F) :
    NoFuelErr (ReadBsdf lib node id o b t s) :=
  ReadBsdfAux_noFuel lib hlib _ _ _ _ _ _ _ le_rfl

end NoFuel

section NoFuelTop

variable {F : Type} [LinearOrderedField F]

theorem noFuel_of_eq {α β : Type} {x : Except Err α} {e : Err} (hx : NoFuelErr x)
    (he : x = .error e) : NoFuelErr (Except.error e : Except Err β) := by
  subst he
  intro h
  injection h with h
  subst h
  exact hx rfl

theorem noFuel_error {α : Type} {e : Err} (he : e ≠ .outOfFuel) :
    NoFuelErr (Except.error e : Except Err α) := by
  intro h
  injection h with h
  exact he h

theorem noFuel_map {α β : Type} {x : Except Err α} (f : α → β) (hx : NoFuelErr x) :
    NoFuelErr (x.map f) := by
  cases x with
  | error e => exact noFuel_of_eq hx rfl
  | ok a => exact noFuel_ok _

theorem noFuel_ite {α : Type} {c : Prop} [Decidable c] {a b : Except Err α}
    (ha : NoFuelErr a) (hb : NoFuelErr b) : NoFuelErr (if c then a else b) := by
  split
  · exact ha
  · exact hb

theorem stoi_noFuel (str : String) : NoFuelErr (stoi str) := by
  unfold stoi
  exact noFuel_ite (fun h => by cases h) (noFuel_ite (fun h => by cases h) (noFuel_ok _))

theorem readIntText_noFuel (m : StrMap String) (str : String) {e : Err} (he : e ≠ .outOfFuel) :
    NoFuelErr (readIntText m str e) := by
  unfold readIntText
  split
  · exact noFuel_ok _
  · split
    · split
      · exact noFuel_map _ (stoi_noFuel _)
      · exact noFuel_error he
    · exact noFuel_map _ (stoi_noFuel _)

theorem foldlM_noFuel {α β : Type} (f : β → α → Except Err β) (hf : ∀ b a, NoFuelErr (f b a)) :
    ∀ (l : List α) (b : β), NoFuelErr (l.foldlM f b)
  | [], b => noFuel_pure _
  | a :: l, b => by
    rw [List.foldlM_cons]
    exact noFuel_bind (hf b a) (fun b' => foldlM_noFuel f hf l b')

theorem filmStep_noFuel (m : StrMap String) (wh : Int × Int) (node : XmlNode) :
    NoFuelErr (filmStep m wh node) := by
  unfold filmStep
  simp only
  split
  · exact noFuel_bind (readIntText_noFuel _ _ (by decide)) (fun _ => noFuel_pure _)
  · split
    · exact noFuel_bind (readIntText_noFuel _ _ (by decide)) (fun _ => noFuel_pure _)
    · exact noFuel_pure _

theorem lensStep_noFuel (lib : Lib F) (st : F × String) (node : XmlNode) :
    NoFuelErr (lensStep lib st node) := by
  unfold lensStep
  simp only
  split
  · refine noFuel_bind ?_ (fun _ => noFuel_pure _)
    unfold stof
    split
    · split
      · exact noFuel_error (by decide)
      · exact noFuel_ok _
    · exact noFuel_error (by decide)
  · split
    · exact noFuel_pure _
    · exact noFuel_pure _

theorem samplerStep_noFuel (m : StrMap String) (n : Int) (node : XmlNode) :
    NoFuelErr (samplerStep m n node) := by
  unfold samplerStep
  simp only
  split
  · exact noFuel_bind (readIntText_noFuel _ _ (by decide)) (fun _ => noFuel_pure _)
  · exact noFuel_pure _

theorem fovSwitch_noFuel (lib : Lib F) (ax : String) (fov f : F) (w g : Int) :
    NoFuelErr (fovSwitch lib ax fov f w g) := by
  unfold fovSwitch
  split
  · exact noFuel_ok _
  · split
    · exact noFuel_ok _
    · split
      · split
        · exact noFuel_ok _
        · exact noFuel_ok _
      · exact noFuel_exception _

theorem ReadCamera_noFuel (lib : Lib F) (node : XmlNode) (s : ParserState F) :
    NoFuelErr (ReadCamera lib node s) := by
  unfold ReadCamera
  simp only
  split
  · exact noFuel_exception _
  · split
    · rename_i e he
      exact noFuel_of_eq (foldlM_noFuel _ (filmStep_noFuel _) _ _) he
    · split
      · rename_i e he
        exact noFuel_of_eq (foldlM_noFuel _ (lensStep_noFuel lib) _ _) he
      · split
        · rename_i e he
          exact noFuel_of_eq (fovSwitch_noFuel lib _ _ _ _ _) he
        · split
          · rename_i e he
            exact noFuel_of_eq (foldlM_noFuel _ (samplerStep_noFuel _) _ _) he
          · exact noFuel_ok _

theorem integratorStep_noFuel (m : StrMap String) (st : Nat × Nat) (node : XmlNode) :
    NoFuelErr (integratorStep m st node) := by
  unfold integratorStep
  simp only
  split
  · exact noFuel_bind (readIntText_noFuel _ _ (by decide)) (fun _ => noFuel_pure _)
  · split
    · exact noFuel_bind (readIntText_noFuel _ _ (by decide)) (fun _ => noFuel_pure _)
    · exact noFuel_pure _

theorem ReadIntegrator_noFuel (lib : Lib F) (node : XmlNode) (s : ParserState F) :
    NoFuelErr (ReadIntegrator lib node s) := by
  unfold ReadIntegrator
  exact noFuel_bind (foldlM_noFuel _ (integratorStep_noFuel _) _ _) (fun _ => noFuel_pure _)

theorem mediumSigma_noFuel (lib : Lib F) (node : XmlNode) : NoFuelErr (mediumSigma lib node) := by
  unfold mediumSigma
  simp only [bind, Except.bind]
  repeat' split
  all_goals first
    | exact noFuel_ok _
    | exact noFuel_exception _

theorem mediumInfo_noFuel (lib : Lib F) (node : XmlNode) : NoFuelErr (mediumInfo lib node) := by
  unfold mediumInfo
  refine noFuel_bind (mediumSigma_noFuel lib node) (fun _ => ?_)
  simp only
  split
  · split
    · exact noFuel_ok _
    · split
      · exact noFuel_ok _
      · exact noFuel_exception _
  · exact noFuel_ok _

theorem ReadMedium_noFuel (lib : Lib F) (node : XmlNode) (s : ParserState F) :
    NoFuelErr (ReadMedium lib node s) := by
  unfold ReadMedium
  simp only
  split
  · exact noFuel_ok _
  · split
    · exact noFuel_exception _
    · split
      · rename_i e he
        exact noFuel_of_eq (mediumInfo_noFuel lib node) he
      · exact noFuel_ok _

theorem shapeBsdf_noFuel (lib : Lib F) (hlib : LibNoFuel lib) (node : XmlNode) (id : String)
    (s : ParserState F) : NoFuelErr (shapeBsdf lib node id s) := by
  unfold shapeBsdf
  split
  · simp only
    split
    · exact noFuel_exception _
    · exact noFuel_ok _
  · split
    · split
      · rename_i e he
        exact noFuel_of_eq (ReadBsdf_noFuel lib hlib.1 _ _ _ _ _ _) he
      · exact noFuel_ok _
    · exact noFuel_ok _

theorem shapeGeometry_noFuel (lib : Lib F) (hlib : LibNoFuel lib) (node : XmlNode) (d : String)
    (info : InstanceInfo F) : NoFuelErr (shapeGeometry lib node d info) := by
  unfold shapeGeometry
  simp only
  repeat' split
  all_goals first
    | exact noFuel_ok _
    | (rename_i e he
       refine noFuel_of_eq ?_ he
       repeat' split
       all_goals first
         | exact hlib.2.1 _ _ _
         | exact hlib.2.2 _ _ _ _)

theorem shapeMedium_noFuel (lib : Lib F) (node : XmlNode) (key : String)
    (assign : InstanceInfo F → Nat → InstanceInfo F) (info : InstanceInfo F)
    (s : ParserState F) : NoFuelErr (shapeMedium lib node key assign info s) := by
  unfold shapeMedium
  split
  · exact noFuel_ok _
  · split
    · rename_i e he
      exact noFuel_of_eq (ReadMedium_noFuel lib _ _) he
    · exact noFuel_ok _

theorem ReadShape_noFuel (lib : Lib F) (hlib : LibNoFuel lib) (node : XmlNode)
    (s : ParserState F) : NoFuelErr (ReadShape lib node s) := by
  unfold ReadShape
  exact noFuel_bind (shapeBsdf_noFuel lib hlib _ _ _)
    (fun _ => noFuel_bind (shapeGeometry_noFuel lib hlib _ _ _)
      (fun _ => noFuel_bind (shapeMedium_noFuel lib _ _ _ _ _)
        (fun _ => noFuel_bind (shapeMedium_noFuel lib _ _ _ _ _) (fun _ => noFuel_pure _))))

theorem ReadEmitter_noFuel (lib : Lib F) (hlib : LibNoFuel lib) (node : XmlNode)
    (s : ParserState F) : NoFuelErr (ReadEmitter lib node s) := by
  unfold ReadEmitter
  simp only
  split
  · exact noFuel_ok _
  · split
    · split
      · split
        · rename_i e he
          exact noFuel_of_eq (ReadTexture_noFuel lib hlib.1 _ _ _ _) he
        · exact noFuel_ok _
      · exact noFuel_ok _
    · split
      · exact noFuel_ok _
      · split
        · exact noFuel_ok _
        · split
          · split
            · rename_i e he
              exact noFuel_of_eq (ReadBitmap_noFuel lib hlib.1 _ _ _ _ _ _) he
            · exact noFuel_ok _
          · split
            · exact noFuel_ok _
            · exact noFuel_ok _

theorem forNodes_noFuel (f : XmlNode → ParserState F → Except Err (ParserState F))
    (hf : ∀ n s, NoFuelErr (f n s)) :
    ∀ (ns : List XmlNode) (s : ParserState F), NoFuelErr (forNodes f ns s)
  | [], s => noFuel_ok _
  | n :: ns, s => by
    unfold forNodes
    split
    · rename_i e he
      exact noFuel_of_eq (hf n s) he
    · exact forNodes_noFuel f hf ns _

theorem dropIndex_noFuel {r : Except Err (Nat × ParserState F)} (h : NoFuelErr r) :
    NoFuelErr (dropIndex r) := by
  unfold dropIndex
  split
  · exact noFuel_of_eq h rfl
  · exact noFuel_ok _

/-- The recursion budget of the embedding never shows in the outcome of `LoadConfig`: it
returns, throws or exits as the C++ function does. -/
theorem LoadConfig_noFuel (lib : Lib F) (hlib : LibNoFuel lib) (filename : String)
    (s0 : ParserState F) : NoFuelErr (LoadConfig lib filename s0) := by
  unfold LoadConfig
  simp only
  split
  · exact noFuel_exception _
  · split
    · exact noFuel_exception _
    · split
      · exact noFuel_exception _
      · split
        · rename_i e he
          refine noFuel_of_eq ?_ he
          unfold loadScene
          exact noFuel_bind (ReadCamera_noFuel lib _ _)
            (fun _ => noFuel_bind (ReadIntegrator_noFuel lib _ _)
              (fun _ => noFuel_bind (forNodes_noFuel _
                  (fun _ _ => dropIndex_noFuel (ReadTexture_noFuel lib hlib.1 _ _ _ _)) _ _)
                (fun _ => noFuel_bind (forNodes_noFuel _
                    (fun _ _ => dropIndex_noFuel (ReadBsdf_noFuel lib hlib.1 _ _ _ _ _ _)) _ _)
                  (fun _ => noFuel_bind (forNodes_noFuel _
                      (fun _ _ => dropIndex_noFuel (ReadMedium_noFuel lib _ _)) _ _)
                    (fun _ => noFuel_bind (forNodes_noFuel _
                        (fun _ _ => dropIndex_noFuel (ReadShape_noFuel lib hlib _ _)) _ _)
                      (fun _ => forNodes_noFuel _ (ReadEmitter_noFuel lib hlib) _ _))))))
        · exact noFuel_ok _

end NoFuelTop

section ShapeTypeLemmas

variable {F : Type} [LinearOrderedField F]

/-- The switch over the shape type leaves the record as it is for a type it does not know. -/
theorem shapeGeometry_unknown (lib : Lib F) (node : XmlNode) (d : String) (info : InstanceInfo F)
    (hty : attrValue (node.attr "type") ∉ knownShapeTypes) :
    shapeGeometry lib node d info = .ok info := by
  simp only [knownShapeTypes, List.mem_cons, List.mem_singleton, not_or, List.mem_nil_iff,
    or_false] at hty
  obtain ⟨h1, h2, h3, h4, h5, h6, h7, h8, h9⟩ := hty
  unfold shapeGeometry
  simp only [h1, h2, h3, h4, h5, h6, h7, h8, h9, or_self, if_false]

theorem shapeMedium_type (lib : Lib F) (n : XmlNode) (key : String)
    (assign : InstanceInfo F → Nat → InstanceInfo F) {info info' : InstanceInfo F}
    {s s' : ParserState F} (h : shapeMedium lib n key assign info s = .ok (info', s'))
    (ha : ∀ i m, (assign i m).type = i.type) :
    info'.type = info.type := by
  unfold shapeMedium at h
  split at h
  · cases h; rfl
  · split at h
    · cases h
    · cases h; exact ha _ _

end ShapeTypeLemmas

section ClaimsShape

variable {F : Type} [LinearOrderedField F]

/-- For a shape node whose type is none of cube, rectangle, sphere, disk, cylinder, obj,
serialized, gltf, ply, a call of `ReadShape` that returns has appended one instance all the same,
and the kind of that instance is the one a default-constructed record has. -/
theorem ReadShape_unknown_type (lib : Lib F) (node : XmlNode)
    (s s' : ParserState F) (r : Nat)
    (hty : attrValue (node.attr "type") ∉ knownShapeTypes)
    (h : ReadShape lib node s = .ok (r, s')) :
    ∃ info, s'.config.instances = s.config.instances ++ [info] ∧
      info.type = lib.instanceDefault.type := by
  unfold ReadShape at h
  simp only at h
  rw [bind_ok_iff] at h
  obtain ⟨⟨ib, s1⟩, h1, h⟩ := h
  simp only at h
  rw [shapeGeometry_unknown lib node _ _ hty] at h
  rw [bind_ok_iff] at h
  obtain ⟨info1, hg, h⟩ := h
  cases hg
  rw [bind_ok_iff] at h
  obtain ⟨⟨info2, s2⟩, h2, h⟩ := h
  simp only at h
  rw [bind_ok_iff] at h
  obtain ⟨⟨info3, s3⟩, h3, h⟩ := h
  cases h
  have hi := shapeBsdf_instances lib _ _ h1
  have g2 := shapeMedium_type lib _ _ _ h2 (fun _ _ => rfl)
  have g3 := shapeMedium_type lib _ _ _ h3 (fun _ _ => rfl)
  obtain ⟨mm2, md2, rfl⟩ := shapeMedium_frame lib _ _ _ h2
  obtain ⟨mm3, md3, rfl⟩ := shapeMedium_frame lib _ _ _ h3
  refine ⟨info3, ?_, ?_⟩
  · simp only [hi]
  · rw [g3, g2]

/-- C11 (the code at the failing input). A scene whose only shape has the type `hair`, which is
none of the nine types `ReadShape` knows: the scene loads, `ReadShape` has appended an instance
for the shape, and the kind of that instance is none of the six kinds. -/
theorem C11_unknown_shape_type_still_appended :
    attrValue (shapeUnknownType.attr "type") ∉ knownShapeTypes ∧
    (∃ cfg, LoadConfig (ratLib sceneUnknownType) "scene.xml" initialState = .ok cfg ∧
      cfg.instances.map (fun i => i.type) = [InstanceType.kNone]) ∧
    ∃ r s', ReadShape (ratLib sceneUnknownType) shapeUnknownType initialState = .ok (r, s') ∧
      ∃ info, s'.config.instances = (initialState : ParserState ℚ).config.instances ++ [info] ∧
        info.type = (ratLib sceneUnknownType).instanceDefault.type := by
  have hty : attrValue (shapeUnknownType.attr "type") ∉ knownShapeTypes := by decide
  obtain ⟨⟨r, s'⟩, h, _⟩ := ok_of_toOption_map
    (x := ReadShape (ratLib sceneUnknownType) shapeUnknownType initialState)
    (f := fun p => p.2.config.instances.length) (b := 1) (by decide!)
  exact ⟨hty,
    ok_of_toOption_map (x := LoadConfig (ratLib sceneUnknownType) "scene.xml" initialState)
      (f := fun c => c.instances.map (fun i => i.type)) (b := [InstanceType.kNone]) (by decide!),
    r, s', h,
    ReadShape_unknown_type (ratLib sceneUnknownType) shapeUnknownType initialState s' r hty h⟩

end ClaimsShape

section MediumLemmas

variable {F : Type} [LinearOrderedField F]

/-- When `ReadMedium` returns, the globals it leaves are the state of its result. -/
theorem ReadMedium_ok_globals (lib : Lib F) (node : XmlNode) {s s' : ParserState F} {i : Nat}
    (h : ReadMedium lib node s = .ok (i, s')) : ReadMediumGlobals lib node s = s' := by
  unfold ReadMedium at h
  unfold ReadMediumGlobals
  simp only at h ⊢
  split at h
  · rename_i hc
    cases h
    simp only [hc, if_true]
  · rename_i hc
    split at h
    · cases h
    · rename_i hty
      split at h
      · cases h
      · rename_i info hm
        cases h
        simp [hc, hty, hm]

/-- A throw or a return of `ReadMedium` leaves the media sequence with at most one record more,
and with none more when it throws. -/
theorem ReadMedium_error_media (lib : Lib F) (node : XmlNode) (s : ParserState F) (e : Err)
    (h : ReadMedium lib node s = .error e) :
    (ReadMediumGlobals lib node s).config.media = s.config.media := by
  unfold ReadMedium at h
  unfold ReadMediumGlobals
  simp only at h ⊢
  split at h
  · cases h
  · rename_i hc
    split at h
    · rename_i hty
      simp [hc, hty]
    · rename_i hty
      split at h
      · rename_i e' hm
        simp [hc, hty, hm]
      · cases h

end MediumLemmas

section ClaimsMedium

variable {F : Type} [LinearOrderedField F]

/-- C14. On a medium node whose id is not yet registered and whose type is not `homogeneous`,
`ReadMedium` throws and the media sequence it leaves is the one it found; and whenever
`ReadMedium` on a node with an unregistered id returns, it has appended exactly one record, that
record is homogeneous and the type of the node is `homogeneous`. -/
theorem C14_only_homogeneous_media (lib : Lib F) (node : XmlNode) (s : ParserState F)
    (hid : s.map_medium.count (attrValue (node.attr "id")) = false) :
    (attrValue (node.attr "type") ≠ "homogeneous" →
      ReadMedium lib node s =
        .error (.MyException ("unsupported  media'" ++ attrValue (node.attr "type") ++ "'.")) ∧
      (ReadMediumGlobals lib node s).config.media = s.config.media) ∧
    (∀ i s', ReadMedium lib node s = .ok (i, s') →
      ∃ info, s'.config.media = s.config.media ++ [info] ∧
        info.type = MediumType.kHomogeneous ∧ attrValue (node.attr "type") = "homogeneous" ∧
        i = s.config.media.length % 2 ^ 32) := by
  constructor
  · intro hty
    have h : ReadMedium lib node s =
        .error (.MyException ("unsupported  media'" ++ attrValue (node.attr "type") ++ "'.")) := by
      unfold ReadMedium
      simp only [hid, hty, ne_eq, not_false_eq_true, if_true, if_false, Bool.false_eq_true]
    exact ⟨h, ReadMedium_error_media lib node s _ h⟩
  · intro i s' h
    unfold ReadMedium at h
    simp only [hid, Bool.false_eq_true, if_false] at h
    split at h
    · cases h
    · rename_i hty
      split at h
      · cases h
      · rename_i info hm
        cases h
        refine ⟨info, rfl, ?_, by simpa using hty, rfl⟩
        unfold mediumInfo at hm
        rw [bind_ok_iff] at hm
        obtain ⟨⟨ss, sa⟩, _, hm⟩ := hm
        simp only at hm
        repeat' split at hm
        all_goals first | (cases hm; rfl) | cases hm

/-- C14 (witness). A medium of type `heterogeneous` in the initial state. -/
theorem C14_only_homogeneous_media_witness :
    (initialState : ParserState ℚ).map_medium.count (attrValue (mediumHeterogeneous.attr "id")) =
      false ∧
    attrValue (mediumHeterogeneous.attr "type") ≠ "homogeneous" ∧
    ((attrValue (mediumHeterogeneous.attr "type") ≠ "homogeneous" →
      ReadMedium (ratLib .null) mediumHeterogeneous initialState =
        .error (.MyException ("unsupported  media'" ++
          attrValue (mediumHeterogeneous.attr "type") ++ "'.")) ∧
      (ReadMediumGlobals (ratLib .null) mediumHeterogeneous initialState).config.media =
        (initialState : ParserState ℚ).config.media) ∧
    (∀ i s', ReadMedium (ratLib .null) mediumHeterogeneous initialState = .ok (i, s') →
      ∃ info, s'.config.media = (initialState : ParserState ℚ).config.media ++ [info] ∧
        info.type = MediumType.kHomogeneous ∧
        attrValue (mediumHeterogeneous.attr "type") = "homogeneous" ∧
        i = (initialState : ParserState ℚ).config.media.length % 2 ^ 32)) :=
  ⟨rfl, by decide,
    C14_only_homogeneous_media (ratLib .null) mediumHeterogeneous initialState rfl⟩

end ClaimsMedium

section IntegratorLemmas

variable {F : Type} [LinearOrderedField F]

/-- An `integer` child that gives no depth leaves the pair (max_depth, rr_depth) alone. -/
theorem integratorStep_other (m : StrMap String) (st : Nat × Nat) (node : XmlNode)
    (h : attrValue (node.attr "name") ∉ depthNames) : integratorStep m st node = .ok st := by
  simp only [depthNames, List.mem_cons, List.mem_singleton, not_or, List.mem_nil_iff,
    or_false] at h
  obtain ⟨h1, h2, h3, h4⟩ := h
  unfold integratorStep
  simp only [h1, h2, h3, h4, or_self, if_false]
  rfl

theorem integratorLoop_other (m : StrMap String) :
    ∀ (nodes : List XmlNode) (st : Nat × Nat),
      (∀ n ∈ nodes, attrValue (n.attr "name") ∉ depthNames) →
      nodes.foldlM (integratorStep m) st = .ok st
  | [], st, _ => rfl
  | n :: nodes, st, h => by
    rw [List.foldlM_cons, integratorStep_other m st n (h n (List.mem_cons_self _ _))]
    exact integratorLoop_other m nodes st (fun k hk => h k (List.mem_cons_of_mem _ hk))

/-- The type text `ReadIntegrator` switches on is the type string in the words of the
specification. -/
theorem integratorTypeText_eq (m : StrMap String) (node : XmlNode) :
    integratorTypeText m node = typeAfterDefaults m node := by
  unfold integratorTypeText typeAfterDefaults as_string attrValue
  simp only
  generalize (node.attr "type").getD "path" = t
  have hne : t.toList.head? = some '$' → t.isEmpty = false := by
    intro hh
    cases he : t.isEmpty with
    | false => rfl
    | true =>
      have : t = "" := (String.isEmpty_iff t).mp he
      subst this
      cases hh
  cases hl : t.toList with
  | nil => simp [hl]
  | cons c cs =>
    by_cases hc : c = '$'
    · subst hc
      have := hne (by rw [hl]; rfl)
      simp [hl, this]
    · have hh : ¬ (c :: cs).head? = some '$' := by simpa using hc
      simp only [hl] at hne ⊢
      simp only [hh, false_and, and_false, if_false]
      split
      · rename_i heq
        cases heq
        exact absurd rfl hc
      · rfl

/-- What `ReadIntegrator` stores, in terms of its loop and of the type text. -/
theorem ReadIntegrator_fields (lib : Lib F) (node : XmlNode) {s s' : ParserState F}
    (h : ReadIntegrator lib node s = .ok s') :
    ∃ st, (node.childrenNamed "integer").foldlM (integratorStep s.map_default) (kMaxUint, 5) =
        .ok st ∧
      s'.config.integrator =
        { depth_max := st.1, depth_rr := st.2,
          hide_emitters := ReadBoolean node ["hide_emitters", "hideEmitters"] false,
          pdf_rr := ReadFloat lib node ["rr_pdf", "rrPdf"] (95 / 100),
          type := if integratorTypeText s.map_default node = "volpath" then .kVolPath
            else .kPath } := by
  unfold ReadIntegrator at h
  rw [bind_ok_iff] at h
  obtain ⟨⟨a, b⟩, hf, h⟩ := h
  cases h
  exact ⟨(a, b), hf, rfl⟩

end IntegratorLemmas

section ClaimsIntegrator

variable {F : Type} [LinearOrderedField F]

/-- C16. For an integrator node none of whose `integer` children is named `maxDepth`,
`max_depth`, `rrDepth` or `rr_depth` and that has no child named `rr_pdf` / `rrPdf` or
`hide_emitters` / `hideEmitters`, `ReadIntegrator` returns and stores `pdf_rr = 0.95`,
`depth_rr = 5`, `hide_emitters = false` and `depth_max = 2^32 − 1`. -/
theorem C16_integrator_defaults (lib : Lib F) (node : XmlNode) (s : ParserState F)
    (hint : ∀ n ∈ node.childrenNamed "integer", attrValue (n.attr "name") ∉ depthNames)
    (hh : GetChildNodeByName node ["hide_emitters", "hideEmitters"] = none)
    (hp : GetChildNodeByName node ["rr_pdf", "rrPdf"] = none) :
    ∃ s', ReadIntegrator lib node s = .ok s' ∧
      s'.config.integrator.pdf_rr = 95 / 100 ∧ s'.config.integrator.depth_rr = 5 ∧
      s'.config.integrator.hide_emitters = false ∧
      s'.config.integrator.depth_max = 2 ^ 32 - 1 := by
  have hb : ReadBoolean node ["hide_emitters", "hideEmitters"] false = false := by
    unfold ReadBoolean childByName
    rw [hh]
    rfl
  have hf : ReadFloat lib node ["rr_pdf", "rrPdf"] (95 / 100) = 95 / 100 := by
    unfold ReadFloat childByName
    rw [hp]
    rfl
  have hr : ReadIntegrator lib node s = .ok { s with config := { s.config with integrator :=
      { depth_max := kMaxUint, depth_rr := 5
        hide_emitters := ReadBoolean node ["hide_emitters", "hideEmitters"] false
        pdf_rr := ReadFloat lib node ["rr_pdf", "rrPdf"] (95 / 100)
        type := if integratorTypeText s.map_default node = "volpath" then .kVolPath
          else .kPath } } } := by
    unfold ReadIntegrator
    rw [integratorLoop_other _ _ _ hint]
    rfl
  exact ⟨_, hr, hf, rfl, hb, rfl⟩

/-- C16 (witness). The integrator `integratorBare`, which gives nothing but its type. -/
theorem C16_integrator_defaults_witness :
    (∀ n ∈ integratorBare.childrenNamed "integer", attrValue (n.attr "name") ∉ depthNames) ∧
    GetChildNodeByName integratorBare ["hide_emitters", "hideEmitters"] = none ∧
    GetChildNodeByName integratorBare ["rr_pdf", "rrPdf"] = none ∧
    ∃ s', ReadIntegrator (ratLib .null) integratorBare initialState = .ok s' ∧
      s'.config.integrator.pdf_rr = 95 / 100 ∧ s'.config.integrator.depth_rr = 5 ∧
      s'.config.integrator.hide_emitters = false ∧
      s'.config.integrator.depth_max = 2 ^ 32 - 1 :=
  ⟨(fun _ hn => nomatch hn), rfl, rfl,
    C16_integrator_defaults (ratLib .null) integratorBare initialState
      (fun _ hn => nomatch hn) rfl rfl⟩

/-- C17. When `ReadIntegrator` returns, the kind it stored is VolPath if and only if the type
string of the integrator node, after the replacement of a `$name` by the value of its `default`
element when there is one, is exactly `volpath`; for every other string, and for an absent type,
it is Path. -/
theorem C17_integrator_kind (lib : Lib F) (node : XmlNode) (s s' : ParserState F)
    (h : ReadIntegrator lib node s = .ok s') :
    (s'.config.integrator.type = .kVolPath ↔ typeAfterDefaults s.map_default node = "volpath") ∧
    (typeAfterDefaults s.map_default node ≠ "volpath" → s'.config.integrator.type = .kPath) ∧
    (node.attr "type" = none → s'.config.integrator.type = .kPath) := by
  obtain ⟨st, _, hi⟩ := ReadIntegrator_fields lib node h
  rw [integratorTypeText_eq] at hi
  rw [hi]
  simp only
  refine ⟨?_, ?_, ?_⟩
  · constructor
    · intro hv
      by_contra hne
      rw [if_neg hne] at hv
      cases hv
    · intro hv
      rw [if_pos hv]
  · intro hne
    rw [if_neg hne]
  · intro hnone
    have : typeAfterDefaults s.map_default node = "path" := by
      unfold typeAfterDefaults
      rw [hnone]
      rfl
    rw [this]
    rfl

/-- C17 (witness). With `$integrator` bound to `volpath` the integrator `integratorByDefault` is
stored as VolPath; without that binding it is stored as Path. -/
theorem C17_integrator_kind_witness :
    ((ReadIntegrator (ratLib .null) integratorByDefault
        { (initialState : ParserState ℚ) with map_default := [("$integrator", "volpath")] }
      ).toOption.map (fun s => s.config.integrator.type) = some .kVolPath ∧
     (ReadIntegrator (ratLib .null) integratorByDefault initialState).toOption.map
        (fun s => s.config.integrator.type) = some .kPath) ∧
    ∃ s', ReadIntegrator (ratLib .null) integratorByDefault
        { (initialState : ParserState ℚ) with map_default := [("$integrator", "volpath")] } =
        .ok s' ∧
      ((s'.config.integrator.type = .kVolPath ↔
        typeAfterDefaults [("$integrator", "volpath")] integratorByDefault = "volpath") ∧
      (typeAfterDefaults [("$integrator", "volpath")] integratorByDefault ≠ "volpath" →
        s'.config.integrator.type = .kPath) ∧
      (integratorByDefault.attr "type" = none → s'.config.integrator.type = .kPath)) :=
  ⟨⟨by decide!, by decide!⟩, _, rfl,
    C17_integrator_kind (ratLib .null) integratorByDefault
      { (initialState : ParserState ℚ) with map_default := [("$integrator", "volpath")] } _ rfl⟩

end ClaimsIntegrator

section ClaimsSun

variable {F : Type} [LinearOrderedField F]

/-- The `sun` block appends one Sun record, whose direction is the negated sun direction. -/
theorem emitterSun_emitters (lib : Lib F) (node : XmlNode) (d : Vec3 F) (t : F) (w h : Int)
    (s : ParserState F) :
    ∃ rad c tex, (emitterSun lib node d t w h s).config.emitters =
      s.config.emitters ++ [.sun (Vec3.neg d) rad c tex] := by
  unfold emitterSun
  simp only
  exact ⟨_, _, _, rfl⟩

/-- The `sky` block appends one record. -/
theorem emitterSky_emitters (lib : Lib F) (node : XmlNode) (d : Vec3 F) (t : F) (w h : Int)
    (s : ParserState F) :
    ∃ e, (emitterSky lib node d t w h s).config.emitters = s.config.emitters ++ [e] := by
  unfold emitterSky
  exact ⟨_, rfl⟩

/-- C18 (counterexample). A scene with a sun emitter whose `sunDirection` is (0, 1, 0) loads, and
the direction stored in the Sun record is (0, −1, 0), not (0, 1, 0). -/
theorem C18_sun_direction_counterexample :
    readSunDirection (ratLib sceneSunUp) emitterSunUp = ⟨0, 1, 0⟩ ∧
    ∃ cfg, LoadConfig (ratLib sceneSunUp) "scene.xml" initialState = .ok cfg ∧
      cfg.emitters.map EmitterInfo.sunDirection? = [some ⟨0, -1, 0⟩] ∧
      cfg.emitters.map EmitterInfo.sunDirection? ≠ [some ⟨0, 1, 0⟩] := by
  refine ⟨by decide!, ?_⟩
  obtain ⟨cfg, h, hl⟩ := ok_of_toOption_map
    (x := LoadConfig (ratLib sceneSunUp) "scene.xml" initialState)
    (f := fun c => c.emitters.map EmitterInfo.sunDirection?)
    (b := [some ⟨0, -1, 0⟩]) (by decide!)
  refine ⟨cfg, h, hl, ?_⟩
  rw [hl]
  decide

/-- C18 (amended). For a sun or sunsky emitter with an explicit `sunDirection` d, `ReadEmitter`
returns and the Sun record it appends holds `direction = −d`. -/
theorem C18_sun_direction_negated (lib : Lib F) (node dn : XmlNode) (s : ParserState F)
    (hty : attrValue (node.attr "type") = "sun" ∨ attrValue (node.attr "type") = "sunsky")
    (hd : GetChildNodeByName node ["sunDirection"] = some dn) :
    ∃ s' radiance cos_cutoff id_texture rest, ReadEmitter lib node s = .ok s' ∧
      s'.config.emitters = s.config.emitters ++
        EmitterInfo.sun (Vec3.neg ⟨as_float lib (dn.attr "x") 0, as_float lib (dn.attr "y") 0,
          as_float lib (dn.attr "z") 0⟩) radiance cos_cutoff id_texture :: rest := by
  have hdir : readSunDirection lib node =
      ⟨as_float lib (dn.attr "x") 0, as_float lib (dn.attr "y") 0,
        as_float lib (dn.attr "z") 0⟩ := by
    unfold readSunDirection
    rw [hd]
  rw [← hdir]
  rcases hty with hty | hty
  · have hre : ReadEmitter lib node s = .ok (emitterSun lib node (readSunDirection lib node)
        (readTurbidity lib node) (ReadInt lib node ["resolution"] 512)
        (Int.tdiv (ReadInt lib node ["resolution"] 512) 2) s) := by
      unfold ReadEmitter
      simp only [hty]
      simp only [show ¬ ("sun" = "point") by decide, show ¬ ("sun" = "spot") by decide,
        show ¬ ("sun" = "directional") by decide, show ¬ ("sun" = "sky") by decide,
        show ¬ ("sun" = "sunsky") by decide, if_false, true_or, or_false, or_self, if_true]
    obtain ⟨rad, c, tex, he⟩ := emitterSun_emitters lib node (readSunDirection lib node)
      (readTurbidity lib node) (ReadInt lib node ["resolution"] 512)
      (Int.tdiv (ReadInt lib node ["resolution"] 512) 2) s
    exact ⟨_, rad, c, tex, [], hre, he⟩
  · have hre : ReadEmitter lib node s = .ok (emitterSky lib node (readSunDirection lib node)
        (readTurbidity lib node) (ReadInt lib node ["resolution"] 512)
        (Int.tdiv (ReadInt lib node ["resolution"] 512) 2)
        (emitterSun lib node (readSunDirection lib node)
          (readTurbidity lib node) (ReadInt lib node ["resolution"] 512)
          (Int.tdiv (ReadInt lib node ["resolution"] 512) 2) s)) := by
      unfold ReadEmitter
      simp only [hty]
      simp only [show ¬ ("sunsky" = "point") by decide, show ¬ ("sunsky" = "spot") by decide,
        show ¬ ("sunsky" = "directional") by decide, show ¬ ("sunsky" = "sky") by decide,
        show ¬ ("sunsky" = "sun") by decide, if_false, or_true, or_false, or_self, if_true]
    obtain ⟨rad, c, tex, he⟩ := emitterSun_emitters lib node (readSunDirection lib node)
      (readTurbidity lib node) (ReadInt lib node ["resolution"] 512)
      (Int.tdiv (ReadInt lib node ["resolution"] 512) 2) s
    obtain ⟨e, hk⟩ := emitterSky_emitters lib node (readSunDirection lib node)
      (readTurbidity lib node) (ReadInt lib node ["resolution"] 512)
      (Int.tdiv (ReadInt lib node ["resolution"] 512) 2)
      (emitterSun lib node (readSunDirection lib node)
          (readTurbidity lib node) (ReadInt lib node ["resolution"] 512)
          (Int.tdiv (ReadInt lib node ["resolution"] 512) 2) s)
    refine ⟨_, rad, c, tex, [e], hre, ?_⟩
    rw [hk, he, List.append_assoc]
    rfl

/-- C18 (witness). The amended statement at the sun `emitterSunUp` in the initial state. -/
theorem C18_sun_direction_negated_witness :
    (attrValue (emitterSunUp.attr "type") = "sun" ∨
      attrValue (emitterSunUp.attr "type") = "sunsky") ∧
    ∃ s' radiance cos_cutoff id_texture rest,
      ReadEmitter (ratLib sceneSunUp) emitterSunUp initialState = .ok s' ∧
      s'.config.emitters = (initialState : ParserState ℚ).config.emitters ++
        EmitterInfo.sun (Vec3.neg
          ⟨as_float (ratLib sceneSunUp)
              ((XmlNode.elem "vector"
                [⟨"name", "sunDirection"⟩, ⟨"x", "0"⟩, ⟨"y", "1"⟩, ⟨"z", "0"⟩] []).attr "x") 0,
            as_float (ratLib sceneSunUp)
              ((XmlNode.elem "vector"
                [⟨"name", "sunDirection"⟩, ⟨"x", "0"⟩, ⟨"y", "1"⟩, ⟨"z", "0"⟩] []).attr "y") 0,
            as_float (ratLib sceneSunUp)
              ((XmlNode.elem "vector"
                [⟨"name", "sunDirection"⟩, ⟨"x", "0"⟩, ⟨"y", "1"⟩, ⟨"z", "0"⟩] []).attr "z") 0⟩)
          radiance cos_cutoff id_texture :: rest :=
  ⟨Or.inl rfl,
    C18_sun_direction_negated (ratLib sceneSunUp) emitterSunUp
      (.elem "vector" [⟨"name", "sunDirection"⟩, ⟨"x", "0"⟩, ⟨"y", "1"⟩, ⟨"z", "0"⟩] [])
      initialState (Or.inl rfl) rfl⟩

end ClaimsSun

section BsdfExitLemmas

variable {F : Type} [LinearOrderedField F]

/-- Texture readers append no BSDF record, whether they all return or one of them throws. -/
theorem afterTextures_bsdfs (lib : Lib F) (node : XmlNode) :
    ∀ (l : List (List String × F)) (s : ParserState F),
      (afterTextures lib node l s).config.bsdfs = s.config.bsdfs
  | [], s => rfl
  | (names, d) :: rest, s => by
    unfold afterTextures
    split
    · rfl
    · rename_i i s1 h
      rw [afterTextures_bsdfs lib node rest s1,
        texExt_bsdfs (ReadTextureByName_ext lib _ _ _ h).1]

theorem afterTextures_cons_ok (lib : Lib F) (node : XmlNode) (names : List String) (d : F)
    (rest : List (List String × F)) {s s1 : ParserState F} {i : Nat}
    (h : ReadTextureByName lib node names d s = .ok (i, s1)) :
    afterTextures lib node ((names, d) :: rest) s = afterTextures lib node rest s1 := by
  rw [afterTextures]
  simp only [h]

/-- Where the roughness block returns, its texture readers have run to the state it returns. -/
theorem roughnessTextures_ok (lib : Lib F) (node : XmlNode) (rough : Bool)
    (rest : List (List String × F)) {s s1 : ParserState F} {uv : Nat × Nat}
    (h : readRoughnessUV lib node rough s = .ok (uv, s1)) :
    afterTextures lib node (roughnessTextures node rough ++ rest) s =
      afterTextures lib node rest s1 := by
  unfold readRoughnessUV at h
  unfold roughnessTextures
  split at h
  · rename_i hr
    split at h
    · rename_i ha
      rw [bind_ok_iff] at h
      obtain ⟨⟨a, s2⟩, h1, h⟩ := h
      cases h
      simp only [hr, ha, if_true, List.singleton_append]
      exact afterTextures_cons_ok lib node _ _ _ h1
    · rename_i ha
      rw [bind_ok_iff] at h
      obtain ⟨⟨a, s2⟩, h1, h⟩ := h
      rw [bind_ok_iff] at h
      obtain ⟨⟨b, s3⟩, h2, h⟩ := h
      cases h
      simp only [hr, ha, if_true, if_false, Bool.false_eq_true, List.cons_append,
        List.nil_append]
      rw [afterTextures_cons_ok lib node _ _ _ h1, afterTextures_cons_ok lib node _ _ _ h2]
  · rename_i hr
    rw [bind_ok_iff] at h
    obtain ⟨⟨a, s2⟩, h1, h⟩ := h
    cases h
    simp only [hr, if_false, Bool.false_eq_true, List.singleton_append]
    exact afterTextures_cons_ok lib node _ _ _ h1

/-- Where the second switch of `ReadBsdf` returns, the texture readers listed for it have run,
in that order, to the state it returns. -/
theorem bsdfVariant_ok_globals (lib : Lib F) (node : XmlNode) (type : String)
    {s s' : ParserState F} {v : BsdfType × Bool × BsdfData F}
    (h : bsdfVariant lib node type s = .ok (v, s')) :
    ∃ l, bsdfVariantTextures lib node type = some l ∧ afterTextures lib node l s = s' := by
  unfold bsdfVariant at h
  unfold bsdfVariantTextures
  split at h
  · rename_i c1
    rw [bind_ok_iff] at h
    obtain ⟨⟨a, s1⟩, h1, h⟩ := h
    cases h
    rw [if_pos c1]
    exact ⟨_, rfl, by rw [afterTextures_cons_ok lib node _ _ _ h1]; rfl⟩
  · rename_i c1
    rw [if_neg c1]
    split at h
    · rename_i c2
      rw [bind_ok_iff] at h
      obtain ⟨⟨a, s1⟩, h1, h⟩ := h
      rw [bind_ok_iff] at h
      obtain ⟨⟨b, s2⟩, h2, h⟩ := h
      cases h
      rw [if_pos c2]
      refine ⟨_, rfl, ?_⟩
      rw [afterTextures_cons_ok lib node _ _ _ h1, afterTextures_cons_ok lib node _ _ _ h2]
      rfl
    · rename_i c2
      rw [if_neg c2]
      split at h
      · rename_i c3
        rw [bind_ok_iff] at h
        obtain ⟨a, ha, h⟩ := h
        rw [bind_ok_iff] at h
        obtain ⟨b, hb, h⟩ := h
        rw [bind_ok_iff] at h
        obtain ⟨⟨⟨u, w⟩, s1⟩, h1, h⟩ := h
        rw [bind_ok_iff] at h
        obtain ⟨⟨r, s2⟩, h2, h⟩ := h
        rw [bind_ok_iff] at h
        obtain ⟨⟨t, s3⟩, h3, h⟩ := h
        cases h
        rw [if_pos c3]
        simp only [ha, hb]
        refine ⟨_, rfl, ?_⟩
        rw [roughnessTextures_ok lib node _ _ h1, afterTextures_cons_ok lib node _ _ _ h2,
          afterTextures_cons_ok lib node _ _ _ h3]
        rfl
      · rename_i c3
        rw [if_neg c3]
        split at h
        · rename_i c4
          rw [bind_ok_iff] at h
          obtain ⟨⟨⟨u, w⟩, s1⟩, h1, h⟩ := h
          rw [bind_ok_iff] at h
          obtain ⟨⟨r, s2⟩, h2, h⟩ := h
          rw [bind_ok_iff] at h
          obtain ⟨⟨eta, k⟩, _, h⟩ := h
          cases h
          rw [if_pos c4]
          refine ⟨_, rfl, ?_⟩
          rw [roughnessTextures_ok lib node _ _ h1, afterTextures_cons_ok lib node _ _ _ h2]
          rfl
        · rename_i c4
          rw [if_neg c4]
          split at h
          · rename_i c5
            rw [bind_ok_iff] at h
            obtain ⟨a, ha, h⟩ := h
            rw [bind_ok_iff] at h
            obtain ⟨b, hb, h⟩ := h
            rw [bind_ok_iff] at h
            obtain ⟨⟨r, s1⟩, h1, h⟩ := h
            rw [bind_ok_iff] at h
            obtain ⟨⟨dr, s2⟩, h2, h⟩ := h
            rw [bind_ok_iff] at h
            obtain ⟨⟨sr, s3⟩, h3, h⟩ := h
            cases h
            rw [if_pos c5]
            simp only [ha, hb]
            refine ⟨_, rfl, ?_⟩
            have h1' : afterTextures lib node
                ((if type = "roughplastic" then ((["alpha"], 1 / 10) : List String × F)
                  else ([], 1 / 1000)) ::
                  [(["diffuseReflectance", "diffuse_reflectance"], 1),
                   (["specularReflectance", "specular_reflectance"], 1)]) s =
                afterTextures lib node
                  [(["diffuseReflectance", "diffuse_reflectance"], 1),
                   (["specularReflectance", "specular_reflectance"], 1)] s1 := by
              split at h1
              · rename_i hp
                rw [if_pos hp]
                exact afterTextures_cons_ok lib node _ _ _ h1
              · rename_i hp
                rw [if_neg hp]
                exact afterTextures_cons_ok lib node _ _ _ h1
            rw [h1', afterTextures_cons_ok lib node _ _ _ h2,
              afterTextures_cons_ok lib node _ _ _ h3]
            rfl
          · rename_i c5
            rw [bind_ok_iff] at h
            obtain ⟨⟨a, s1⟩, h1, h⟩ := h
            cases h
            rw [if_neg c5]
            refine ⟨_, rfl, ?_⟩
            rw [afterTextures_cons_ok lib node _ _ _ h1]
            rfl

theorem ReadBsdfLeafGlobals_ok (lib : Lib F) (node : XmlNode) (id type : String) (o b : Nat)
    (t : Bool) {s s' : ParserState F} {i : Nat}
    (h : ReadBsdfLeaf lib node id type o b t s = .ok (i, s')) :
    ReadBsdfLeafGlobals lib node id type o b t s = s' := by
  unfold ReadBsdfLeafGlobals
  simp only [h]

theorem ReadBsdfLeafGlobals_error (lib : Lib F) (node : XmlNode) (id type : String) (o b : Nat)
    (t : Bool) {s : ParserState F} {e : Err}
    (h : ReadBsdfLeaf lib node id type o b t s = .error e) :
    (ReadBsdfLeafGlobals lib node id type o b t s).config.bsdfs = s.config.bsdfs := by
  unfold ReadBsdfLeafGlobals
  simp only [h]
  split
  · rfl
  · exact afterTextures_bsdfs lib node _ s

/-- When `ReadBsdf` returns, the globals it leaves are the state of its result. -/
theorem ReadBsdfAuxGlobals_ok (lib : Lib F) (fuel : Nat) :
    ∀ (node : XmlNode) (id : String) (o b : Nat) (t : Bool) (s s' : ParserState F) (i : Nat),
      ReadBsdfAux lib fuel node id o b t s = .ok (i, s') →
      ReadBsdfAuxGlobals lib fuel node id o b t s = s' := by
  induction fuel with
  | zero =>
    intro node id o b t s s' i h
    unfold ReadBsdfAux at h
    unfold ReadBsdfAuxGlobals
    simp only at h ⊢
    split at h
    · cases h
    · rename_i c1
      split at h
      · cases h
      · rename_i c2
        split at h
        · cases h
        · rename_i c3
          split at h
          · cases h
          · rename_i c4
            rw [if_neg c1, if_neg c2, if_neg c3, if_neg c4]
            exact ReadBsdfLeafGlobals_ok lib _ _ _ _ _ _ h
  | succ n ih =>
    intro node id o b t s s' i h
    unfold ReadBsdfAux at h
    unfold ReadBsdfAuxGlobals
    simp only at h ⊢
    split at h
    · rename_i c1
      rw [if_pos c1]
      split at h
      · cases h
      · exact ih _ _ _ _ _ _ _ _ h
    · rename_i c1
      rw [if_neg c1]
      split at h
      · rename_i c2
        rw [if_pos c2]
        split at h
        · cases h
        · exact ih _ _ _ _ _ _ _ _ h
      · rename_i c2
        rw [if_neg c2]
        split at h
        · rename_i c3
          rw [if_pos c3]
          exact ih _ _ _ _ _ _ _ _ h
        · rename_i c3
          rw [if_neg c3]
          split at h
          · cases h
          · rename_i c4
            rw [if_neg c4]
            exact ReadBsdfLeafGlobals_ok lib _ _ _ _ _ _ h

/-- When `ReadBsdf` throws, the globals it leaves hold the BSDF records it found: a throw comes
before the record is appended. -/
theorem ReadBsdfAuxGlobals_error (lib : Lib F) (fuel : Nat) :
    ∀ (node : XmlNode) (id : String) (o b : Nat) (t : Bool) (s : ParserState F) (e : Err),
      ReadBsdfAux lib fuel node id o b t s = .error e →
      (ReadBsdfAuxGlobals lib fuel node id o b t s).config.bsdfs = s.config.bsdfs := by
  induction fuel with
  | zero =>
    intro node id o b t s e h
    unfold ReadBsdfAux at h
    unfold ReadBsdfAuxGlobals
    simp only at h ⊢
    split at h
    · rename_i c1
      rw [if_pos c1]
    · rename_i c1
      rw [if_neg c1]
      split at h
      · rename_i c2
        rw [if_pos c2]
      · rename_i c2
        rw [if_neg c2]
        split at h
        · rename_i c3
          rw [if_pos c3]
        · rename_i c3
          rw [if_neg c3]
          split at h
          · rename_i c4
            rw [if_pos c4]
          · rename_i c4
            rw [if_neg c4]
            exact ReadBsdfLeafGlobals_error lib _ _ _ _ _ _ h
  | succ n ih =>
    intro node id o b t s e h
    unfold ReadBsdfAux at h
    unfold ReadBsdfAuxGlobals
    simp only at h ⊢
    split at h
    · rename_i c1
      rw [if_pos c1]
      split at h
      · rfl
      · rename_i idb s1 ht
        rw [ih _ _ _ _ _ _ _ h, texExt_bsdfs (ReadTexture_ext lib _ _ _ ht).1]
    · rename_i c1
      rw [if_neg c1]
      split at h
      · rename_i c2
        rw [if_pos c2]
        split at h
        · rfl
        · rename_i ido s1 ht
          rw [ih _ _ _ _ _ _ _ h, texExt_bsdfs (ReadTextureByName_ext lib _ _ _ ht).1]
      · rename_i c2
        rw [if_neg c2]
        split at h
        · rename_i c3
          rw [if_pos c3]
          exact ih _ _ _ _ _ _ _ h
        · rename_i c3
          rw [if_neg c3]
          split at h
          · rename_i c4
            rw [if_pos c4]
          · rename_i c4
            rw [if_neg c4]
            exact ReadBsdfLeafGlobals_error lib _ _ _ _ _ _ h

end BsdfExitLemmas

section WrapperLemmas

variable {F : Type} [LinearOrderedField F]

theorem unsupported_not_wrapper {type : String} (h : type ∈ unsupportedBsdfTypes) :
    type ≠ "bumpmap" ∧ type ≠ "mask" ∧ type ≠ "twosided" := by
  refine ⟨?_, ?_, ?_⟩ <;> (intro he; rw [he] at h; revert h; decide)

theorem not_wrapper_ne {type : String} (h : type ∉ wrapperBsdfTypes) :
    type ≠ "bumpmap" ∧ type ≠ "mask" ∧ type ≠ "twosided" := by
  simp only [wrapperBsdfTypes, List.mem_cons, List.mem_singleton, List.mem_nil_iff, or_false,
    not_or] at h
  exact h

theorem ne_not_wrapper {type : String} (h1 : type ≠ "bumpmap") (h2 : type ≠ "mask")
    (h3 : type ≠ "twosided") : type ∉ wrapperBsdfTypes := by
  simp only [wrapperBsdfTypes, List.mem_cons, List.mem_singleton, List.mem_nil_iff, or_false,
    not_or]
  exact ⟨h1, h2, h3⟩

/-- The first switch of `ReadBsdf` refuses a node of one of the ten types before anything else
happens, whatever the recursion budget. -/
theorem ReadBsdfAux_unsupported (lib : Lib F) (fuel : Nat) (node : XmlNode) (id : String)
    (o b : Nat) (t : Bool) (s : ParserState F)
    (h : attrValue (node.attr "type") ∈ unsupportedBsdfTypes) :
    ReadBsdfAux lib fuel node id o b t s =
      .error (.MyException
        ("[error] not support bsdf type '" ++ attrValue (node.attr "type") ++ "'.\n")) := by
  obtain ⟨h1, h2, h3⟩ := unsupported_not_wrapper h
  cases fuel <;> (unfold ReadBsdfAux; simp only [h1, h2, h3, h, if_false, if_true])

/-- The second switch of `ReadBsdf` on a type it has no case for: one constant texture of value
0.5 and the Diffuse variant that refers to it. -/
theorem bsdfVariant_default (lib : Lib F) (node : XmlNode) (type : String) (s : ParserState F)
    (h : type ∉ variantBsdfTypes) :
    bsdfVariant lib node type s =
      .ok ((.kDiffuse, false, .diffuse s.config.textures.length),
        addTexture s ("texture_" ++ toString s.config.textures.length) s.config.textures.length
          (.constant (Vec3.splat (1 / 2)))) := by
  simp only [variantBsdfTypes, List.mem_cons, List.mem_singleton, List.mem_nil_iff, or_false,
    not_or] at h
  obtain ⟨h1, h2, h3, h4, h5, h6, h7, h8, h9⟩ := h
  unfold bsdfVariant
  simp only [h1, h2, h3, h4, h5, h6, h7, h8, h9, or_self, if_false]
  rfl

/-- The flag of the second switch of `ReadBsdf` is set exactly in the dielectric cases. -/
theorem bsdfVariant_twosided (lib : Lib F) (node : XmlNode) (type : String)
    {s s' : ParserState F} {ty : BsdfType} {f : Bool} {data : BsdfData F}
    (h : bsdfVariant lib node type s = .ok ((ty, f, data), s')) :
    f = decide (type = "thindielectric" ∨ type = "dielectric" ∨ type = "roughdielectric") := by
  unfold bsdfVariant at h
  split at h
  · rename_i c1
    rw [bind_ok_iff] at h
    obtain ⟨⟨a, s1⟩, h1, h⟩ := h
    cases h
    subst c1
    decide
  · split at h
    · rename_i c2
      rw [bind_ok_iff] at h
      obtain ⟨⟨a, s1⟩, h1, h⟩ := h
      rw [bind_ok_iff] at h
      obtain ⟨⟨b, s2⟩, h2, h⟩ := h
      cases h
      subst c2
      decide
    · split at h
      · rename_i c3
        rw [bind_ok_iff] at h
        obtain ⟨a, _, h⟩ := h
        rw [bind_ok_iff] at h
        obtain ⟨b, _, h⟩ := h
        rw [bind_ok_iff] at h
        obtain ⟨⟨⟨u, v⟩, s1⟩, h1, h⟩ := h
        rw [bind_ok_iff] at h
        obtain ⟨⟨r, s2⟩, h2, h⟩ := h
        rw [bind_ok_iff] at h
        obtain ⟨⟨t, s3⟩, h3, h⟩ := h
        cases h
        exact (decide_eq_true c3).symm
      · rename_i c3
        split at h
        · rw [bind_ok_iff] at h
          obtain ⟨⟨⟨u, v⟩, s1⟩, h1, h⟩ := h
          rw [bind_ok_iff] at h
          obtain ⟨⟨r, s2⟩, h2, h⟩ := h
          rw [bind_ok_iff] at h
          obtain ⟨⟨eta, k⟩, _, h⟩ := h
          cases h
          exact (decide_eq_false c3).symm
        · split at h
          · rw [bind_ok_iff] at h
            obtain ⟨a, _, h⟩ := h
            rw [bind_ok_iff] at h
            obtain ⟨b, _, h⟩ := h
            rw [bind_ok_iff] at h
            obtain ⟨⟨r, s1⟩, h1, h⟩ := h
            rw [bind_ok_iff] at h
            obtain ⟨⟨dr, s2⟩, h2, h⟩ := h
            rw [bind_ok_iff] at h
            obtain ⟨⟨sr, s3⟩, h3, h⟩ := h
            cases h
            exact (decide_eq_false c3).symm
          · rw [bind_ok_iff] at h
            obtain ⟨⟨a, s1⟩, h1, h⟩ := h
            cases h
            exact (decide_eq_false c3).symm

/-- What the second part of `ReadBsdf` returns and leaves: the index, the record, the
registration. -/
theorem ReadBsdfLeaf_result (lib : Lib F) (node : XmlNode) (id type : String) (o b : Nat)
    (t : Bool) {s s' : ParserState F} {i : Nat}
    (h : ReadBsdfLeaf lib node id type o b t s = .ok (i, s')) :
    ∃ ty f data s2, bsdfVariant lib node type s = .ok ((ty, f, data), s2) ∧
      i = s.config.bsdfs.length ∧
      s'.config.bsdfs = s.config.bsdfs ++ [⟨ty, t || f, o, b, data⟩] ∧
      s'.map_bsdf = s.map_bsdf.set
        (if id.isEmpty then "bsdf_" ++ toString s.config.bsdfs.length else id)
        s.config.bsdfs.length ∧
      s'.config.textures = s2.config.textures := by
  unfold ReadBsdfLeaf at h
  simp only at h
  split at h
  · cases h
  · rename_i ty f data s2 hv
    cases h
    obtain ⟨e1, _⟩ := bsdfVariant_ext lib _ _ hv
    refine ⟨ty, f, data, s2, hv, rfl, ?_, ?_, rfl⟩
    · simp only [texExt_bsdfs e1]
    · simp only [texExt_map_bsdf e1]

theorem firstNonEmpty_cons_cons (a b : String) (l : List String) :
    firstNonEmpty (a :: b :: l) = firstNonEmpty ((if a.isEmpty then b else a) :: l) := by
  unfold firstNonEmpty
  cases h : a.isEmpty with
  | true =>
    rw [List.find?_cons_of_neg _ (by simp [h])]
    simp
  | false =>
    rw [List.find?_cons_of_pos _ (by simp [h])]
    simp only [Bool.false_eq_true, if_false]
    rw [List.find?_cons_of_pos _ (by simp [h])]

theorem firstNonEmpty_pair (a b : String) :
    firstNonEmpty [a, b] = if a.isEmpty then b else a := by
  unfold firstNonEmpty
  cases h : a.isEmpty with
  | true =>
    rw [List.find?_cons_of_neg _ (by simp [h])]
    cases hb : b.isEmpty with
    | true =>
      rw [List.find?_cons_of_neg _ (by simp [hb])]
      simp only [List.find?_nil, Option.getD_none, if_true]
      exact ((String.isEmpty_iff b).mp hb).symm
    | false =>
      rw [List.find?_cons_of_pos _ (by simp [hb])]
      simp
  | false =>
    rw [List.find?_cons_of_pos _ (by simp [h])]
    simp

theorem wrapperTextures_ext (lib : Lib F) :
    ∀ (ws : List XmlNode) (ob ob' : Nat × Nat) (s s' : ParserState F),
      wrapperTextures lib ws ob s = .ok (ob', s') → TexExt s s'
  | [], ob, ob', s, s', h => by
    unfold wrapperTextures at h
    cases h
    exact texExt_refl s
  | w :: ws, ob, ob', s, s', h => by
    unfold wrapperTextures at h
    split at h
    · split at h
      · cases h
      · rename_i io s1 ht
        exact texExt_trans (ReadTextureByName_ext lib _ _ _ ht).1
          (wrapperTextures_ext lib ws _ _ _ _ h)
    · split at h
      · split at h
        · cases h
        · rename_i ib s1 ht
          exact texExt_trans (ReadTexture_ext lib _ _ _ ht).1
            (wrapperTextures_ext lib ws _ _ _ _ h)
      · exact wrapperTextures_ext lib ws _ _ _ _ h

/-- When `ReadBsdf` returns, it has read the textures of the wrappers from the outermost inward,
and then run its second part on the innermost node, which is no wrapper, with the first
non-empty id, the ids of the innermost `mask` and `bumpmap` textures, and the two-sided flag set
when it was set on entry or a `twosided` wrapper is present. -/
theorem ReadBsdfAux_wrapped (lib : Lib F) (fuel : Nat) :
    ∀ (node : XmlNode) (id : String) (o b : Nat) (t : Bool) (s s' : ParserState F) (i : Nat),
      ReadBsdfAux lib fuel node id o b t s = .ok (i, s') →
      attrValue ((bsdfCore fuel node).attr "type") ∉ wrapperBsdfTypes ∧
      ∃ o' b' s1, wrapperTextures lib (bsdfWrappers fuel node) (o, b) s = .ok ((o', b'), s1) ∧
        ReadBsdfLeaf lib (bsdfCore fuel node)
          (firstNonEmpty (id :: (bsdfWrappers fuel node ++ [bsdfCore fuel node]).map
            (fun n => attrValue (n.attr "id"))))
          (attrValue ((bsdfCore fuel node).attr "type")) o' b'
          (t || (bsdfWrappers fuel node).any
            (fun n => decide (attrValue (n.attr "type") = "twosided"))) s1 = .ok (i, s') := by
  induction fuel with
  | zero =>
    intro node id o b t s s' i h
    unfold ReadBsdfAux at h
    simp only at h
    split at h
    · cases h
    · rename_i c1
      split at h
      · cases h
      · rename_i c2
        split at h
        · cases h
        · rename_i c3
          split at h
          · cases h
          · refine ⟨ne_not_wrapper c1 c2 c3, o, b, s, rfl, ?_⟩
            simp only [bsdfWrappers, bsdfCore, List.nil_append, List.map_cons, List.map_nil,
              List.any_nil, Bool.or_false, firstNonEmpty_pair]
            exact h
  | succ n ih =>
    intro node id o b t s s' i h
    unfold ReadBsdfAux at h
    simp only at h
    split at h
    · rename_i c1
      have hw : attrValue (node.attr "type") ∈ wrapperBsdfTypes := by rw [c1]; decide
      split at h
      · cases h
      · rename_i idb s1 ht
        obtain ⟨hc, o', b', s2, hwt, hl⟩ := ih _ _ _ _ _ _ _ _ h
        have hcore : bsdfCore (n + 1) node = bsdfCore n (node.child "bsdf") := by
          rw [bsdfCore]
          simp only [c1, true_or, if_true]
        have hws : bsdfWrappers (n + 1) node = node :: bsdfWrappers n (node.child "bsdf") := by
          rw [bsdfWrappers]
          simp only [hw, if_true]
        rw [hcore, hws]
        refine ⟨hc, o', b', s2, ?_, ?_⟩
        · rw [wrapperTextures]
          simp only [c1, show ¬ ("bumpmap" = "mask") by decide, if_false, if_true, ht]
          exact hwt
        · simp only [List.cons_append, List.map_cons, firstNonEmpty_cons_cons, List.any_cons,
            c1, show ¬ ("bumpmap" = "twosided") by decide, decide_False, Bool.false_or]
          exact hl
    · rename_i c1
      split at h
      · rename_i c2
        have hw : attrValue (node.attr "type") ∈ wrapperBsdfTypes := by rw [c2]; decide
        split at h
        · cases h
        · rename_i ido s1 ht
          obtain ⟨hc, o', b', s2, hwt, hl⟩ := ih _ _ _ _ _ _ _ _ h
          have hcore : bsdfCore (n + 1) node = bsdfCore n (node.child "bsdf") := by
            rw [bsdfCore]
            simp only [c2, true_or, or_true, if_true]
          have hws : bsdfWrappers (n + 1) node = node :: bsdfWrappers n (node.child "bsdf") := by
            rw [bsdfWrappers]
            simp only [hw, if_true]
          rw [hcore, hws]
          refine ⟨hc, o', b', s2, ?_, ?_⟩
          · rw [wrapperTextures]
            simp only [c2, if_true, ht]
            exact hwt
          · simp only [List.cons_append, List.map_cons, firstNonEmpty_cons_cons, List.any_cons,
              c2, show ¬ ("mask" = "twosided") by decide, decide_False, Bool.false_or]
            exact hl
      · rename_i c2
        split at h
        · rename_i c3
          have hw : attrValue (node.attr "type") ∈ wrapperBsdfTypes := by rw [c3]; decide
          obtain ⟨hc, o', b', s2, hwt, hl⟩ := ih _ _ _ _ _ _ _ _ h
          have hcore : bsdfCore (n + 1) node = bsdfCore n (node.child "bsdf") := by
            rw [bsdfCore]
            simp only [c3, or_true, if_true]
          have hws : bsdfWrappers (n + 1) node = node :: bsdfWrappers n (node.child "bsdf") := by
            rw [bsdfWrappers]
            simp only [hw, if_true]
          rw [hcore, hws]
          refine ⟨hc, o', b', s2, ?_, ?_⟩
          · rw [wrapperTextures]
            simp only [c3, show ¬ ("twosided" = "mask") by decide,
              show ¬ ("twosided" = "bumpmap") by decide, if_false]
            exact hwt
          · simp only [List.cons_append, List.map_cons, firstNonEmpty_cons_cons, List.any_cons,
              c3, decide_True, Bool.true_or, Bool.or_true]
            simpa using hl
        · rename_i c3
          split at h
          · cases h
          · have hnw := ne_not_wrapper c1 c2 c3
            have hcore : bsdfCore (n + 1) node = node := by
              rw [bsdfCore]
              simp only [c1, c2, c3, or_self, if_false]
            have hws : bsdfWrappers (n + 1) node = [] := by
              rw [bsdfWrappers]
              simp only [hnw, if_false]
            rw [hcore, hws]
            refine ⟨hnw, o, b, s, rfl, ?_⟩
            simp only [List.nil_append, List.map_cons, List.map_nil, List.any_nil,
              Bool.or_false, firstNonEmpty_pair]
            exact h

end WrapperLemmas

section ClaimsBsdfSet

variable {F : Type} [LinearOrderedField F]

/-- C12. For a node of type coating, roughcoating, phong, ward, mixturebsdf, blendbsdf,
difftrans, hk, irawan or null, `ReadBsdf` throws and the BSDF sequence it leaves is the one it
found; for a node whose type is no wrapper, none of these ten and none of the nine types the
second switch knows, it returns the previous length of the sequence and appends a Diffuse record
whose reflectance is a constant texture of value 0.5 appended by this call; and whenever
`ReadBsdf` throws, the BSDF sequence it leaves is the one it found. -/
theorem C12_closed_variant_set (lib : Lib F) (node : XmlNode) (id : String) (o b : Nat)
    (t : Bool) (s : ParserState F) :
    (attrValue (node.attr "type") ∈ unsupportedBsdfTypes →
      ReadBsdf lib node id o b t s =
        .error (.MyException
          ("[error] not support bsdf type '" ++ attrValue (node.attr "type") ++ "'.\n")) ∧
      (ReadBsdfGlobals lib node id o b t s).config.bsdfs = s.config.bsdfs) ∧
    (attrValue (node.attr "type") ∉ wrapperBsdfTypes →
      attrValue (node.attr "type") ∉ unsupportedBsdfTypes →
      attrValue (node.attr "type") ∉ variantBsdfTypes →
      ∃ s', ReadBsdf lib node id o b t s = .ok (s.config.bsdfs.length, s') ∧
        s'.config.bsdfs = s.config.bsdfs ++
          [⟨.kDiffuse, t, o, b, .diffuse s.config.textures.length⟩] ∧
        s'.config.textures = s.config.textures ++ [.constant (Vec3.splat (1 / 2))]) ∧
    (∀ e, ReadBsdf lib node id o b t s = .error e →
      (ReadBsdfGlobals lib node id o b t s).config.bsdfs = s.config.bsdfs) := by
  have herr : ∀ e, ReadBsdf lib node id o b t s = .error e →
      (ReadBsdfGlobals lib node id o b t s).config.bsdfs = s.config.bsdfs :=
    fun e he => ReadBsdfAuxGlobals_error lib _ _ _ _ _ _ _ e he
  refine ⟨fun hu => ?_, fun hw hu hv => ?_, herr⟩
  · have h := ReadBsdfAux_unsupported lib node.depth node id o b t s hu
    exact ⟨h, herr _ h⟩
  · obtain ⟨h1, h2, h3⟩ := not_wrapper_ne hw
    have hl : ReadBsdf lib node id o b t s =
        ReadBsdfLeaf lib node (if id.isEmpty then attrValue (node.attr "id") else id)
          (attrValue (node.attr "type")) o b t s :=
      ReadBsdfAux_leaf lib _ node id o b t s h1 h2 h3 hu
    rw [hl]
    unfold ReadBsdfLeaf
    simp only [bsdfVariant_default lib node _ s hv, Bool.or_false]
    exact ⟨_, rfl, rfl, rfl⟩

/-- C12 (witness). A `phong` node is refused and a `velvet` node becomes a Diffuse record over a
new constant texture, both in the initial state. -/
theorem C12_closed_variant_set_witness :
    attrValue (bsdfPhong.attr "type") ∈ unsupportedBsdfTypes ∧
    (attrValue (bsdfVelvet.attr "type") ∉ wrapperBsdfTypes ∧
      attrValue (bsdfVelvet.attr "type") ∉ unsupportedBsdfTypes ∧
      attrValue (bsdfVelvet.attr "type") ∉ variantBsdfTypes) ∧
    (ReadBsdf (ratLib .null) bsdfPhong "" kMaxUint kMaxUint false initialState =
        .error (.MyException
          ("[error] not support bsdf type '" ++ attrValue (bsdfPhong.attr "type") ++ "'.\n")) ∧
      (ReadBsdfGlobals (ratLib .null) bsdfPhong "" kMaxUint kMaxUint false
        initialState).config.bsdfs = (initialState : ParserState ℚ).config.bsdfs) ∧
    ∃ s', ReadBsdf (ratLib .null) bsdfVelvet "" kMaxUint kMaxUint false initialState =
        .ok ((initialState : ParserState ℚ).config.bsdfs.length, s') ∧
      s'.config.bsdfs = (initialState : ParserState ℚ).config.bsdfs ++
        [⟨.kDiffuse, false, kMaxUint, kMaxUint,
          .diffuse (initialState : ParserState ℚ).config.textures.length⟩] ∧
      s'.config.textures = (initialState : ParserState ℚ).config.textures ++
        [.constant (Vec3.splat (1 / 2))] :=
  ⟨by decide, ⟨by decide, by decide, by decide⟩,
    (C12_closed_variant_set (ratLib .null) bsdfPhong "" kMaxUint kMaxUint false
      initialState).1 (by decide),
    (C12_closed_variant_set (ratLib .null) bsdfVelvet "" kMaxUint kMaxUint false
      initialState).2.1 (by decide) (by decide) (by decide)⟩

/-- C13. When `ReadBsdf`, called as `LoadConfig` and `ReadShape` call it, returns on a node
inside any combination of `twosided`, `mask` and `bumpmap` wrappers: the textures of the wrappers
have been read from the outermost inward; exactly one record has been appended, built by the
second switch from the innermost node, which is no wrapper; the index returned is the previous
length of the BSDF sequence; the record is registered under the first non-empty id from the
outermost node inward (under `bsdf_` and the index when there is none); `twosided` holds exactly
when a `twosided` wrapper is present or the innermost type is dielectric, roughdielectric or
thindielectric; `id_opacity` and `id_bump_map` are the ids of the textures of the innermost `mask`
and the innermost `bumpmap`, the sentinel where there is no such wrapper. -/
theorem C13_wrapped_bsdf (lib : Lib F) (node : XmlNode) (s s' : ParserState F) (i : Nat)
    (h : ReadBsdf lib node "" lib.kInvalidId lib.kInvalidId false s = .ok (i, s')) :
    attrValue ((bsdfCore node.depth node).attr "type") ∉ wrapperBsdfTypes ∧
    ∃ o b s1 ty f data s2,
      wrapperTextures lib (bsdfWrappers node.depth node) (lib.kInvalidId, lib.kInvalidId) s =
        .ok ((o, b), s1) ∧
      bsdfVariant lib (bsdfCore node.depth node)
        (attrValue ((bsdfCore node.depth node).attr "type")) s1 = .ok ((ty, f, data), s2) ∧
      i = s.config.bsdfs.length ∧
      s'.config.bsdfs = s.config.bsdfs ++
        [⟨ty,
          (bsdfWrappers node.depth node).any
              (fun n => decide (attrValue (n.attr "type") = "twosided")) ||
            decide (attrValue ((bsdfCore node.depth node).attr "type") = "thindielectric" ∨
              attrValue ((bsdfCore node.depth node).attr "type") = "dielectric" ∨
              attrValue ((bsdfCore node.depth node).attr "type") = "roughdielectric"),
          o, b, data⟩] ∧
      s'.map_bsdf = s.map_bsdf.set
        (if (firstNonEmpty ((bsdfWrappers node.depth node ++ [bsdfCore node.depth node]).map
            (fun n => attrValue (n.attr "id")))).isEmpty
          then "bsdf_" ++ toString i
          else firstNonEmpty ((bsdfWrappers node.depth node ++ [bsdfCore node.depth node]).map
            (fun n => attrValue (n.attr "id")))) i := by
  obtain ⟨hc, o, b, s1, hw, hl⟩ := ReadBsdfAux_wrapped lib _ _ _ _ _ _ _ _ _ h
  obtain ⟨ty, f, data, s2, hv, hi, hb, hm, _⟩ := ReadBsdfLeaf_result lib _ _ _ _ _ _ hl
  have e1 := wrapperTextures_ext lib _ _ _ _ _ hw
  have hf := bsdfVariant_twosided lib _ _ hv
  have hid : firstNonEmpty ("" :: (bsdfWrappers node.depth node ++
      [bsdfCore node.depth node]).map (fun n => attrValue (n.attr "id"))) =
      firstNonEmpty ((bsdfWrappers node.depth node ++ [bsdfCore node.depth node]).map
        (fun n => attrValue (n.attr "id"))) := by
    unfold firstNonEmpty
    rw [List.find?_cons_of_neg _ (by decide)]
  rw [hid] at hm
  refine ⟨hc, o, b, s1, ty, f, data, s2, hw, hv, ?_, ?_, ?_⟩
  · rw [hi, texExt_bsdfs e1]
  · rw [hb, texExt_bsdfs e1, hf]
    simp only [Bool.false_or]
  · rw [hm, texExt_map_bsdf e1, texExt_bsdfs e1, hi, texExt_bsdfs e1]

/-- C13 (witness). The rough conductor `bsdfNested` inside a `mask` with id `inner`, a `bumpmap`
and a `twosided` wrapper with id `outer`, in the initial state: one record, index 0, registered
as `outer`, two-sided, with the bump map texture 0 and the opacity texture 1. -/
theorem C13_wrapped_bsdf_witness :
    (ReadBsdf (ratLib .null) bsdfNested "" (ratLib .null).kInvalidId (ratLib .null).kInvalidId
        false initialState).toOption.map
      (fun p => (p.1, p.2.config.bsdfs.map (fun r => (r.twosided, r.id_opacity, r.id_bump_map)),
        p.2.map_bsdf)) = some (0, [(true, 1, 0)], [("outer", 0)]) ∧
    ∃ i s', ReadBsdf (ratLib .null) bsdfNested "" (ratLib .null).kInvalidId
        (ratLib .null).kInvalidId false initialState = .ok (i, s') ∧
      attrValue ((bsdfCore bsdfNested.depth bsdfNested).attr "type") ∉ wrapperBsdfTypes ∧
      ∃ o b s1 ty f data s2,
        wrapperTextures (ratLib .null) (bsdfWrappers bsdfNested.depth bsdfNested)
          ((ratLib .null).kInvalidId, (ratLib .null).kInvalidId) initialState =
          .ok ((o, b), s1) ∧
        bsdfVariant (ratLib .null) (bsdfCore bsdfNested.depth bsdfNested)
          (attrValue ((bsdfCore bsdfNested.depth bsdfNested).attr "type")) s1 =
          .ok ((ty, f, data), s2) ∧
        i = (initialState : ParserState ℚ).config.bsdfs.length ∧
        s'.config.bsdfs = (initialState : ParserState ℚ).config.bsdfs ++
          [⟨ty,
            (bsdfWrappers bsdfNested.depth bsdfNested).any
                (fun n => decide (attrValue (n.attr "type") = "twosided")) ||
              decide (attrValue ((bsdfCore bsdfNested.depth bsdfNested).attr "type") =
                  "thindielectric" ∨
                attrValue ((bsdfCore bsdfNested.depth bsdfNested).attr "type") = "dielectric" ∨
                attrValue ((bsdfCore bsdfNested.depth bsdfNested).attr "type") =
                  "roughdielectric"),
            o, b, data⟩] ∧
        s'.map_bsdf = (initialState : ParserState ℚ).map_bsdf.set
          (if (firstNonEmpty ((bsdfWrappers bsdfNested.depth bsdfNested ++
              [bsdfCore bsdfNested.depth bsdfNested]).map
              (fun n => attrValue (n.attr "id")))).isEmpty
            then "bsdf_" ++ toString i
            else firstNonEmpty ((bsdfWrappers bsdfNested.depth bsdfNested ++
              [bsdfCore bsdfNested.depth bsdfNested]).map
              (fun n => attrValue (n.attr "id")))) i := by
  have hev : (ReadBsdf (ratLib .null) bsdfNested "" (ratLib .null).kInvalidId
        (ratLib .null).kInvalidId false initialState).toOption.map
      (fun p => (p.1, p.2.config.bsdfs.map (fun r => (r.twosided, r.id_opacity, r.id_bump_map)),
        p.2.map_bsdf)) = some (0, [(true, 1, 0)], [("outer", 0)]) := by decide!
  obtain ⟨⟨i, s'⟩, h, _⟩ := ok_of_toOption_map hev
  exact ⟨hev, i, s', h,
    C13_wrapped_bsdf (ratLib .null) bsdfNested initialState s' i h⟩

end ClaimsBsdfSet

section ImageLemmas

variable {F : Type} [LinearOrderedField F]

/-- The EXR case of `Read` with a gamma other than zero and no resize: the gamma loop runs over
`width * height * channel` components for the value `channel` has on entry, and only then is
`*channel` set to 4. -/
theorem Read_exr (lib : Lib F) (io : ImageLib F) (filename : String) (gamma : F) (channel : Int)
    (data : List F) (width height : Int)
    (hs : lib.GetSuffix filename = "exr") (hg : gamma ≠ 0)
    (hl : io.LoadEXR filename = some (data, width, height)) :
    image_io.Read lib io filename gamma none channel =
      .ok (image_io.mapFirst (width * height * channel) (fun c => io.pow c gamma) data,
        width, height, 4) := by
  unfold image_io.Read
  simp only [hs]
  rw [if_neg (by decide)]
  unfold image_io.readSwitch
  simp only [true_or, if_true, hl, hg, ne_eq, not_false_eq_true]

/-- The loop over the first `n` components leaves the components from `n` on as they are. -/
theorem mapFirst_getElem_of_le (n : Nat) (f : F → F) (data : List F) (i : Nat) (hi : n ≤ i) :
    (image_io.mapFirst (n : Int) f data)[i]? = data[i]? := by
  unfold image_io.mapFirst
  simp only [Int.toNat_ofNat]
  by_cases hn : n ≤ data.length
  · rw [List.getElem?_append_right (by simp [hn, hi])]
    simp only [List.length_map, List.length_take, min_eq_left hn, List.getElem?_drop]
    congr 1
    omega
  · have hn' : data.length ≤ n := by omega
    rw [List.take_of_length_le hn', List.drop_of_length_le hn', List.append_nil]
    rw [List.getElem?_eq_none (by simp; omega), List.getElem?_eq_none (by omega)]

end ImageLemmas

section ClaimsImage

/-- C19 (the code at the failing input). A bitmap texture read from a one-pixel EXR file with
the four components 1/2 and gamma 2: `Read` is entered with `*channel = 1`, so its gamma loop
runs over `1·1·1` components, and the texture holds 1/4, 1/2, 1/2, 1/2: three of the four
components were not raised to the power gamma. -/
theorem C19_exr_gamma_first_component_only :
    image_io.Read { ratLib .null with GetSuffix := suffixOf } sampleImageLib "tex.exr" 2 none 1 =
      .ok ([1 / 4, 1 / 2, 1 / 2, 1 / 2], 1, 1, 4) ∧
    (ReadTexture imageLib textureExr 1 1 initialState).toOption.map
      (fun p => p.2.config.textures.map TextureInfo.bitmapData?) =
      some [some [1 / 4, 1 / 2, 1 / 2, 1 / 2]] ∧
    [sampleImageLib.pow (1 / 2) 2, sampleImageLib.pow (1 / 2) 2, sampleImageLib.pow (1 / 2) 2,
      sampleImageLib.pow (1 / 2) 2] = [1 / 4, 1 / 4, 1 / 4, 1 / 4] := by
  refine ⟨?_, by decide!, by decide!⟩
  rw [Read_exr _ sampleImageLib "tex.exr" 2 1 [1 / 2, 1 / 2, 1 / 2, 1 / 2] 1 1 (by decide!)
    (by norm_num) rfl]
  have hm : image_io.mapFirst (1 * 1 * 1) (fun c => sampleImageLib.pow c 2)
      [1 / 2, 1 / 2, 1 / 2, 1 / 2] = [1 / 4, 1 / 2, 1 / 2, 1 / 2] := by decide!
  rw [hm]

end ClaimsImage

section LoaderLemmas

variable {F : Type} [LinearOrderedField F]

/-- With face normals requested, the loop over the meshes of a node appends no normal. -/
theorem meshStep_fold_normals (scene : AiScene F) (offset : Nat) :
    ∀ (meshes : List Nat) (info : MeshesInfo F),
      (meshes.foldl (model_loader.meshStep scene true offset) info).normals = info.normals
  | [], _ => rfl
  | m :: ms, info => by
    rw [List.foldl_cons, meshStep_fold_normals scene offset ms]
    simp [model_loader.meshStep]

mutual
/-- With face normals requested, the mesh `ProcessAssimpNode` returns has no vertex normals. -/
theorem ProcessAssimpNode_face_normals (scene : AiScene F) :
    ∀ (node : AiNode) (offset : Nat),
      (model_loader.ProcessAssimpNode scene node true offset).normals = []
  | .mk meshes children, offset => by
    rw [model_loader.ProcessAssimpNode]
    exact processChildren_face_normals scene children _
      (by rw [meshStep_fold_normals]; rfl)
/-- With face normals requested, the loop over the children of a node appends no normal. -/
theorem processChildren_face_normals (scene : AiScene F) :
    ∀ (children : List AiNode) (info : MeshesInfo F), info.normals = [] →
      (model_loader.processChildren scene children true info).normals = []
  | [], info, h => by
    rw [model_loader.processChildren]
    exact h
  | child :: rest, info, h => by
    rw [model_loader.processChildren]
    exact processChildren_face_normals scene rest _
      (by simp [model_loader.appendMeshes, h, ProcessAssimpNode_face_normals scene child])
end

/-- The loader that goes through assimp returns no vertex normals when face normals are
requested. -/
theorem LoadFile_face_normals (ai : AssimpLib F) (filename : String) (flip : Bool)
    (m : MeshesInfo F) (h : model_loader.LoadFile ai filename flip true = .ok m) :
    m.normals = [] := by
  unfold model_loader.LoadFile at h
  simp only at h
  split at h
  · cases h
  · split at h
    · cases h
    · split at h
      · cases h
      · cases h
        exact ProcessAssimpNode_face_normals _ _ _

end LoaderLemmas

section ClaimsLoader

/-- C20 (the code at the failing input). A serialized file of version 3 whose flags announce
vertex normals, loaded with `face_normals = true`: the loader of serialized meshes returns the
normal stored in the file, so `normals` is not empty; the loader that goes through assimp, with
`face_normals = true`, returns none. -/
theorem C20_serialized_loader_keeps_normals :
    (model_loader.Load (sampleLoaderLib fileWithNormals) 64 "mesh.serialized" 0 false
        true).toOption.map (fun m => (m.positions, m.normals)) =
      some ([(⟨1, 2, 3⟩ : Vec3 ℚ)], [(⟨0, 0, 1⟩ : Vec3 ℚ)]) ∧
    (model_loader.LoadFile sampleAssimp "mesh.obj" false true).toOption.map
        (fun m => (m.positions.length, m.normals)) = some (6, []) ∧
    (model_loader.LoadFile sampleAssimp "mesh.obj" false false).toOption.map
        (fun m => m.normals.length) = some 6 :=
  ⟨by decide!, by decide!, by decide!⟩

end ClaimsLoader

section LoaderFuel

variable {F : Type} [LinearOrderedField F] {Z : Type}

theorem ReadCompressedFile_zero (env : LoaderLib F Z) (name : String) (fuel : Nat)
    (st : LoaderState Z) : model_loader.ReadCompressedFile env name fuel 0 st = .ok ([], st) := by
  cases fuel <;> rfl

/-- A larger budget does not change an outcome of `ReadCompressedFile` that is not the exhaustion
of the budget. -/
theorem ReadCompressedFile_fuel (env : LoaderLib F Z) (name : String) (fuel : Nat) :
    ∀ (size : Nat) (st : LoaderState Z) (k : Nat),
      NoFuelErr (model_loader.ReadCompressedFile env name fuel size st) →
      model_loader.ReadCompressedFile env name (fuel + k) size st =
        model_loader.ReadCompressedFile env name fuel size st := by
  induction fuel with
  | zero =>
    intro size st k h
    cases size with
    | zero => rw [ReadCompressedFile_zero, ReadCompressedFile_zero]
    | succ n => exact absurd rfl h
  | succ m ih =>
    intro size st k h
    cases size with
    | zero => rw [ReadCompressedFile_zero, ReadCompressedFile_zero]
    | succ n =>
      rw [show m + 1 + k = (m + k) + 1 by omega]
      rw [model_loader.ReadCompressedFile] at h
      conv_lhs => rw [model_loader.ReadCompressedFile]
      conv_rhs => rw [model_loader.ReadCompressedFile]
      simp only at h ⊢
      split
      · rfl
      · rename_i st1 hfill
        split
        · rfl
        · split
          · rfl
          · split
            · rfl
            · split
              · rfl
              · split
                · rfl
                · rename_i c1 c2 c3 c4 c5
                  simp only [hfill, c1, c2, c3, c4, c5, if_false] at h
                  rw [ih]
                  intro hn
                  apply h
                  rw [hn]

end LoaderFuel

section LoaderClaimLemmas

variable {F : Type} [LinearOrderedField F] {Z : Type}

/-- Reading off the way an outcome fails. -/
theorem eq_error_of_errorOf {α : Type} {x : Except Err α} {e : Err}
    (h : errorOf x = some e) : x = .error e := by
  cases x with
  | error e' => simp only [errorOf, Option.some.injEq] at h; rw [h]
  | ok a => cases h

/-- The header checks of the loader of serialized meshes: with the format `0x041C`, every
version other than 3 is refused, the version 4 included. -/
theorem Load_version (env : LoaderLib F Z) (fuel : Nat) (filename : String) (index_shape : Int)
    (flip face : Bool) (lo hi : Nat) (rest : List Nat)
    (hf : env.fopen filename = some (0x1C :: 0x04 :: lo :: hi :: rest))
    (hv : lo + 256 * hi ≠ 3) :
    model_loader.Load env fuel filename index_shape flip face =
      .error (.MyException ("invalid file version for '" ++ filename ++ "'.")) := by
  unfold model_loader.Load
  simp only [hf]
  have h1 : model_loader.ReadElement env filename fuel 2 false
      { g_stream := 0x1C :: 0x04 :: lo :: hi :: rest, pos := 0, next_in := [],
        z := env.inflateInit2.2 } =
      .ok (0x041C,
        { g_stream := 0x1C :: 0x04 :: lo :: hi :: rest, pos := 2, next_in := [],
          z := env.inflateInit2.2 }) := by
    simp [model_loader.ReadElement, model_loader.ReadFile, model_loader.leValue]
  have h2 : model_loader.ReadElement env filename fuel 2 false
      { g_stream := 0x1C :: 0x04 :: lo :: hi :: rest, pos := 2, next_in := [],
        z := env.inflateInit2.2 } =
      .ok (lo + 256 * hi,
        { g_stream := 0x1C :: 0x04 :: lo :: hi :: rest, pos := 4, next_in := [],
          z := env.inflateInit2.2 }) := by
    simp [model_loader.ReadElement, model_loader.ReadFile, model_loader.leValue]
  simp only [h1, h2]
  simp [hv]

end LoaderClaimLemmas

section ClaimsLoaderHeader

/-- C22 (the code at the failing input). A serialized file with format `0x041C` and version
`0x0004` is refused with the invalid-file-version error, while a file of version `0x0003` is
read. -/
theorem C22_version_four_rejected :
    model_loader.Load (sampleLoaderLib fileVersion4) 64 "mesh.serialized" 0 false false =
      .error (.MyException "invalid file version for 'mesh.serialized'.") ∧
    (model_loader.Load (sampleLoaderLib fileWithNormals) 64 "mesh.serialized" 0 false
      false).toOption.map (fun m => m.positions.length) = some 1 :=
  ⟨Load_version (sampleLoaderLib fileVersion4) 64 "mesh.serialized" 0 false false 4 0 _ rfl
      (by decide),
    by decide!⟩

/-- C23 (the code at the failing input). A file of version 3 whose trailer announces one
sub-mesh, with the offset 16 in its table, and `index_shape = 1`, which is outside `0..count−1`:
`ProcessOffset` raises no error, reads the trailing count field as the offset and leaves the
stream at position `1 + 4`. In a file with three sub-meshes the indices 1 and 2 lead to the
offsets 6 and 10 of their own entries, the index 3 is accepted in the same way, and only the index
4 is refused. -/
theorem C23_index_equal_to_count_accepted :
    (model_loader.ProcessOffset (sampleLoaderLib fileOneMesh) "mesh.serialized" 64 1 3
      (afterHeader fileOneMesh)).toOption.map (fun st => st.pos) = some 5 ∧
    (model_loader.ProcessOffset (sampleLoaderLib fileThreeMeshes) "mesh.serialized" 64 1 3
      (afterHeader fileThreeMeshes)).toOption.map (fun st => st.pos) = some 10 ∧
    (model_loader.ProcessOffset (sampleLoaderLib fileThreeMeshes) "mesh.serialized" 64 2 3
      (afterHeader fileThreeMeshes)).toOption.map (fun st => st.pos) = some 14 ∧
    (model_loader.ProcessOffset (sampleLoaderLib fileThreeMeshes) "mesh.serialized" 64 3 3
      (afterHeader fileThreeMeshes)).toOption.map (fun st => st.pos) = some 7 ∧
    errorOf (model_loader.ProcessOffset (sampleLoaderLib fileThreeMeshes) "mesh.serialized" 64 4
      3 (afterHeader fileThreeMeshes)) =
      some (.MyException
        "unable to unserialize mesh, shape index is out of range for file 'mesh.serialized'.") :=
  ⟨by decide!, by decide!, by decide!, by decide!, by decide!⟩

/-- C24 (the code at the failing input). A root node with a mesh of three vertices and one face
and a child node with the same mesh: the face of the child, whose vertices start at offset 3, is
emitted as (1, 2, 3), the offset being the number of triangles so far. When the mesh of the root
has four faces, the face of the child is emitted as (4, 5, 6), and 6 is not smaller than the
number of positions. -/
theorem C24_child_offset_counts_triangles :
    (model_loader.LoadFile sampleAssimp "mesh.obj" false false).toOption.map
      (fun m => (m.positions.length, m.indices)) = some (6, [(0, 1, 2), (1, 2, 3)]) ∧
    (model_loader.LoadFile
        { importerReadFile := fun _ _ => some sceneManyFaces, GetErrorString := "" }
        "mesh.obj" false false).toOption.map
      (fun m => (m.positions.length, m.indices.getLast?)) = some (6, some (4, 5, 6)) :=
  ⟨by decide!, by decide!⟩

end ClaimsLoaderHeader

section SlipLemmas

variable {F : Type} [LinearOrderedField F]

/-- The loop over the `ref` children of a shape tests the id of the first `ref` child in every
turn: with at least one `ref` child, its result is decided by that id alone. -/
theorem shapeRefLoop_first (shape : XmlNode) (m : StrMap Nat) (d : Nat) (r : XmlNode)
    (rest : List XmlNode) :
    shapeRefLoop shape m (r :: rest) d =
      if m.count (attrValue ((shape.child "ref").attr "id")) then
        ((m.at? (attrValue ((shape.child "ref").attr "id"))).getD 0) % 2 ^ 32
      else d := by
  rw [shapeRefLoop]
  split
  · rfl
  · rename_i h
    exact shapeRefLoop_unknown shape m d (by simpa using h) rest

/-- The turbidity `ReadEmitter` hands to the texture synthesis is 1, whatever the scene gives:
`fminf(fmaxf(turbidity, 10.0f), 1.0f)`. -/
theorem readTurbidity_eq_one (lib : Lib F) (node : XmlNode) : readTurbidity lib node = 1 := by
  unfold readTurbidity
  simp only
  apply min_eq_right
  exact le_trans (by norm_num) (le_max_right _ _)

end SlipLemmas

section ClaimsSlips

/-- C25 (the code at the failing input). A cube whose first `ref` child names no BSDF and whose
second `ref` child names the defined BSDF `white`: the scene loads with that BSDF at index 0, and
the `id_bsdf` of the instance is the sentinel. -/
theorem C25_only_first_ref_is_tested :
    (shapeSecondRef.child "emitter").isNull = true ∧
    (shapeSecondRef.child "bsdf").isNull = true ∧
    (shapeSecondRef.childrenNamed "ref").map (fun r => attrValue (r.attr "id")) =
      ["missing", "white"] ∧
    (ReadShape (ratLib .null) shapeSecondRef
        { (initialState : ParserState ℚ) with map_bsdf := [("white", 0)] }).toOption.map
      (fun p => p.2.config.instances.map (fun i => i.id_bsdf)) = some [kMaxUint] ∧
    ∃ cfg, LoadConfig (ratLib sceneSecondRef) "scene.xml" initialState = .ok cfg ∧
      cfg.bsdfs.length = 1 ∧ cfg.instances.map (fun i => i.id_bsdf) = [kMaxUint] := by
  refine ⟨rfl, rfl, rfl, by decide!, ?_⟩
  obtain ⟨cfg, h, hl⟩ := ok_of_toOption_map
    (x := LoadConfig (ratLib sceneSecondRef) "scene.xml" initialState)
    (f := fun c => (c.bsdfs.length, c.instances.map (fun i => i.id_bsdf)))
    (b := (1, [kMaxUint])) (by decide!)
  simp only [Prod.mk.injEq] at hl
  exact ⟨cfg, h, hl.1, hl.2⟩

/-- C26 (the code at the failing input). A sun and sky emitter with turbidity 5, in an
environment whose synthesized textures record the turbidity they were made with: both textures
were made with turbidity 1, while the clamp to [1, 10] of the specification gives 5. -/
theorem C26_turbidity_always_one :
    ReadFloat (turbidityLib sceneSunsky) emitterSunsky ["turbidity"] 3 = 5 ∧
    specTurbidity (5 : ℚ) = 5 ∧
    readTurbidity (turbidityLib sceneSunsky) emitterSunsky = 1 ∧
    ∃ cfg, LoadConfig (turbidityLib sceneSunsky) "scene.xml" initialState = .ok cfg ∧
      cfg.textures.map TextureInfo.bitmapData? = [some [1], some [1]] := by
  refine ⟨by decide!, by decide!, readTurbidity_eq_one _ _, ?_⟩
  exact ok_of_toOption_map
    (x := LoadConfig (turbidityLib sceneSunsky) "scene.xml" initialState)
    (f := fun c => c.textures.map TextureInfo.bitmapData?)
    (b := [some [1], some [1]]) (by decide!)

/-- C27 (the code at the failing input). For a matrix node with the value `1 2 3 4 5 6 7 8 9`,
`ReadMat4` returns a matrix whose first row is 2, 3, 0, 0: the first two numbers were both stored
in the entry (0, 0) and no number in the entry (0, 2). The matrix of the specification has the
first row 1, 2, 3, 0. -/
theorem C27_nine_numbers_first_row_shifted :
    (ReadMat4 (ratLib .null) matrixNine).rows =
      [[2, 3, 0, 0], [4, 5, 6, 0], [7, 8, 9, 0], [0, 0, 0, 1]] ∧
    (specMat3 (fun i j => ((3 * i.val + j.val + 1 : Nat) : ℚ))).rows =
      [[1, 2, 3, 0], [4, 5, 6, 0], [7, 8, 9, 0], [0, 0, 0, 1]] :=
  ⟨by decide!, by decide!⟩

end ClaimsSlips

section DenominatorLemmas

variable {F : Type} [LinearOrderedField F]

/-- The edgetint the parser computes is a quotient with the denominator
`conductorEdgetintDenominator`. -/
theorem conductorEdgetint_den (lib : Lib F) (eta r : Vec3 F) :
    conductorEdgetint lib eta r =
      Vec3.div (Vec3.sub (Vec3.add (Vec3.splat 1) (Vec3.map lib.sqrtf r))
        (Vec3.mul eta (Vec3.sub (Vec3.splat 1) (Vec3.map lib.sqrtf r))))
        (conductorEdgetintDenominator lib r) := rfl

/-- The denominator the parser computes is the one of the specification in every channel. -/
theorem conductorEdgetintDenominator_eq (lib : Lib F) (r : Vec3 F) :
    conductorEdgetintDenominator lib r = Vec3.map (specEdgetintDenominator lib.sqrtf) r := by
  simp only [conductorEdgetintDenominator, Vec3.div, Vec3.add, Vec3.sub, Vec3.mul, Vec3.map,
    Vec3.zipWith, Vec3.splat, specEdgetintDenominator]

end DenominatorLemmas

section ClaimsDenominator

variable {F : Type} [LinearOrderedField F]

end ClaimsDenominator

section TransformLemmas

variable {F : Type} [LinearOrderedField F]

/-- A child whose name is not one of the five transform names leaves the result unchanged. -/
theorem transformStep_unrecognised (lib : Lib F) (result : Mat4 F) (node : XmlNode)
    (h : node.name ∉ transformNames) : transformStep lib result node = result := by
  simp only [transformNames, List.mem_cons, List.mem_singleton, not_or, List.mem_nil_iff,
    or_false] at h
  obtain ⟨h1, h2, h3, h4, h5⟩ := h
  unfold transformStep
  simp only [h1, h2, h3, h4, h5, if_false]

/-- Every iteration multiplies the result on the left by a matrix that depends on the child
only. -/
theorem transformStep_mul (lib : Lib F) (hone : ∀ a, lib.Mul Mat4.identity a = a)
    (node : XmlNode) :
    ∃ X, ∀ result, transformStep lib result node = lib.Mul X result := by
  unfold transformStep
  simp only
  split
  · exact ⟨_, fun _ => rfl⟩
  split
  · exact ⟨_, fun _ => rfl⟩
  split
  · exact ⟨_, fun _ => rfl⟩
  split
  · exact ⟨_, fun _ => rfl⟩
  split
  · exact ⟨_, fun _ => rfl⟩
  · exact ⟨Mat4.identity, fun r => (hone r).symm⟩

/-- The loop of `ReadTransform4` started from `X` is the loop started from the identity,
multiplied on the left of `X`. -/
theorem transformLoop_mul (lib : Lib F)
    (hassoc : ∀ a b c, lib.Mul (lib.Mul a b) c = lib.Mul a (lib.Mul b c))
    (hone : ∀ a, lib.Mul a Mat4.identity = a) (hone2 : ∀ a, lib.Mul Mat4.identity a = a) :
    ∀ (nodes : List XmlNode) (X : Mat4 F),
      nodes.foldl (transformStep lib) X =
        lib.Mul (nodes.foldl (transformStep lib) Mat4.identity) X
  | [], X => (hone2 X).symm
  | n :: nodes, X => by
    obtain ⟨Y, hY⟩ := transformStep_mul lib hone2 n
    rw [List.foldl_cons, List.foldl_cons, hY X, hY Mat4.identity, hone,
      transformLoop_mul lib hassoc hone hone2 nodes (lib.Mul Y X),
      transformLoop_mul lib hassoc hone hone2 nodes Y, hassoc]

/-- The matrix product is associative. -/
theorem matMul_assoc (a b c : Mat4 F) : matMul (matMul a b) c = matMul a (matMul b c) := by
  unfold matMul
  congr 1
  funext i j
  simp only
  ring

/-- The identity is neutral on the right of the matrix product. -/
theorem matMul_identity (a : Mat4 F) : matMul a Mat4.identity = a := by
  cases a with
  | mk m =>
    unfold matMul Mat4.identity
    congr 1
    funext i j
    fin_cases j <;> simp

/-- The identity is neutral on the left of the matrix product. -/
theorem identity_matMul (a : Mat4 F) : matMul Mat4.identity a = a := by
  cases a with
  | mk m =>
    unfold matMul Mat4.identity
    congr 1
    funext i j
    fin_cases i <;> simp

end TransformLemmas

section ClaimsTransform

variable {F : Type} [LinearOrderedField F]

/-- C29 (counterexample), with the binary32 matrix product. For the children `A` = (scale 0.1)
and `B` = (scale 0.1, scale 0.9), the node with the children `A` then `B` gives a matrix whose
first entry is 0.00900000054…, and `ReadTransform4(B) · ReadTransform4(A)` has the first entry
0.00899999961…. -/
theorem C29_rounded_product_counterexample :
    transformScales.children = transformScalesA.children ++ transformScalesB.children ∧
    (ReadTransform4 (float32Lib .null) transformScales).m 0 0 = 9663677 / 1073741824 ∧
    ((float32Lib .null).Mul (ReadTransform4 (float32Lib .null) transformScalesB)
      (ReadTransform4 (float32Lib .null) transformScalesA)).m 0 0 = 2415919 / 268435456 ∧
    ReadTransform4 (float32Lib .null) transformScales ≠
      (float32Lib .null).Mul (ReadTransform4 (float32Lib .null) transformScalesB)
        (ReadTransform4 (float32Lib .null) transformScalesA) := by
  have h1 : (ReadTransform4 (float32Lib .null) transformScales).m 0 0 =
      9663677 / 1073741824 := by decide!
  have h2 : ((float32Lib .null).Mul (ReadTransform4 (float32Lib .null) transformScalesB)
      (ReadTransform4 (float32Lib .null) transformScalesA)).m 0 0 = 2415919 / 268435456 := by
    decide!
  refine ⟨rfl, h1, h2, fun h => ?_⟩
  rw [h, h2] at h1
  exact absurd h1 (by decide!)

/-- C29 (amended). `ReadTransform4` returns the identity for a missing node and for a node
without children; a child whose name is none of `translate`, `rotate`, `scale`, `matrix`,
`lookat` leaves the result as it is; and for a node whose children are the list `A` followed by
the list `B`, the result is the left-multiplications of the children of `B`, in document order,
applied to `ReadTransform4(A)`. When the matrix product is associative and has the identity
matrix as neutral element, that is `ReadTransform4(B) · ReadTransform4(A)`. -/
theorem C29_transform_chain (lib : Lib F) :
    ReadTransform4 lib .null = Mat4.identity ∧
    (∀ name attrs, ReadTransform4 lib (.elem name attrs []) = Mat4.identity) ∧
    (∀ result node, node.name ∉ transformNames → transformStep lib result node = result) ∧
    (∀ name attrs pre post node, node.name ∉ transformNames →
      ReadTransform4 lib (.elem name attrs (pre ++ node :: post)) =
        ReadTransform4 lib (.elem name attrs (pre ++ post))) ∧
    (∀ name attrs nameA attrsA A B,
      ReadTransform4 lib (.elem name attrs (A ++ B)) =
        B.foldl (transformStep lib) (ReadTransform4 lib (.elem nameA attrsA A))) ∧
    ((∀ a b c, lib.Mul (lib.Mul a b) c = lib.Mul a (lib.Mul b c)) →
      (∀ a, lib.Mul a Mat4.identity = a) → (∀ a, lib.Mul Mat4.identity a = a) →
      ∀ name attrs nameA attrsA nameB attrsB A B,
        ReadTransform4 lib (.elem name attrs (A ++ B)) =
          lib.Mul (ReadTransform4 lib (.elem nameB attrsB B))
            (ReadTransform4 lib (.elem nameA attrsA A))) := by
  refine ⟨rfl, fun _ _ => rfl, ?_, ?_, ?_, ?_⟩
  · intro result node h
    exact transformStep_unrecognised lib result node h
  · intro name attrs pre post node h
    simp only [ReadTransform4, XmlNode.isNull, XmlNode.children, Bool.false_eq_true, if_false,
      List.foldl_append, List.foldl_cons]
    rw [transformStep_unrecognised lib _ node h]
  · intro name attrs nameA attrsA A B
    simp only [ReadTransform4, XmlNode.isNull, XmlNode.children, Bool.false_eq_true, if_false,
      List.foldl_append]
  · intro hassoc hone hone2 name attrs nameA attrsA nameB attrsB A B
    simp only [ReadTransform4, XmlNode.isNull, XmlNode.children, Bool.false_eq_true, if_false,
      List.foldl_append]
    exact transformLoop_mul lib hassoc hone hone2 B _

/-- C29 (witness). The statement for the sample environment over the rationals, whose `Mul` is
the exact matrix product, associative with the identity as neutral element; the node
`transformSample` (a translation by (1, 2, 3), a child of unknown name, a scaling by 2) gives
the scaling times the translation. -/
theorem C29_transform_chain_witness :
    (∀ a b c : Mat4 ℚ, (ratLib .null).Mul ((ratLib .null).Mul a b) c =
      (ratLib .null).Mul a ((ratLib .null).Mul b c)) ∧
    (∀ a : Mat4 ℚ, (ratLib .null).Mul a Mat4.identity = a) ∧
    (∀ a : Mat4 ℚ, (ratLib .null).Mul Mat4.identity a = a) ∧
    (∀ name attrs nameA attrsA A B,
      ReadTransform4 (ratLib .null) (.elem name attrs (A ++ B)) =
        B.foldl (transformStep (ratLib .null))
          (ReadTransform4 (ratLib .null) (.elem nameA attrsA A))) ∧
    (∀ name attrs nameA attrsA nameB attrsB A B,
      ReadTransform4 (ratLib .null) (.elem name attrs (A ++ B)) =
        (ratLib .null).Mul (ReadTransform4 (ratLib .null) (.elem nameB attrsB B))
          (ReadTransform4 (ratLib .null) (.elem nameA attrsA A))) ∧
    (ReadTransform4 (ratLib .null) transformSample).rows =
      [[2, 0, 0, 2], [0, 2, 0, 4], [0, 0, 2, 6], [0, 0, 0, 1]] :=
  ⟨matMul_assoc, matMul_identity, identity_matMul,
    (C29_transform_chain (ratLib .null)).2.2.2.2.1,
    (C29_transform_chain (ratLib .null)).2.2.2.2.2 matMul_assoc matMul_identity identity_matMul,
    by decide!⟩

end ClaimsTransform

section DepthLemmas

variable {F : Type} [LinearOrderedField F]

/-- A text that `std::stoi` converts is not empty. -/
theorem stoi_ok_nonempty (text : String) (v : Int) (h : stoi text = .ok v) :
    text.isEmpty = false := by
  cases he : text.isEmpty with
  | false => rfl
  | true =>
    have : text = "" := (String.isEmpty_iff text).mp he
    subst this
    cases h

/-- The block that reads an integer, for a text that does not start with `$` and that
`std::stoi` converts to `v`. -/
theorem readIntText_plain (m : StrMap String) (text : String) (missing : Err) (v : Int)
    (hd : text.toList.head? ≠ some '$') (h : stoi text = .ok v) :
    readIntText m text missing = .ok (some v) := by
  unfold readIntText
  rw [stoi_ok_nonempty text v h, if_neg (by simp), if_neg hd, h]
  rfl

/-- An `integer` child named `maxDepth` or `max_depth` with such a text assigns `max_depth`. -/
theorem integratorStep_maxDepth (m : StrMap String) (st : Nat × Nat) (node : XmlNode) (v : Int)
    (hname : attrValue (node.attr "name") = "maxDepth" ∨
      attrValue (node.attr "name") = "max_depth")
    (hd : (attrValue (node.attr "value")).toList.head? ≠ some '$')
    (h : stoi (attrValue (node.attr "value")) = .ok v) :
    integratorStep m st node = .ok (toUint32 v, st.2) := by
  unfold integratorStep
  simp only
  rw [if_pos hname, readIntText_plain m _ _ v hd h]
  rfl

/-- Children that are not named `maxDepth` or `max_depth` leave `max_depth` as it is. -/
theorem integratorLoop_keeps_maxDepth (m : StrMap String) :
    ∀ (nodes : List XmlNode) (st st' : Nat × Nat),
      (∀ n ∈ nodes, attrValue (n.attr "name") ≠ "maxDepth" ∧
        attrValue (n.attr "name") ≠ "max_depth") →
      nodes.foldlM (integratorStep m) st = .ok st' → st'.1 = st.1
  | [], st, st', _, h => by
    cases h
    rfl
  | n :: nodes, st, st', hn, h => by
    rw [List.foldlM_cons, bind_ok_iff] at h
    obtain ⟨st1, h1, h2⟩ := h
    have hk := integratorLoop_keeps_maxDepth m nodes st1 st'
      (fun k hk => hn k (List.mem_cons_of_mem _ hk)) h2
    rw [hk]
    have hnn := hn n (List.mem_cons_self _ _)
    unfold integratorStep at h1
    simp only at h1
    rw [if_neg (by rintro (c | c); exact hnn.1 c; exact hnn.2 c)] at h1
    split at h1
    · rw [bind_ok_iff] at h1
      obtain ⟨w, _, h3⟩ := h1
      cases h3
      rfl
    · cases h1
      rfl

/-- The conversion of an `int` to `uint32_t` is the remainder modulo 2^32. -/
theorem toUint32_cast (v : Int) : ((toUint32 v : Nat) : Int) = v % 2 ^ 32 := by
  unfold toUint32
  exact Int.toNat_of_nonneg (Int.emod_nonneg v (by norm_num))

end DepthLemmas

section ClaimsDepth

variable {F : Type} [LinearOrderedField F]

/-- C30. Let the `integer` children of an integrator node be `pre`, then a child named
`maxDepth` or `max_depth` whose value text does not start with `$` and is converted by
`std::stoi` to the `int` `v`, then `post` with no child of these two names; when the loop
throws nothing on `pre` and `post`, `ReadIntegrator` returns and stores
`depth_max = v mod 2^32`; for `v = -1` that is `2^32 − 1`, the value `kMaxUint` that
`max_depth` starts with. -/
theorem C30_max_depth_mod (lib : Lib F) (node c : XmlNode) (s : ParserState F)
    (pre post : List XmlNode) (v : Int) (st0 st1 : Nat × Nat)
    (hch : node.childrenNamed "integer" = pre ++ c :: post)
    (hname : attrValue (c.attr "name") = "maxDepth" ∨ attrValue (c.attr "name") = "max_depth")
    (hd : (attrValue (c.attr "value")).toList.head? ≠ some '$')
    (hv : stoi (attrValue (c.attr "value")) = .ok v)
    (hlast : ∀ n ∈ post, attrValue (n.attr "name") ≠ "maxDepth" ∧
      attrValue (n.attr "name") ≠ "max_depth")
    (hpre : pre.foldlM (integratorStep s.map_default) (kMaxUint, 5) = .ok st0)
    (hpost : post.foldlM (integratorStep s.map_default) (toUint32 v, st0.2) = .ok st1) :
    -(2 : Int) ^ 31 ≤ v ∧ v ≤ 2 ^ 31 - 1 ∧
    ∃ s', ReadIntegrator lib node s = .ok s' ∧
      (s'.config.integrator.depth_max : Int) = v % 2 ^ 32 ∧
      (v = -1 → s'.config.integrator.depth_max = 2 ^ 32 - 1 ∧
        s'.config.integrator.depth_max = kMaxUint) := by
  have hrange := stoi_range hv
  have hloop : (node.childrenNamed "integer").foldlM (integratorStep s.map_default)
      (kMaxUint, 5) = .ok st1 := by
    rw [hch, List.foldlM_append, hpre]
    show (c :: post).foldlM (integratorStep s.map_default) st0 = .ok st1
    rw [List.foldlM_cons, integratorStep_maxDepth _ st0 c v hname hd hv]
    exact hpost
  have hkeep := integratorLoop_keeps_maxDepth s.map_default post _ st1 hlast hpost
  have hr : ReadIntegrator lib node s = .ok { s with config := { s.config with integrator :=
      { depth_max := st1.1, depth_rr := st1.2
        hide_emitters := ReadBoolean node ["hide_emitters", "hideEmitters"] false
        pdf_rr := ReadFloat lib node ["rr_pdf", "rrPdf"] (95 / 100)
        type := if integratorTypeText s.map_default node = "volpath" then .kVolPath
          else .kPath } } } := by
    unfold ReadIntegrator
    rw [hloop]
    rfl
  refine ⟨hrange.1, hrange.2, _, hr, ?_, ?_⟩
  · show ((st1.1 : Nat) : Int) = v % 2 ^ 32
    rw [hkeep]
    exact toUint32_cast v
  · intro h1
    subst h1
    show st1.1 = 2 ^ 32 - 1 ∧ st1.1 = kMaxUint
    rw [hkeep]
    have e : toUint32 (-1) = 2 ^ 32 - 1 := by decide
    exact ⟨e, e⟩

/-- C30 (witness). The integrator `integratorDepths`, whose `maxDepth` is `-1` and is followed
by an `rrDepth`: `depth_max` is `2^32 − 1`, as for the integrator `integratorBare` that gives no
`maxDepth`. -/
theorem C30_max_depth_mod_witness :
    (-(2 : Int) ^ 31 ≤ -1 ∧ (-1 : Int) ≤ 2 ^ 31 - 1 ∧
    ∃ s', ReadIntegrator (ratLib .null) integratorDepths initialState = .ok s' ∧
      (s'.config.integrator.depth_max : Int) = -1 % 2 ^ 32 ∧
      ((-1 : Int) = -1 → s'.config.integrator.depth_max = 2 ^ 32 - 1 ∧
        s'.config.integrator.depth_max = kMaxUint)) ∧
    (ReadIntegrator (ratLib .null) integratorBare initialState).toOption.map
      (fun s' => s'.config.integrator.depth_max) = some (2 ^ 32 - 1) :=
  ⟨C30_max_depth_mod (ratLib .null) integratorDepths
      (.elem "integer" [⟨"name", "maxDepth"⟩, ⟨"value", "-1"⟩] []) initialState []
      [.elem "integer" [⟨"name", "rrDepth"⟩, ⟨"value", "7"⟩] []] (-1) (kMaxUint, 5)
      (kMaxUint, 7) rfl (Or.inl (by decide)) (by decide) (eq_ok_of_toOption (by decide!))
      (fun n hn => by
        simp only [List.mem_singleton] at hn
        subst hn
        exact ⟨by decide, by decide⟩)
      rfl (eq_ok_of_toOption (by decide!)),
    by decide!⟩

end ClaimsDepth

section AccelCore

variable {F : Type} [LinearOrderedField F]

variable {isect : Nat → Ray F → Option (Option (Hit F))} {ray0 : Ray F} {tm0 : F}
  {dist : Nat → Option F} {Good : Nat → Hit F → Prop}

end AccelCore

section AccelTraverse

variable {F : Type} [LinearOrderedField F]

variable {isect : Nat → Ray F → Option (Option (Hit F))} {ray0 : Ray F} {tm0 : F}
  {dist : Nat → Option F} {Good : Nat → Hit F → Prop}

end AccelTraverse

section AccelInstance

variable {F : Type} [LinearOrderedField F]

/-- The local ray of a world ray with another `t_max`. -/
theorem toLocal_withTmax (lib : Lib F) (inst : Instance F) (ray : Ray F) (tm : F) :
    inst.toLocal lib (ray.withTmax tm) =
      ((inst.toLocal lib ray).1.withTmax (tm * (inst.toLocal lib ray).2),
        (inst.toLocal lib ray).2) := rfl

end AccelInstance

section AccelTlas

variable {F : Type} [LinearOrderedField F]

end AccelTlas

section AccelFinal

variable {F : Type} [LinearOrderedField F]

end AccelFinal

section ClaimsAccel

variable {F : Type} [LinearOrderedField F]

end ClaimsAccel

end Csrt
